import Mathlib

/-!
# Ticket inventory and booking lifecycle

A shallow embedding of the booking, cancellation, payment and update request handlers of
the event-ticketing backend (`controllers/bookingController.js`,
`controllers/paymentController.js`, `controllers/eventController.js`, `models/Booking.js`,
`models/Event.js`, `routes/bookings.js`) and of the cart reducer of the frontend
(`context/CartContext.jsx`).

Modelling conventions.

* The two MongoDB collections are the two lists of a `Store`.  A handler is a function
  from the store before the request to the response and the store after it.
* Everything a handler reads that is neither the request nor the store is a field of `Env`:
  the document id assigned on insert, the value returned by `Math.random()`, the clock,
  whether a write to a collection is accepted, and the payment gateway.
* Ticket counts are integers and amounts of money are rationals; JavaScript floating point
  rounding is not modelled.
* An `await`ed call that throws is modelled by `none`; the handler's `catch` block turns it
  into the 500 response.
* Document ids are strings.  The ids of stored documents are taken to be `ObjectId`s, as
  the database assigns them, so a lookup that finds a document has been given an id that the
  driver can cast.  For an id that finds no document the handlers tell the malformed one
  apart (`isObjectId`): the driver throws `CastError` for it and the `catch` block answers
  500.  The examples write short names (`E`, `b1`) for the ids of stored documents.
* The handlers are functions of one request.  Requests that overlap are the subject of the
  section on `createBooking` between its database operations.
-/

namespace Ticketing

/-! ## Data model -/

/-- One entry of `EventSchema.tickets`. -/
structure EventTicket where
  type : String
  price : ℚ
  quantity : Int
  available : Int
deriving DecidableEq

/-- The fields of an `Event` document that the handlers read or write. -/
structure Event where
  id : String
  title : String
  tickets : List EventTicket
  organizer : String := ""
deriving DecidableEq

/-- The enum of `BookingSchema.paymentStatus`. -/
inductive PaymentStatus where
  | pending
  | completed
  | failed
  | refunded
deriving DecidableEq

/-- The enum of `BookingSchema.bookingStatus`. -/
inductive BookingStatus where
  | confirmed
  | cancelled
  | pending
deriving DecidableEq

/-- One entry of `BookingSchema.tickets`, as stored. -/
structure BookingTicket where
  ticketType : String
  quantity : Int
  price : ℚ
deriving DecidableEq

/-- The sub-document `BookingSchema.attendeeInformation`. -/
structure AttendeeInformation where
  name : String
  email : String
  phone : String
deriving DecidableEq

/-- A stored `Booking` document (`createdAt` is left out: no handler reads it). -/
structure Booking where
  id : String
  user : String
  event : String
  tickets : List BookingTicket
  totalAmount : ℚ
  paymentStatus : PaymentStatus
  paymentMethod : String
  paymentId : Option String
  bookingStatus : BookingStatus
  bookingReference : Option String
  attendeeInformation : Option AttendeeInformation
deriving DecidableEq

/-- The two collections. -/
structure Store where
  events : List Event
  bookings : List Booking
deriving DecidableEq

/-- The authenticated requester, `req.user`. -/
structure User where
  id : String
  role : String
deriving DecidableEq

/-! ## Requests -/

/-- One element of `req.body.tickets`; a line may come without a price. -/
structure TicketLine where
  ticketType : String
  quantity : Int
  price : Option ℚ
deriving DecidableEq

/-- The body of `POST /bookings`.  The handler reads the first five fields; the last three
are fields a caller may send along and that the handler never reads. An absent string field
is the empty string. -/
structure CreateBookingBody where
  event : String
  tickets : List TicketLine
  totalAmount : Option ℚ
  paymentMethod : String
  attendeeInformation : Option AttendeeInformation
  bookingStatus : Option BookingStatus
  paymentStatus : Option PaymentStatus
  paymentId : Option String
deriving DecidableEq

/-- The body of `POST /payments/process`, with the `bookingId` string it carries.  The
handler reads `bookingId` and `paymentMethodId`; `amount` is a field a caller may send along
and that the handler never reads. -/
structure PaymentBody where
  bookingId : String
  paymentMethodId : String
  amount : Option ℚ := none
deriving DecidableEq

/-! ## Payment gateway -/

/-- The argument of `stripe.paymentIntents.create`. -/
structure IntentParams where
  amount : Int
  currency : String
  payment_method : String
  confirm : Bool
  description : String
  booking_id : String
  event_id : String
  user_id : String
deriving DecidableEq

/-- The fields of a payment intent that `processPayment` reads. -/
structure PaymentIntent where
  id : String
  amount : Int
  status : String
deriving DecidableEq

/-- What the call to the gateway does: it returns an intent, or it throws. -/
inductive GatewayOutcome where
  | intent (paymentIntent : PaymentIntent)
  | stripeCardError (message : String)
  | otherError
deriving DecidableEq

/-- The surroundings of one request. -/
structure Env where
  /-- the `_id` the driver assigns to an inserted document -/
  newId : String
  /-- the value returned by `Math.random()` -/
  random : ℚ
  /-- the value returned by `Date.now()` -/
  now : Nat
  /-- whether the bookings collection accepts the write -/
  bookingWriteOk : Bool
  /-- whether the events collection accepts the write -/
  eventSaveOk : Bool
  /-- `process.env.BYPASS_STRIPE === 'true'` -/
  bypassStripe : Bool
  /-- the payment gateway -/
  gateway : IntentParams → GatewayOutcome
  /-- `stripe.paymentIntents.retrieve`; `none` when the call throws -/
  retrieve : String → Option PaymentIntent := fun _ => none
  /-- the `client_secret` of the intent that `createPaymentIntent` asks the gateway for;
  `none` when the call throws -/
  clientSecret : IntentParams → Option String := fun _ => none

/-! ## Collections -/

/-- The characters of the hexadecimal notation of an `ObjectId`. -/
def hexDigits : List Char :=
  ['0', '1', '2', '3', '4', '5', '6', '7', '8', '9',
   'a', 'b', 'c', 'd', 'e', 'f', 'A', 'B', 'C', 'D', 'E', 'F']

/-- Whether the driver casts the string to an `ObjectId`: it does for 24 hexadecimal digits,
and throws `CastError` for a malformed id.  (Versions of the driver that also take any string
of 12 bytes are not modelled; the version is not pinned in the sources.) -/
def isObjectId (id : String) : Bool :=
  id.data.length == 24 && id.data.all (fun c => hexDigits.contains c)

/-- `Event.findById` for an id that the driver casts: the stored event with that id.  For an
id that finds nothing, the caller looks at `isObjectId` to tell the result `null` from the
`CastError` that the query throws for a malformed id. -/
def Event.findById (events : List Event) (id : String) : Option Event :=
  events.find? (fun e => e.id == id)

/-- `event.save()` once the write is accepted: the stored document with the same id is
replaced. -/
def Event.save : List Event → Event → List Event
  | [], _ => []
  | e :: es, doc => if e.id == doc.id then doc :: es else e :: Event.save es doc

/-- `Booking.findById` for an id that the driver casts: the stored booking with that id.  For
an id that finds nothing, the caller looks at `isObjectId` to tell the result `null` from the
`CastError` that the query throws for a malformed id. -/
def Booking.findById (bookings : List Booking) (id : String) : Option Booking :=
  bookings.find? (fun b => b.id == id)

/-- Replace the stored booking that has the id of `doc`. -/
def Booking.replace : List Booking → Booking → List Booking
  | [], _ => []
  | b :: bs, doc => if b.id == doc.id then doc :: bs else b :: Booking.replace bs doc

/-- The numeric suffix of a generated reference, `Math.floor(1000000 + Math.random() * 9000000)`. -/
def referenceNumber (random : ℚ) : Int :=
  Int.floor (1000000 + random * 9000000)

/-- The `pre('save')` hook of `BookingSchema`: a booking without a reference gets one. -/
def preSave (random : ℚ) (b : Booking) : Booking :=
  if b.bookingReference = none ∨ b.bookingReference = some "" then
    { b with bookingReference := some ("BK-" ++ toString (referenceNumber random)) }
  else b

/-- The enum of `BookingSchema.paymentMethod`. -/
def paymentMethodEnum : List String :=
  ["credit_card", "paypal", "bank_transfer", "other"]

/-- Schema validation and casting of the `tickets` array of a new booking: every line needs a
`ticketType` (a required string, so not the empty one), a `quantity` of at least 1 and a
`price`.  `none` is a validation error. -/
def castTickets : List TicketLine → Option (List BookingTicket)
  | [] => some []
  | l :: ls =>
    match l.price with
    | none => none
    | some p =>
      if l.ticketType ≠ "" ∧ 1 ≤ l.quantity then
        match castTickets ls with
        | none => none
        | some ts => some ({ ticketType := l.ticketType, quantity := l.quantity, price := p } :: ts)
      else none

/-- The argument object of `Booking.create` in `createBooking`. -/
structure BookingInput where
  user : String
  event : String
  tickets : List TicketLine
  totalAmount : Option ℚ
  paymentMethod : String
  attendeeInformation : Option AttendeeInformation

/-- `Booking.create`: the document is built with the schema defaults (`paymentStatus` and
`bookingStatus` are `pending`, there is no `paymentId`), validated against the schema, given
a reference by the pre-save hook and inserted.  The insert is refused when the collection
does not accept the write or when the `_id` or the unique `bookingReference` is already
taken.  `none` is a thrown error; otherwise the new document and the new collection. -/
def Booking.create (env : Env) (bookings : List Booking) (input : BookingInput) :
    Option (Booking × List Booking) :=
  match castTickets input.tickets, input.totalAmount with
  | some tickets, some total =>
    if input.user ≠ "" ∧ input.event ≠ "" ∧ input.paymentMethod ∈ paymentMethodEnum then
      let doc : Booking := preSave env.random
        { id := env.newId
          user := input.user
          event := input.event
          tickets := tickets
          totalAmount := total
          paymentStatus := PaymentStatus.pending
          paymentMethod := input.paymentMethod
          paymentId := none
          bookingStatus := BookingStatus.pending
          bookingReference := none
          attendeeInformation := input.attendeeInformation }
      if env.bookingWriteOk
          ∧ (∀ b ∈ bookings, b.id ≠ doc.id)
          ∧ (∀ b ∈ bookings, b.bookingReference ≠ doc.bookingReference) then
        some (doc, bookings ++ [doc])
      else none
    else none
  | _, _ => none

/-- `booking.save()` on a loaded booking: the pre-save hook runs, then the stored document is
replaced.  The write is refused when the collection does not accept it, or when the hook had
to generate a reference and another booking already has it.  `none` is a thrown error;
otherwise the saved document and the new collection. -/
def Booking.save (env : Env) (bookings : List Booking) (b : Booking) :
    Option (Booking × List Booking) :=
  let doc := preSave env.random b
  if env.bookingWriteOk
      ∧ (doc.bookingReference = b.bookingReference
          ∨ ∀ o ∈ bookings, o.id ≠ b.id → o.bookingReference ≠ doc.bookingReference) then
    some (doc, Booking.replace bookings doc)
  else none

/-! ## `createBooking` -/

/-- The response of `createBooking`. -/
inductive CreateResponse where
  /-- 400 with the array of validation errors -/
  | validationErrors (errors : List String)
  /-- 404 `Event not found` -/
  | eventNotFound
  /-- 400 `Ticket type ... not found` -/
  | ticketTypeNotFound (ticketType : String)
  /-- 400 `Not enough ... tickets available` -/
  | notEnoughTickets (ticketType : String)
  /-- 201 with the booking -/
  | created (booking : Booking)
  /-- 500 `Server error` -/
  | serverError
deriving DecidableEq

/-- The HTTP status of a response of `createBooking`. -/
def CreateResponse.status : CreateResponse → Nat
  | .validationErrors _ => 400
  | .eventNotFound => 404
  | .ticketTypeNotFound _ => 400
  | .notEnoughTickets _ => 400
  | .created _ => 201
  | .serverError => 500

/-- The validation chain of `POST /bookings` in `routes/bookings.js`: the messages of the
checks that fail. -/
def validationResult (body : CreateBookingBody) : List String :=
  (if body.event = "" then ["Event ID is required"] else [])
  ++ (if body.tickets.length < 1 then ["Tickets are required"] else [])
  ++ (if body.totalAmount = none then ["Total amount is required"] else [])
  ++ (if body.paymentMethod = "" then ["Payment method is required"] else [])

/-- `eventExists.tickets.find(t => t.type === ticketType)`. -/
def findTicket (tickets : List EventTicket) (ticketType : String) : Option EventTicket :=
  tickets.find? (fun t => t.type == ticketType)

/-- The first loop of `createBooking`: the response of the first line that fails, if any. -/
def checkTickets (eventTickets : List EventTicket) : List TicketLine → Option CreateResponse
  | [] => none
  | ticket :: rest =>
    match findTicket eventTickets ticket.ticketType with
    | none => some (.ticketTypeNotFound ticket.ticketType)
    | some eventTicket =>
      if eventTicket.available < ticket.quantity then
        some (.notEnoughTickets ticket.ticketType)
      else checkTickets eventTickets rest

/-- Find the first ticket of the given type and add `delta` to its `available`, in place.
`none` when there is no such ticket. -/
def adjustAvailable (ticketType : String) (delta : Int) :
    List EventTicket → Option (List EventTicket)
  | [] => none
  | t :: ts =>
    if t.type == ticketType then some ({ t with available := t.available + delta } :: ts)
    else (adjustAvailable ticketType delta ts).map (fun ts' => t :: ts')

/-- The second loop of `createBooking`: `eventTicket.available -= ticket.quantity` for each
line.  `none` is the `TypeError` of a line whose ticket type is not found. -/
def updateAvailability : List EventTicket → List TicketLine → Option (List EventTicket)
  | eventTickets, [] => some eventTickets
  | eventTickets, ticket :: rest =>
    match adjustAvailable ticket.ticketType (-ticket.quantity) eventTickets with
    | none => none
    | some eventTickets' => updateAvailability eventTickets' rest

/-- The handler of `POST /bookings`.  The lookup of an event id that is not an `ObjectId`
throws, and the `catch` block answers 500. -/
def createBooking (env : Env) (user : User) (body : CreateBookingBody) (s : Store) :
    CreateResponse × Store :=
  if validationResult body ≠ [] then (.validationErrors (validationResult body), s)
  else
    match Event.findById s.events body.event with
    | none => if isObjectId body.event then (.eventNotFound, s) else (.serverError, s)
    | some eventExists =>
      match checkTickets eventExists.tickets body.tickets with
      | some failure => (failure, s)
      | none =>
        match Booking.create env s.bookings
            { user := user.id
              event := body.event
              tickets := body.tickets
              totalAmount := body.totalAmount
              paymentMethod := body.paymentMethod
              attendeeInformation := body.attendeeInformation } with
        | none => (.serverError, s)
        | some (booking, bookings') =>
          match updateAvailability eventExists.tickets body.tickets with
          | none => (.serverError, { s with bookings := bookings' })
          | some tickets' =>
            if env.eventSaveOk then
              (.created booking,
                { events := Event.save s.events { eventExists with tickets := tickets' }
                  bookings := bookings' })
            else (.serverError, { s with bookings := bookings' })

/-! ## `cancelBooking` -/

/-- The response of `cancelBooking`. -/
inductive CancelResponse where
  /-- 404 `No booking found with the id of ...` -/
  | bookingNotFound
  /-- 401 `Not authorized to cancel this booking` -/
  | notAuthorized
  /-- 400 `This booking is already cancelled` -/
  | alreadyCancelled
  /-- 200 with the booking -/
  | cancelled (booking : Booking)
  /-- 500 `Server error` -/
  | serverError
deriving DecidableEq

/-- The loop of `cancelBooking`: `eventTicket.available += ticket.quantity` for each line
whose ticket type is found on the event; the other lines are skipped. -/
def releaseTickets : List EventTicket → List BookingTicket → List EventTicket
  | eventTickets, [] => eventTickets
  | eventTickets, ticket :: rest =>
    match adjustAvailable ticket.ticketType ticket.quantity eventTickets with
    | none => releaseTickets eventTickets rest
    | some eventTickets' => releaseTickets eventTickets' rest

/-- The handler of `PUT /bookings/:id/cancel`. -/
def cancelBooking (env : Env) (user : User) (id : String) (s : Store) :
    CancelResponse × Store :=
  match Booking.findById s.bookings id with
  | none => if isObjectId id then (.bookingNotFound, s) else (.serverError, s)
  | some booking =>
    if booking.user ≠ user.id ∧ user.role ≠ "admin" then (.notAuthorized, s)
    else if booking.bookingStatus = BookingStatus.cancelled then (.alreadyCancelled, s)
    else
      match Booking.save env s.bookings { booking with bookingStatus := BookingStatus.cancelled } with
      | none => (.serverError, s)
      | some (saved, bookings') =>
        match Event.findById s.events saved.event with
        | none => (.cancelled saved, { s with bookings := bookings' })
        | some event =>
          if env.eventSaveOk then
            (.cancelled saved,
              { events := Event.save s.events
                  { event with tickets := releaseTickets event.tickets saved.tickets }
                bookings := bookings' })
          else (.serverError, { s with bookings := bookings' })

/-! ## `processPayment` -/

/-- The response of `processPayment`. -/
inductive PaymentResponse where
  /-- 404 `Booking not found` -/
  | bookingNotFound
  /-- 401 `Not authorized to process this payment` -/
  | notAuthorized
  /-- 400 `This booking is already paid for` -/
  | alreadyPaid
  /-- 200 `Payment successful` with the booking and the intent -/
  | paymentSuccessful (booking : Booking) (paymentIntent : PaymentIntent)
  /-- 400 `Payment failed` with the intent -/
  | paymentFailed (paymentIntent : PaymentIntent)
  /-- 400 with the message of the card error -/
  | cardError (message : String)
  /-- 500 -/
  | serverError
deriving DecidableEq

/-- The HTTP status of a response of `processPayment`. -/
def PaymentResponse.status : PaymentResponse → Nat
  | .bookingNotFound => 404
  | .notAuthorized => 401
  | .alreadyPaid => 400
  | .paymentSuccessful _ _ => 200
  | .paymentFailed _ => 400
  | .cardError _ => 400
  | .serverError => 500

/-- The `success` field of a response of `processPayment`. -/
def PaymentResponse.success : PaymentResponse → Bool
  | .paymentSuccessful _ _ => true
  | _ => false

/-- The booking that a response of `processPayment` carries, if it carries one. -/
def PaymentResponse.booking : PaymentResponse → Option Booking
  | .paymentSuccessful booking _ => some booking
  | _ => none

/-- `Math.round(booking.totalAmount * 100)`: rounding to the nearest integer, halves up. -/
def amountInCents (totalAmount : ℚ) : Int :=
  Int.floor (totalAmount * 100 + 1 / 2)

/-- The argument that `processPayment` passes to `stripe.paymentIntents.create`. -/
def intentParams (booking : Booking) (event : Event) (user : User) (body : PaymentBody) :
    IntentParams :=
  { amount := amountInCents booking.totalAmount
    currency := "usd"
    payment_method := body.paymentMethodId
    confirm := true
    description := "Booking for " ++ event.title
    booking_id := booking.id
    event_id := event.id
    user_id := user.id }

/-- The mock intent of the `BYPASS_STRIPE` branch. -/
def mockPaymentIntent (env : Env) (booking : Booking) : PaymentIntent :=
  { id := "pi_mock_" ++ toString env.now
    amount := amountInCents booking.totalAmount
    status := "succeeded" }

/-- The update of the booking after a successful charge, followed by `booking.save()`. -/
def recordPayment (env : Env) (s : Store) (booking : Booking) (paymentIntent : PaymentIntent) :
    PaymentResponse × Store :=
  match Booking.save env s.bookings
      { booking with
        paymentStatus := PaymentStatus.completed
        bookingStatus := BookingStatus.confirmed
        paymentId := some paymentIntent.id } with
  | none => (.serverError, s)
  | some (saved, bookings') => (.paymentSuccessful saved paymentIntent, { s with bookings := bookings' })

/-- The handler of `POST /payments/process`.  `populate('event')` leaves `booking.event` null
when the event is gone, and reading its `title` then throws. -/
def processPayment (env : Env) (user : User) (body : PaymentBody) (s : Store) :
    PaymentResponse × Store :=
  match Booking.findById s.bookings body.bookingId with
  | none => if isObjectId body.bookingId then (.bookingNotFound, s) else (.serverError, s)
  | some booking =>
    if booking.user ≠ user.id then (.notAuthorized, s)
    else if booking.paymentStatus = PaymentStatus.completed then (.alreadyPaid, s)
    else
      match Event.findById s.events booking.event with
      | none => (.serverError, s)
      | some event =>
        if env.bypassStripe then recordPayment env s booking (mockPaymentIntent env booking)
        else
          match env.gateway (intentParams booking event user body) with
          | .intent paymentIntent =>
            if paymentIntent.status = "succeeded" then recordPayment env s booking paymentIntent
            else (.paymentFailed paymentIntent, s)
          | .stripeCardError message => (.cardError message, s)
          | .otherError => (.serverError, s)

/-- The call that `processPayment` makes to the payment gateway, if it makes one: the
argument of `stripe.paymentIntents.create` on the path that reaches it. -/
def gatewayRequest (env : Env) (user : User) (body : PaymentBody) (s : Store) :
    Option IntentParams :=
  match Booking.findById s.bookings body.bookingId with
  | none => none
  | some booking =>
    if booking.user ≠ user.id then none
    else if booking.paymentStatus = PaymentStatus.completed then none
    else
      match Event.findById s.events booking.event with
      | none => none
      | some event =>
        if env.bypassStripe then none else some (intentParams booking event user body)

/-! ## The responses of `cancelBooking` -/

/-- The HTTP status of a response of `cancelBooking`. -/
def CancelResponse.status : CancelResponse → Nat
  | .bookingNotFound => 404
  | .notAuthorized => 401
  | .alreadyCancelled => 400
  | .cancelled _ => 200
  | .serverError => 500

/-! ## `getPaymentStatus` and `createPaymentIntent` -/

/-- The response of `getPaymentStatus`. -/
inductive StatusResponse where
  /-- 404 `Booking not found` -/
  | bookingNotFound
  /-- 401 `Not authorized to view this payment` -/
  | notAuthorized
  /-- 200 with the two statuses and, for a booking with a payment id, the payment details -/
  | statuses (bookingStatus : BookingStatus) (paymentStatus : PaymentStatus)
      (paymentDetails : Option PaymentIntent)
  /-- 500 `Server error` -/
  | serverError
deriving DecidableEq

/-- The statuses that a response of `getPaymentStatus` carries, if it carries them. -/
def StatusResponse.carried : StatusResponse → Option (BookingStatus × PaymentStatus)
  | .statuses bookingStatus paymentStatus _ => some (bookingStatus, paymentStatus)
  | _ => none

/-- The handler of `GET /payments/:bookingId`.  It calls no write operation, so the store it
returns is the store it was given. -/
def getPaymentStatus (env : Env) (user : User) (bookingId : String) (s : Store) :
    StatusResponse × Store :=
  match Booking.findById s.bookings bookingId with
  | none => if isObjectId bookingId then (.bookingNotFound, s) else (.serverError, s)
  | some booking =>
    if booking.user ≠ user.id ∧ user.role ≠ "admin" then (.notAuthorized, s)
    else
      match booking.paymentId with
      | none => (.statuses booking.bookingStatus booking.paymentStatus none, s)
      | some paymentId =>
        if paymentId = "" then
          (.statuses booking.bookingStatus booking.paymentStatus none, s)
        else if env.bypassStripe then
          (.statuses booking.bookingStatus booking.paymentStatus
            (some { id := paymentId
                    amount := amountInCents booking.totalAmount
                    status := "succeeded" }), s)
        else
          match env.retrieve paymentId with
          | none => (.serverError, s)
          | some paymentIntent =>
            (.statuses booking.bookingStatus booking.paymentStatus (some paymentIntent), s)

/-- The response of `createPaymentIntent`. -/
inductive IntentResponse where
  /-- 404 `Booking not found` -/
  | bookingNotFound
  /-- 401 `Not authorized to process this payment` -/
  | notAuthorized
  /-- 200 with the client secret -/
  | clientSecret (secret : String)
  /-- 500 `Server error` -/
  | serverError
deriving DecidableEq

/-- The handler of `POST /payments/create-intent`.  It calls no write operation.  Outside
the `BYPASS_STRIPE` branch the metadata of the intent reads `booking.event._id`, which throws
when the event is gone. -/
def createPaymentIntent (env : Env) (user : User) (body : PaymentBody) (s : Store) :
    IntentResponse × Store :=
  match Booking.findById s.bookings body.bookingId with
  | none => if isObjectId body.bookingId then (.bookingNotFound, s) else (.serverError, s)
  | some booking =>
    if booking.user ≠ user.id then (.notAuthorized, s)
    else if env.bypassStripe then
      (.clientSecret ("mock_client_secret_" ++ toString env.now), s)
    else
      match Event.findById s.events booking.event with
      | none => (.serverError, s)
      | some event =>
        match env.clientSecret
            { amount := amountInCents booking.totalAmount
              currency := "usd"
              payment_method := ""
              confirm := false
              description := ""
              booking_id := booking.id
              event_id := event.id
              user_id := user.id } with
        | none => (.serverError, s)
        | some secret => (.clientSecret secret, s)

/-! ## `updateBooking` -/

/-- The top-level fields of a booking that an update document may carry. -/
structure BookingFields where
  user : Option String := none
  event : Option String := none
  tickets : Option (List BookingTicket) := none
  totalAmount : Option ℚ := none
  paymentStatus : Option PaymentStatus := none
  paymentMethod : Option String := none
  paymentId : Option String := none
  bookingStatus : Option BookingStatus := none
  bookingReference : Option String := none
  attendeeInformation : Option AttendeeInformation := none
deriving DecidableEq

/-- The body of `PUT /bookings/:id`.  The handler hands `req.body` to
`Booking.findByIdAndUpdate` as it is, so the body is any update document of the database:
top-level fields, dotted paths and update operators alike. -/
inductive BookingUpdate where
  /-- a document of top-level fields -/
  | fields (fields : BookingFields)
  /-- any other update document, given by what the database makes of a stored booking under
  it; `none` when it refuses the update -/
  | other (result : Booking → Option Booking)

/-- The booking with the fields of the update written over its own. -/
def Booking.applyUpdate (b : Booking) (u : BookingFields) : Booking :=
  { id := b.id
    user := u.user.getD b.user
    event := u.event.getD b.event
    tickets := u.tickets.getD b.tickets
    totalAmount := u.totalAmount.getD b.totalAmount
    paymentStatus := u.paymentStatus.getD b.paymentStatus
    paymentMethod := u.paymentMethod.getD b.paymentMethod
    paymentId := match u.paymentId with
      | some p => some p
      | none => b.paymentId
    bookingStatus := u.bookingStatus.getD b.bookingStatus
    bookingReference := match u.bookingReference with
      | some r => some r
      | none => b.bookingReference
    attendeeInformation := match u.attendeeInformation with
      | some a => some a
      | none => b.attendeeInformation }

/-- The casts and the update validators of the Booking schema (`runValidators: true`) on the
fields that the update carries: a ticket line needs a type and a quantity of at least 1, a
user and an event must be `ObjectId`s, and a payment method must be one of the enum. -/
def BookingFields.valid (u : BookingFields) : Bool :=
  (match u.tickets with
    | some ts => ts.all (fun l => decide (l.ticketType ≠ "" ∧ 1 ≤ l.quantity))
    | none => true)
  && (match u.paymentMethod with
    | some m => decide (m ∈ paymentMethodEnum)
    | none => true)
  && (match u.user with
    | some id => isObjectId id
    | none => true)
  && (match u.event with
    | some id => isObjectId id
    | none => true)

/-- What the database makes of a stored booking under the update document; `none` when the
update is refused.  The `_id` of a document cannot be written. -/
def BookingUpdate.result (u : BookingUpdate) (b : Booking) : Option Booking :=
  match u with
  | .fields doc => if doc.valid then some (b.applyUpdate doc) else none
  | .other result =>
    match result b with
    | none => none
    | some b' => if b'.id = b.id then some b' else none

/-- `Booking.findByIdAndUpdate(id, body, { new: true, runValidators: true })` for a booking
that is stored: `none` when the update is refused (the write is not accepted, a cast or a
validator fails, or the new reference is the reference of another booking); otherwise the
updated booking and the new collection.  The pre-save hook does not run. -/
def Booking.findByIdAndUpdate (env : Env) (bookings : List Booking) (b : Booking)
    (u : BookingUpdate) : Option (Booking × List Booking) :=
  if env.bookingWriteOk then
    match u.result b with
    | none => none
    | some b' =>
      if b'.bookingReference = b.bookingReference
          ∨ ∀ o ∈ bookings, o.id ≠ b.id → o.bookingReference ≠ b'.bookingReference then
        some (b', Booking.replace bookings b')
      else none
  else none

/-- The response of `updateBooking`. -/
inductive UpdateBookingResponse where
  /-- 404 `No booking found with the id of ...` -/
  | bookingNotFound
  /-- 401 `Not authorized to update this booking` -/
  | notAuthorized
  /-- 200 with the updated booking -/
  | updated (booking : Booking)
  /-- 500 `Server error` -/
  | serverError
deriving DecidableEq

/-- The handler of `PUT /bookings/:id`. -/
def updateBooking (env : Env) (user : User) (id : String) (body : BookingUpdate) (s : Store) :
    UpdateBookingResponse × Store :=
  match Booking.findById s.bookings id with
  | none => if isObjectId id then (.bookingNotFound, s) else (.serverError, s)
  | some booking =>
    if user.role ≠ "admin" then (.notAuthorized, s)
    else
      match Booking.findByIdAndUpdate env s.bookings booking body with
      | none => (.serverError, s)
      | some (updated, bookings') => (.updated updated, { s with bookings := bookings' })

/-! ## `updateEvent` -/

/-- The code points that `String.prototype.trim` strips: the white space and the line
terminators of the language. -/
def jsWhiteSpace : List Nat :=
  [0x09, 0x0A, 0x0B, 0x0C, 0x0D, 0x20, 0xA0, 0x1680, 0x2000, 0x2001, 0x2002, 0x2003, 0x2004,
   0x2005, 0x2006, 0x2007, 0x2008, 0x2009, 0x200A, 0x2028, 0x2029, 0x202F, 0x205F, 0x3000,
   0xFEFF]

/-- `String.prototype.trim`, which the `trim: true` setter of a schema calls. -/
def jsTrim (s : String) : String :=
  String.mk
    (((s.data.dropWhile (fun c => jsWhiteSpace.contains c.toNat)).reverse.dropWhile
      (fun c => jsWhiteSpace.contains c.toNat)).reverse)

/-- The `length` of a string of the language, in UTF-16 code units. -/
def jsLength (s : String) : Nat :=
  (s.data.map (fun c => if c.toNat < 0x10000 then 1 else 2)).sum

/-- The top-level fields of an event that an update document may carry, among the fields of
the model; a ticket list is one of complete tickets. -/
structure EventFields where
  title : Option String := none
  tickets : Option (List EventTicket) := none
  organizer : Option String := none
deriving DecidableEq

/-- The body of `PUT /events/:id`.  The handler hands `req.body` to
`Event.findByIdAndUpdate` as it is: it picks no field and strips no operator, so the body is
any update document of the database, top-level fields (`tickets: [...]`), dotted paths
(`'tickets.0.available': 500`) and update operators (`$inc`) alike. -/
inductive EventUpdate where
  /-- a document of top-level fields -/
  | fields (fields : EventFields)
  /-- any other update document, given by what the database makes of a stored event under
  it; `none` when it refuses the update -/
  | other (result : Event → Option Event)

/-- The `trim: true` setter of the ticket `type`. -/
def EventTicket.trimmed (t : EventTicket) : EventTicket :=
  { t with type := jsTrim t.type }

/-- The event with the fields of the update written over its own, the setters of the schema
applied. -/
def Event.applyUpdate (e : Event) (u : EventFields) : Event :=
  { id := e.id
    title := match u.title with
      | some t => jsTrim t
      | none => e.title
    tickets := match u.tickets with
      | some ts => ts.map EventTicket.trimmed
      | none => e.tickets
    organizer := u.organizer.getD e.organizer }

/-- The casts and the update validators of the Event schema (`runValidators: true`) on the
fields that the update carries: a title is required and has at most 100 characters, a ticket
needs a type, and an organizer must be an `ObjectId`. -/
def EventFields.valid (u : EventFields) : Bool :=
  (match u.title with
    | some t => decide (jsTrim t ≠ "" ∧ jsLength (jsTrim t) ≤ 100)
    | none => true)
  && (match u.tickets with
    | some ts => ts.all (fun t => decide (jsTrim t.type ≠ ""))
    | none => true)
  && (match u.organizer with
    | some id => isObjectId id
    | none => true)

/-- What the database makes of a stored event under the update document; `none` when the
update is refused.  The `_id` of a document cannot be written. -/
def EventUpdate.result (u : EventUpdate) (e : Event) : Option Event :=
  match u with
  | .fields doc => if doc.valid then some (e.applyUpdate doc) else none
  | .other result =>
    match result e with
    | none => none
    | some e' => if e'.id = e.id then some e' else none

/-- `Event.findByIdAndUpdate(id, body, { new: true, runValidators: true })` for an event that
is stored: `none` when the update is refused; otherwise the updated event and the new
collection. -/
def Event.findByIdAndUpdate (env : Env) (events : List Event) (e : Event) (u : EventUpdate) :
    Option (Event × List Event) :=
  if env.eventSaveOk then
    match u.result e with
    | none => none
    | some e' => some (e', Event.save events e')
  else none

/-- The response of `updateEvent`. -/
inductive UpdateEventResponse where
  /-- 404 `No event found with the id of ...` -/
  | eventNotFound
  /-- 401 `User ... is not authorized to update this event` -/
  | notAuthorized
  /-- 200 with the updated event -/
  | updated (event : Event)
  /-- 500 `Server error` -/
  | serverError
deriving DecidableEq

/-- The handler of `PUT /events/:id`; the route lets the roles `organizer` and `admin`
through to it.  Between the authorization check and the write there is no code: whatever the
body asks for is what `Event.findByIdAndUpdate` is asked for. -/
def updateEvent (env : Env) (user : User) (id : String) (body : EventUpdate) (s : Store) :
    UpdateEventResponse × Store :=
  match Event.findById s.events id with
  | none => if isObjectId id then (.eventNotFound, s) else (.serverError, s)
  | some event =>
    if event.organizer ≠ user.id ∧ user.role ≠ "admin" then (.notAuthorized, s)
    else
      match Event.findByIdAndUpdate env s.events event body with
      | none => (.serverError, s)
      | some (updated, events') => (.updated updated, { s with events := events' })

/-! ## `createBooking` between its database operations

`createBooking` awaits three database operations: the lookup of the event, the insert of the
booking and the save of the event.  Between two of them the handler holds the event document
it has loaded, and the requests of other callers may run.  A `CreateTask` is one request at
such a point; a step performs the next database operation and the code that follows it up to
the next one.  The counters that the save writes are computed from the values read at the
lookup. -/

/-- The write of `event.save()` on a loaded event.  Mongoose sends the paths that the handler
has modified and no other: the second loop assigns `tickets.<index>.available`, each time a
value other than the one the path has (the quantities are at least 1 once the booking is
inserted), so these are the positions at which the counter differs from the loaded one.  The
stored ticket at such a position gets the new counter; every other stored field stays as it
is, also when another request has written it since the lookup.  The arguments are the ticket
list as loaded, as the handler has left it, and as stored. -/
def setModified : List EventTicket → List EventTicket → List EventTicket → List EventTicket
  | l :: loaded, n :: changed, t :: stored =>
    (if n.available ≠ l.available then { t with available := n.available } else t)
      :: setModified loaded changed stored
  | _, _, stored => stored

/-- One `createBooking` request, at the point it has reached. -/
inductive CreateTask where
  /-- before the lookup of the event -/
  | start (env : Env) (user : User) (body : CreateBookingBody)
  /-- the event is loaded and every line has passed the check; before the insert -/
  | checked (env : Env) (user : User) (body : CreateBookingBody) (eventExists : Event)
  /-- the booking is inserted and the counters of the loaded event are lowered to
  `tickets`; before the save -/
  | booked (env : Env) (eventExists : Event) (tickets : List EventTicket) (booking : Booking)
  /-- the response is sent -/
  | finished (response : CreateResponse)

/-- The next database operation of a request and the code that follows it.  The save of an
event that is no longer stored throws (`DocumentNotFoundError`). -/
def CreateTask.step : CreateTask → Store → CreateTask × Store
  | .start env user body, s =>
    if validationResult body ≠ [] then (.finished (.validationErrors (validationResult body)), s)
    else
      match Event.findById s.events body.event with
      | none =>
        if isObjectId body.event then (.finished .eventNotFound, s)
        else (.finished .serverError, s)
      | some eventExists =>
        match checkTickets eventExists.tickets body.tickets with
        | some failure => (.finished failure, s)
        | none => (.checked env user body eventExists, s)
  | .checked env user body eventExists, s =>
    match Booking.create env s.bookings
        { user := user.id
          event := body.event
          tickets := body.tickets
          totalAmount := body.totalAmount
          paymentMethod := body.paymentMethod
          attendeeInformation := body.attendeeInformation } with
    | none => (.finished .serverError, s)
    | some (booking, bookings') =>
      match updateAvailability eventExists.tickets body.tickets with
      | none => (.finished .serverError, { s with bookings := bookings' })
      | some tickets' =>
        (.booked env eventExists tickets' booking, { s with bookings := bookings' })
  | .booked env eventExists tickets' booking, s =>
    if env.eventSaveOk then
      match Event.findById s.events eventExists.id with
      | none => (.finished .serverError, s)
      | some stored =>
        (.finished (.created booking),
          { s with
            events := (Event.save s.events
              { stored with
                tickets := setModified eventExists.tickets tickets' stored.tickets }) })
    else (.finished .serverError, s)
  | .finished response, s => (.finished response, s)

/-- The response of a request that has finished. -/
def CreateTask.response : CreateTask → Option CreateResponse
  | .finished response => some response
  | _ => none

/-- A request run on its own: `n` steps in a row. -/
def CreateTask.run : Nat → CreateTask → Store → CreateTask × Store
  | 0, t, s => (t, s)
  | n + 1, t, s => CreateTask.run n (t.step s).1 (t.step s).2

/-- One step of the request at position `i` among the requests in flight. -/
def stepAt (i : Nat) (tasks : List CreateTask) (s : Store) : List CreateTask × Store :=
  match tasks[i]? with
  | none => (tasks, s)
  | some t => (tasks.set i (t.step s).1, (t.step s).2)

/-- An interleaving: the positions of the requests that take the successive steps. -/
def runSchedule : List Nat → List CreateTask → Store → List CreateTask × Store
  | [], tasks, s => (tasks, s)
  | i :: rest, tasks, s => runSchedule rest (stepAt i tasks s).1 (stepAt i tasks s).2

/-! ## Repeated cancellation -/

/-- Successive `cancelBooking` calls for one booking, each with its own surroundings and
requester. -/
def cancelRepeatedly : List (Env × User) → String → Store → Store
  | [], _, s => s
  | (env, user) :: rest, id, s => cancelRepeatedly rest id (cancelBooking env user id s).2

/-! ## The cart of the frontend (`context/CartContext.jsx`) -/

/-- An item of the cart. -/
structure CartItem where
  eventId : String
  ticketTypeId : String
  ticketType : String
  price : ℚ
  quantity : ℚ
deriving DecidableEq

/-- The state of the cart. -/
structure CartState where
  items : List CartItem
  total : ℚ
  loading : Bool
  error : Option String
  bookingStatus : Option String
  currentBooking : Option Booking
deriving DecidableEq

/-- The actions of the cart; `unknown` is an action of any other type. -/
inductive CartAction where
  | addItem (payload : CartItem)
  | removeItem (eventId ticketTypeId : String)
  | updateQuantity (eventId ticketTypeId : String) (quantity : ℚ)
  | clearCart
  | bookingStart
  | bookingSuccess (payload : Option Booking)
  | bookingFailure (payload : String)
  | resetBookingStatus
  | unknown

/-- `Number(x.toFixed(2))` over exact rationals: the multiple of 1/100 nearest to `x`; of
two nearest ones, the larger in absolute value (`toFixed` rounds `-x` for `x < 0` and puts
the sign back). -/
def toFixed2 (x : ℚ) : ℚ :=
  if x < 0 then -((Int.floor (-x * 100 + 1 / 2) : ℚ) / 100)
  else (Int.floor (x * 100 + 1 / 2) : ℚ) / 100

/-- `calculateTotal`. -/
def calculateTotal (items : List CartItem) : ℚ :=
  toFixed2 (items.foldl (fun total item => total + item.price * item.quantity) 0)

/-- `initialState`. -/
def initialState : CartState :=
  { items := []
    total := 0
    loading := false
    error := none
    bookingStatus := none
    currentBooking := none }

/-- Whether an item is the one that a pair of ids names. -/
def CartItem.hasKey (item : CartItem) (eventId ticketTypeId : String) : Bool :=
  item.eventId == eventId && item.ticketTypeId == ticketTypeId

/-- The items with the quantity of the first item of the given pair of ids raised: the
assignment to `updatedItems[existingItemIndex]` of `ADD_ITEM`. -/
def addQuantity (eventId ticketTypeId : String) (quantity : ℚ) : List CartItem → List CartItem
  | [] => []
  | item :: rest =>
    if item.hasKey eventId ticketTypeId then
      { item with quantity := item.quantity + quantity } :: rest
    else item :: addQuantity eventId ticketTypeId quantity rest

/-- `cartReducer`. -/
def cartReducer (state : CartState) : CartAction → CartState
  | .addItem payload =>
    if state.items.any (fun item => item.hasKey payload.eventId payload.ticketTypeId) then
      { state with
        items := addQuantity payload.eventId payload.ticketTypeId payload.quantity state.items
        total := calculateTotal
          (addQuantity payload.eventId payload.ticketTypeId payload.quantity state.items) }
    else
      { state with
        items := state.items ++ [payload]
        total := calculateTotal (state.items ++ [payload]) }
  | .removeItem eventId ticketTypeId =>
    { state with
      items := state.items.filter (fun item => !item.hasKey eventId ticketTypeId)
      total := calculateTotal
        (state.items.filter (fun item => !item.hasKey eventId ticketTypeId)) }
  | .updateQuantity eventId ticketTypeId quantity =>
    { state with
      items := state.items.map (fun item =>
        if item.hasKey eventId ticketTypeId then { item with quantity := quantity } else item)
      total := calculateTotal (state.items.map (fun item =>
        if item.hasKey eventId ticketTypeId then { item with quantity := quantity }
        else item)) }
  | .clearCart => initialState
  | .bookingStart =>
    { state with loading := true, error := none, bookingStatus := some "pending" }
  | .bookingSuccess payload =>
    { state with
      loading := false
      bookingStatus := some "completed"
      currentBooking := payload
      items := []
      total := 0 }
  | .bookingFailure payload =>
    { state with loading := false, error := some payload, bookingStatus := some "failed" }
  | .resetBookingStatus =>
    { state with bookingStatus := none, error := none, currentBooking := none }
  | .unknown => state

/-! ## Vocabulary of the statements

The definitions below are not part of the program: they name the quantities the theorems
talk about, and give the two loops over ticket lines a common form. -/

/-- Whether position `i` is the first one that holds `ticketType` in a list of type names:
the ticket at such a position is the one `find` returns for that name. -/
def firstAt (types : List String) (i : Nat) (ticketType : String) : Bool :=
  (types.take i).all (fun n => n != ticketType)

/-- One step of either loop on the in-memory ticket list, with a line whose type is not found
leaving the list as it is. -/
def adjustOrSkip (ticketType : String) (delta : Int) (tickets : List EventTicket) :
    List EventTicket :=
  (adjustAvailable ticketType delta tickets).getD tickets

/-- A run of steps, each a ticket type name and the amount added to its `available`. -/
def adjustAll (steps : List (String × Int)) (tickets : List EventTicket) : List EventTicket :=
  steps.foldl (fun acc p => adjustOrSkip p.1 p.2 acc) tickets

/-- The sum of the amounts of the steps that name `ticketType`. -/
def totalFor (steps : List (String × Int)) (ticketType : String) : Int :=
  ((steps.filter (fun p => p.1 == ticketType)).map (fun p => p.2)).sum

/-- The steps of the second loop of `createBooking`. -/
def requestSteps (lines : List TicketLine) : List (String × Int) :=
  lines.map (fun l => (l.ticketType, -l.quantity))

/-- The steps of the loop of `cancelBooking`. -/
def releaseSteps (tickets : List BookingTicket) : List (String × Int) :=
  tickets.map (fun l => (l.ticketType, l.quantity))

/-- The quantity a request asks for under one ticket type name, over all its lines. -/
def requestedQuantity (lines : List TicketLine) (ticketType : String) : Int :=
  ((lines.filter (fun l => l.ticketType == ticketType)).map (fun l => l.quantity)).sum

/-- The quantity a booking holds under one ticket type name, over all its lines. -/
def bookedQuantity (tickets : List BookingTicket) (ticketType : String) : Int :=
  ((tickets.filter (fun l => l.ticketType == ticketType)).map (fun l => l.quantity)).sum

/-- The argument object that `createBooking` passes to `Booking.create`. -/
def createInput (user : User) (body : CreateBookingBody) : BookingInput :=
  { user := user.id
    event := body.event
    tickets := body.tickets
    totalAmount := body.totalAmount
    paymentMethod := body.paymentMethod
    attendeeInformation := body.attendeeInformation }

/-- The request is one that the route validation and the validation of the Booking schema
let through, its quantities apart: the four route checks pass, the requester has an id, the
payment method is one of the enum, and every line has a ticket type and a price. -/
def wellFormed (user : User) (body : CreateBookingBody) : Prop :=
  validationResult body = [] ∧ user.id ≠ "" ∧ body.paymentMethod ∈ paymentMethodEnum
    ∧ ∀ l ∈ body.tickets, l.ticketType ≠ "" ∧ l.price ≠ none

instance (user : User) (body : CreateBookingBody) : Decidable (wellFormed user body) := by
  unfold wellFormed
  infer_instance

/-- Both collections accept the writes of a `createBooking` call: neither write is refused,
and the new `_id` and the generated `bookingReference` are not taken. -/
def writesAccepted (env : Env) (s : Store) : Prop :=
  env.bookingWriteOk = true ∧ env.eventSaveOk = true
    ∧ (∀ b ∈ s.bookings, b.id ≠ env.newId)
    ∧ ∀ b ∈ s.bookings,
        b.bookingReference ≠ some ("BK-" ++ toString (referenceNumber env.random))

instance (env : Env) (s : Store) : Decidable (writesAccepted env s) := by
  unfold writesAccepted
  infer_instance

/-- The ledger invariant: every ticket type of every event has
`0 ≤ available ≤ quantity`. -/
def ledgerInvariant (s : Store) : Prop :=
  ∀ e ∈ s.events, ∀ t ∈ e.tickets, 0 ≤ t.available ∧ t.available ≤ t.quantity

instance (s : Store) : Decidable (ledgerInvariant s) := by
  unfold ledgerInvariant
  infer_instance

/-! ### Sequential executions -/

/-- One call to one of the three handlers, with its surroundings. -/
inductive Call where
  | createBooking (env : Env) (user : User) (body : CreateBookingBody)
  | processPayment (env : Env) (user : User) (body : PaymentBody)
  | cancelBooking (env : Env) (user : User) (id : String)

/-- The store after a call. -/
def Call.run : Call → Store → Store
  | .createBooking env user body, s => (Ticketing.createBooking env user body s).2
  | .processPayment env user body, s => (Ticketing.processPayment env user body s).2
  | .cancelBooking env user id, s => (Ticketing.cancelBooking env user id s).2

/-- The store after a sequence of calls, one after the other. -/
def runCalls : List Call → Store → Store
  | [], s => s
  | c :: cs, s => runCalls cs (c.run s)

/-- What one booking holds of a ticket type of an event: its quantities under that type when
it is a booking of that event and is not cancelled, and nothing otherwise. -/
def heldBy (eventId ticketType : String) (b : Booking) : Int :=
  if b.event = eventId ∧ b.bookingStatus ≠ BookingStatus.cancelled then
    bookedQuantity b.tickets ticketType
  else 0

/-- The sum of the quantities of all bookings with `bookingStatus` other than cancelled that
reference a ticket type of an event. -/
def reservedQuantity (bookings : List Booking) (eventId ticketType : String) : Int :=
  (bookings.map (heldBy eventId ticketType)).sum

/-- The accounting equation of a store: the ticket that the handlers find under a name on an
event has `available = quantity - reservedQuantity`. -/
def accounted (s : Store) : Prop :=
  ∀ id e, Event.findById s.events id = some e →
    ∀ name t, findTicket e.tickets name = some t →
      t.available = t.quantity - reservedQuantity s.bookings id name

/-- A call in whose surroundings the save of an event is accepted and which, if it is a
payment, is not a payment for a cancelled booking. -/
def Call.regular (s : Store) : Call → Prop
  | .createBooking env _ _ => env.eventSaveOk = true
  | .processPayment _ _ body =>
    (Booking.findById s.bookings body.bookingId).map (fun b => b.bookingStatus)
      ≠ some BookingStatus.cancelled
  | .cancelBooking env _ _ => env.eventSaveOk = true

instance (s : Store) (c : Call) : Decidable (c.regular s) := by
  cases c <;> unfold Call.regular <;> infer_instance

/-- A sequence of calls each of which is regular in the store it is made in. -/
def regularRun : List Call → Store → Prop
  | [], _ => True
  | c :: cs, s => c.regular s ∧ regularRun cs (c.run s)

/-- A `createBooking` call whose lines name pairwise distinct ticket types, made while the
save of the event is accepted. -/
def Call.reserving : Call → Prop
  | .createBooking env _ body =>
    env.eventSaveOk = true ∧ (body.tickets.map (fun l => l.ticketType)).Nodup
  | .processPayment _ _ _ => False
  | .cancelBooking _ _ _ => False

instance (c : Call) : Decidable c.reserving := by
  cases c <;> unfold Call.reserving <;> infer_instance

/-- The pairs of ids of the items of a cart. -/
def cartKeys (items : List CartItem) : List (String × String) :=
  items.map (fun item => (item.eventId, item.ticketTypeId))

/-! ## Example data

The scenario of the specification: an event with one ticket type `General`, 100 tickets,
all of them available, at 50 a ticket. -/

/-- Surroundings in which every write is accepted. -/
def exampleEnv : Env :=
  { newId := "b1"
    random := 1 / 2
    now := 0
    bookingWriteOk := true
    eventSaveOk := true
    bypassStripe := true
    gateway := fun _ => GatewayOutcome.otherError }

/-- Surroundings in which the events collection refuses the write. -/
def exampleEnvSaveFails : Env :=
  { exampleEnv with eventSaveOk := false }

/-- The event of the scenario. -/
def exampleEvent : Event :=
  { id := "E"
    title := "Concert"
    tickets := [{ type := "General", price := 50, quantity := 100, available := 100 }] }

/-- The store of the scenario: the event and no booking. -/
def exampleStore : Store :=
  { events := [exampleEvent], bookings := [] }

/-- The requester of the scenario. -/
def exampleUser : User :=
  { id := "user1", role := "user" }

/-- A request for the given lines with the given total, sent with status fields of its own. -/
def exampleBody (event : String) (lines : List TicketLine) (total : Option ℚ) :
    CreateBookingBody :=
  { event := event
    tickets := lines
    totalAmount := total
    paymentMethod := "credit_card"
    attendeeInformation := none
    bookingStatus := some BookingStatus.confirmed
    paymentStatus := some PaymentStatus.completed
    paymentId := some "pi_forged" }

/-- Two General tickets for 100. -/
def exampleRequest : CreateBookingBody :=
  exampleBody "E" [{ ticketType := "General", quantity := 2, price := some 50 }] (some 100)

/-- A request for 101 General tickets, one more than there are. -/
def exampleTooMany : CreateBookingBody :=
  exampleBody "E" [{ ticketType := "General", quantity := 101, price := some 50 }] (some 5050)

/-- A request that passes the route validation for an event that is not stored; its event
id is not an `ObjectId`. -/
def exampleUnknownEvent : CreateBookingBody :=
  exampleBody "F" [{ ticketType := "General", quantity := 2, price := some 50 }] (some 100)

/-- A request for no General ticket at all. -/
def exampleZeroQuantity : CreateBookingBody :=
  exampleBody "E" [{ ticketType := "General", quantity := 0, price := some 50 }] (some 0)

/-- Two General tickets, declared by the caller to cost 1 in all. -/
def exampleUnderpaid : CreateBookingBody :=
  exampleBody "E" [{ ticketType := "General", quantity := 2, price := some 50 }] (some 1)

/-- The total of a request at the prices of the event: the sum over the lines of the quantity
times the price of the ticket type the line names. -/
def eventPriceTotal (eventTickets : List EventTicket) (lines : List TicketLine) : ℚ :=
  (lines.map (fun l =>
    (l.quantity : ℚ) * ((findTicket eventTickets l.ticketType).map (fun t => t.price)).getD 0)).sum

/-- The booking that the request for two General tickets creates. -/
def exampleBooking : Booking :=
  { id := "b1"
    user := "user1"
    event := "E"
    tickets := [{ ticketType := "General", quantity := 2, price := 50 }]
    totalAmount := 100
    paymentStatus := PaymentStatus.pending
    paymentMethod := "credit_card"
    paymentId := none
    bookingStatus := BookingStatus.pending
    bookingReference := some "BK-5500000"
    attendeeInformation := none }

/-- Two lines that both name General, one ticket each. -/
def exampleRepeated : CreateBookingBody :=
  exampleBody "E"
    [{ ticketType := "General", quantity := 1, price := some 50 },
     { ticketType := "General", quantity := 1, price := some 50 }] (some 100)

/-- The booking that the request with the repeated line creates. -/
def exampleRepeatedBooking : Booking :=
  { exampleBooking with
    tickets := [{ ticketType := "General", quantity := 1, price := 50 },
                { ticketType := "General", quantity := 1, price := 50 }] }

/-- The event of the scenario once two General tickets are reserved. -/
def exampleEventAfter : Event :=
  { exampleEvent with
    tickets := [{ type := "General", price := 50, quantity := 100, available := 98 }] }

/-- A store whose event has a single General ticket left. -/
def exampleScarceStore : Store :=
  { events := [{ exampleEvent with
      tickets := [{ type := "General", price := 50, quantity := 1, available := 1 }] }]
    bookings := [] }

/-- The store after the booking of the scenario was written and the save of the event was
refused: the booking is stored and all 100 tickets are still available. -/
def exampleUnreservedStore : Store :=
  { events := [exampleEvent], bookings := [exampleBooking] }

/-- The store after the booking of the scenario: 98 tickets left and the booking stored. -/
def exampleReservedStore : Store :=
  { events := [exampleEventAfter], bookings := [exampleBooking] }

/-- The booking of the scenario is made, cancelled, and then paid for. -/
def exampleRevivingCalls : List Call :=
  [Call.createBooking exampleEnv exampleUser exampleRequest,
   Call.cancelBooking exampleEnv exampleUser "b1",
   Call.processPayment exampleEnv exampleUser { bookingId := "b1", paymentMethodId := "pm" }]

/-- The booking of the scenario is made while the events collection refuses the write. -/
def exampleUnsavedCalls : List Call :=
  [Call.createBooking exampleEnvSaveFails exampleUser exampleRequest]

/-- The booking of the scenario is made, paid for, and then cancelled. -/
def exampleRegularCalls : List Call :=
  [Call.createBooking exampleEnv exampleUser exampleRequest,
   Call.processPayment exampleEnv exampleUser { bookingId := "b1", paymentMethodId := "pm" },
   Call.cancelBooking exampleEnv exampleUser "b1"]

/-- Surroundings with a gateway that confirms every charge under the id `pi_1`. -/
def exampleGatewayEnv : Env :=
  { exampleEnv with
    bypassStripe := false
    gateway := fun p =>
      GatewayOutcome.intent { id := "pi_1", amount := p.amount, status := "succeeded" } }

/-- Surroundings with a gateway that declines every charge. -/
def exampleDeclineEnv : Env :=
  { exampleEnv with
    bypassStripe := false
    gateway := fun p =>
      GatewayOutcome.intent
        { id := "pi_2", amount := p.amount, status := "requires_payment_method" } }

/-- The payment request for the booking of the scenario. -/
def examplePayment : PaymentBody :=
  { bookingId := "b1", paymentMethodId := "pm_card" }

/-- A payment request for the same booking that differs in every other field. -/
def examplePaymentOther : PaymentBody :=
  { bookingId := "b1", paymentMethodId := "pm_other", amount := some 1 }

/-- The booking of the scenario once it is paid for. -/
def examplePaidBooking : Booking :=
  { exampleBooking with
    paymentStatus := PaymentStatus.completed
    bookingStatus := BookingStatus.confirmed
    paymentId := some "pi_1" }

/-- The store of the scenario once the booking is paid for. -/
def examplePaidStore : Store :=
  { events := [exampleEventAfter], bookings := [examplePaidBooking] }

/-- An event with three ticket types, two of them partly reserved. -/
def exampleTwoTypeEvent : Event :=
  { id := "E2"
    title := "Festival"
    tickets :=
      [{ type := "A", price := 20, quantity := 10, available := 8 },
       { type := "B", price := 30, quantity := 5, available := 4 },
       { type := "C", price := 40, quantity := 7, available := 7 }] }

/-- A booking of two tickets of type A and one of type B. -/
def exampleTwoTypeBooking : Booking :=
  { id := "b2"
    user := "user1"
    event := "E2"
    tickets := [{ ticketType := "A", quantity := 2, price := 20 },
                { ticketType := "B", quantity := 1, price := 30 }]
    totalAmount := 70
    paymentStatus := PaymentStatus.pending
    paymentMethod := "paypal"
    paymentId := none
    bookingStatus := BookingStatus.pending
    bookingReference := some "BK-2000000"
    attendeeInformation := none }

/-- The store with that event and that booking. -/
def exampleTwoTypeStore : Store :=
  { events := [exampleTwoTypeEvent], bookings := [exampleTwoTypeBooking] }

/-- The booking of the scenario, cancelled. -/
def exampleCancelledBooking : Booking :=
  { exampleBooking with bookingStatus := BookingStatus.cancelled }

/-- A store in which the event of the stored booking is gone. -/
def exampleOrphanStore : Store :=
  { events := [], bookings := [exampleBooking] }

/-- A store in which the event of the stored booking no longer has the type General. -/
def exampleRetypedStore : Store :=
  { events := [{ exampleEvent with
      tickets := [{ type := "VIP", price := 90, quantity := 10, available := 10 }] }]
    bookings := [exampleBooking] }

/-- A store in which 99 of the 100 tickets are available while a booking of two is stored. -/
def exampleOverReleaseStore : Store :=
  { events := [{ exampleEvent with
      tickets := [{ type := "General", price := 50, quantity := 100, available := 99 }] }]
    bookings := [exampleBooking] }

/-- A requester who is neither the owner of the booking of the scenario nor an admin. -/
def exampleStranger : User :=
  { id := "user2", role := "user" }

/-- An administrator. -/
def exampleAdmin : User :=
  { id := "admin1", role := "admin" }

/-- The store of the race scenario: one VIP ticket, available. -/
def exampleVipStore : Store :=
  { events := [{ exampleEvent with
      tickets := [{ type := "VIP", price := 90, quantity := 1, available := 1 }] }]
    bookings := [] }

/-- A request for one VIP ticket. -/
def exampleVipRequest : CreateBookingBody :=
  exampleBody "E" [{ ticketType := "VIP", quantity := 1, price := some 90 }] (some 90)

/-- The surroundings of a second request: another document id, another random value. -/
def exampleEnvSecond : Env :=
  { exampleEnv with newId := "b2", random := 1 / 4 }

/-- Two requests for the one VIP ticket, both about to start. -/
def exampleRace : List CreateTask :=
  [CreateTask.start exampleEnv exampleUser exampleVipRequest,
   CreateTask.start exampleEnvSecond exampleStranger exampleVipRequest]

/-- Two requests for the festival, one for a ticket of type A and one for a ticket of type
B, both about to start. -/
def exampleTwoTypeRace : List CreateTask :=
  [CreateTask.start exampleEnv exampleUser
     (exampleBody "E2" [{ ticketType := "A", quantity := 1, price := some 20 }] (some 20)),
   CreateTask.start exampleEnvSecond exampleStranger
     (exampleBody "E2" [{ ticketType := "B", quantity := 1, price := some 30 }] (some 30))]

/-- An update of an event that carries a ticket list with 500 General tickets available. -/
def exampleEventUpdate : EventUpdate :=
  .fields
    { tickets := some [{ type := "General", price := 50, quantity := 100, available := 500 }] }

/-- A request for an event id that is a well-formed `ObjectId` and that no event has. -/
def exampleAbsentEvent : CreateBookingBody :=
  exampleBody "64b7f3a2c9e1d4f5a6b7c8d9"
    [{ ticketType := "General", quantity := 2, price := some 50 }] (some 100)

/-- The store in which the booking of the scenario is cancelled and its tickets released. -/
def exampleCancelledStore : Store :=
  { events := [exampleEvent], bookings := [exampleCancelledBooking] }

/-- A cart with two General tickets at 50. -/
def exampleCart : CartState :=
  { initialState with
    items := [{ eventId := "E", ticketTypeId := "t1", ticketType := "General",
                price := 50, quantity := 2 }]
    total := 100 }

/-! ## The two loops over ticket lines -/


theorem adjustOrSkip_cons (name : String) (d : Int) (t : EventTicket) (ts : List EventTicket) :
    adjustOrSkip name d (t :: ts) =
      if t.type = name then { t with available := t.available + d } :: ts
      else t :: adjustOrSkip name d ts := by
  unfold adjustOrSkip
  by_cases h : t.type = name
  · simp [adjustAvailable, h]
  · simp only [adjustAvailable, beq_iff_eq, h, if_false]
    cases adjustAvailable name d ts <;> simp

theorem adjustOrSkip_types (name : String) (d : Int) (ts : List EventTicket) :
    (adjustOrSkip name d ts).map (fun t => t.type) = ts.map (fun t => t.type) := by
  induction ts with
  | nil => simp [adjustOrSkip, adjustAvailable]
  | cons t ts ih =>
    rw [adjustOrSkip_cons]
    split <;> simp [ih]

theorem adjustOrSkip_get (name : String) (d : Int) (ts : List EventTicket) (i : Nat) :
    (adjustOrSkip name d ts)[i]? =
      (ts[i]?).map (fun t =>
        if t.type = name ∧ firstAt (ts.map (fun t => t.type)) i name = true then
          { t with available := t.available + d }
        else t) := by
  induction ts generalizing i with
  | nil => simp [adjustOrSkip, adjustAvailable]
  | cons t ts ih =>
    rw [adjustOrSkip_cons]
    by_cases h : t.type = name
    · cases i with
      | zero => simp [h, firstAt]
      | succ j =>
        simp only [h, if_true, List.getElem?_cons_succ, List.map_cons, firstAt, List.take_succ_cons, List.all_cons]
        simp
    · cases i with
      | zero => simp [h]
      | succ j =>
        simp only [h, if_false, List.getElem?_cons_succ, ih, List.map_cons, firstAt, List.take_succ_cons, List.all_cons]
        simp [h, firstAt]

theorem adjustAll_types (steps : List (String × Int)) (ts : List EventTicket) :
    (adjustAll steps ts).map (fun t => t.type) = ts.map (fun t => t.type) := by
  induction steps generalizing ts with
  | nil => rfl
  | cons p ps ih =>
    show (adjustAll ps (adjustOrSkip p.1 p.2 ts)).map _ = _
    rw [ih, adjustOrSkip_types]

theorem totalFor_cons (p : String × Int) (ps : List (String × Int)) (name : String) :
    totalFor (p :: ps) name = (if p.1 = name then p.2 else 0) + totalFor ps name := by
  unfold totalFor
  by_cases h : p.1 = name
  · simp [List.filter_cons, h]
  · simp [List.filter_cons, h]

theorem adjustAll_get (steps : List (String × Int)) (ts : List EventTicket) (i : Nat) :
    (adjustAll steps ts)[i]? =
      (ts[i]?).map (fun t =>
        if firstAt (ts.map (fun t => t.type)) i t.type = true then
          { t with available := t.available + totalFor steps t.type }
        else t) := by
  induction steps generalizing ts with
  | nil =>
    cases h : ts[i]? with
    | none => simp [adjustAll, h]
    | some t => simp [adjustAll, h, totalFor]
  | cons p ps ih =>
    show (adjustAll ps (adjustOrSkip p.1 p.2 ts))[i]? = _
    rw [ih, adjustOrSkip_types, adjustOrSkip_get]
    cases h : ts[i]? with
    | none => simp
    | some t =>
      simp only [Option.map_some']
      congr 1
      by_cases h1 : t.type = p.1
      · by_cases h2 : firstAt (ts.map (fun t => t.type)) i t.type = true
        · have h3 : firstAt (ts.map (fun t => t.type)) i p.1 = true := h1 ▸ h2
          simp [h1, h3, totalFor_cons, add_assoc]
        · have h3 : ¬ firstAt (ts.map (fun t => t.type)) i p.1 = true := h1 ▸ h2
          simp [h1, h3]
      · have h1' : ¬ p.1 = t.type := fun h => h1 h.symm
        by_cases h2 : firstAt (ts.map (fun t => t.type)) i t.type = true
        · simp [h1, h1', h2, totalFor_cons]
        · simp [h1, h2]

theorem adjustAvailable_eq_some (name : String) (d : Int) (ts ts' : List EventTicket)
    (h : adjustAvailable name d ts = some ts') : adjustOrSkip name d ts = ts' := by
  simp [adjustOrSkip, h]

theorem adjustAvailable_isSome (name : String) (d : Int) (ts : List EventTicket) :
    (adjustAvailable name d ts).isSome = (findTicket ts name).isSome := by
  induction ts with
  | nil => simp [adjustAvailable, findTicket]
  | cons t ts ih =>
    by_cases h : t.type = name
    · simp [adjustAvailable, findTicket, h]
    · simp only [findTicket] at ih
      simp [adjustAvailable, findTicket, h, List.find?_cons, ih]

theorem findTicket_isSome_iff (ts : List EventTicket) (name : String) :
    (findTicket ts name).isSome = true ↔ name ∈ ts.map (fun t => t.type) := by
  unfold findTicket
  rw [List.find?_isSome]
  simp

theorem updateAvailability_eq_some (ts ts' : List EventTicket) (lines : List TicketLine)
    (h : updateAvailability ts lines = some ts') : ts' = adjustAll (requestSteps lines) ts := by
  induction lines generalizing ts with
  | nil => simp [updateAvailability] at h; simp [requestSteps, adjustAll, h]
  | cons l ls ih =>
    simp only [updateAvailability] at h
    cases h1 : adjustAvailable l.ticketType (-l.quantity) ts with
    | none => simp [h1] at h
    | some ts1 =>
      simp only [h1] at h
      have := ih ts1 h
      rw [this]
      simp [requestSteps, adjustAll, List.foldl_cons, adjustAvailable_eq_some _ _ _ _ h1]

theorem updateAvailability_isSome (ts : List EventTicket) (lines : List TicketLine)
    (h : ∀ l ∈ lines, l.ticketType ∈ ts.map (fun t => t.type)) :
    ∃ ts', updateAvailability ts lines = some ts' := by
  induction lines generalizing ts with
  | nil => exact ⟨ts, rfl⟩
  | cons l ls ih =>
    have hl := h l (List.mem_cons_self _ _)
    have h1 : (adjustAvailable l.ticketType (-l.quantity) ts).isSome = true := by
      rw [adjustAvailable_isSome]; exact (findTicket_isSome_iff _ _).2 hl
    obtain ⟨ts1, h1⟩ := Option.isSome_iff_exists.1 h1
    have htypes : ts1.map (fun t => t.type) = ts.map (fun t => t.type) := by
      rw [← adjustAvailable_eq_some _ _ _ _ h1, adjustOrSkip_types]
    obtain ⟨ts', h2⟩ := ih ts1 (fun l' hl' => by
      rw [htypes]; exact h l' (List.mem_cons_of_mem _ hl'))
    exact ⟨ts', by simp [updateAvailability, h1, h2]⟩

theorem releaseTickets_eq (ts : List EventTicket) (tickets : List BookingTicket) :
    releaseTickets ts tickets = adjustAll (releaseSteps tickets) ts := by
  induction tickets generalizing ts with
  | nil => rfl
  | cons l ls ih =>
    simp only [releaseTickets]
    cases h1 : adjustAvailable l.ticketType l.quantity ts with
    | none =>
      simp only [ih]
      simp [releaseSteps, adjustAll, List.foldl_cons, adjustOrSkip, h1]
    | some ts1 =>
      simp only [ih]
      simp [releaseSteps, adjustAll, List.foldl_cons, adjustOrSkip, h1]

theorem totalFor_requestSteps (lines : List TicketLine) (name : String) :
    totalFor (requestSteps lines) name = - requestedQuantity lines name := by
  induction lines with
  | nil => simp [totalFor, requestSteps, requestedQuantity]
  | cons l ls ih =>
    have : requestSteps (l :: ls) = (l.ticketType, -l.quantity) :: requestSteps ls := rfl
    rw [this, totalFor_cons, ih]
    unfold requestedQuantity
    by_cases h : l.ticketType = name
    · simp [List.filter_cons, h]; ring
    · simp [List.filter_cons, h]

theorem totalFor_releaseSteps (tickets : List BookingTicket) (name : String) :
    totalFor (releaseSteps tickets) name = bookedQuantity tickets name := by
  induction tickets with
  | nil => simp [totalFor, releaseSteps, bookedQuantity]
  | cons l ls ih =>
    have : releaseSteps (l :: ls) = (l.ticketType, l.quantity) :: releaseSteps ls := rfl
    rw [this, totalFor_cons, ih]
    unfold bookedQuantity
    by_cases h : l.ticketType = name
    · simp [List.filter_cons, h]
    · simp [List.filter_cons, h]

theorem checkTickets_eq_none (ts : List EventTicket) (lines : List TicketLine) :
    checkTickets ts lines = none ↔
      ∀ l ∈ lines, ∃ t, findTicket ts l.ticketType = some t ∧ l.quantity ≤ t.available := by
  induction lines with
  | nil => simp [checkTickets]
  | cons l ls ih =>
    simp only [checkTickets, List.mem_cons, forall_eq_or_imp]
    cases h : findTicket ts l.ticketType with
    | none => simp
    | some t =>
      by_cases h2 : t.available < l.quantity
      · simp [h2]
      · simp [h2, ih, not_lt.1 h2]

theorem checkTickets_eq_some (ts : List EventTicket) (lines : List TicketLine) (r : CreateResponse)
    (h : checkTickets ts lines = some r) :
    ∃ l ∈ lines,
      (findTicket ts l.ticketType = none ∧ r = .ticketTypeNotFound l.ticketType) ∨
      (∃ t, findTicket ts l.ticketType = some t ∧ t.available < l.quantity
        ∧ r = .notEnoughTickets l.ticketType) := by
  induction lines with
  | nil => simp [checkTickets] at h
  | cons l ls ih =>
    simp only [checkTickets] at h
    cases h1 : findTicket ts l.ticketType with
    | none =>
      simp only [h1] at h
      exact ⟨l, List.mem_cons_self _ _, Or.inl ⟨h1, by simpa using h.symm⟩⟩
    | some t =>
      simp only [h1] at h
      by_cases h2 : t.available < l.quantity
      · simp only [h2, if_true] at h
        exact ⟨l, List.mem_cons_self _ _, Or.inr ⟨t, h1, h2, by simpa using h.symm⟩⟩
      · simp only [h2, if_false] at h
        obtain ⟨l', hl', h'⟩ := ih h
        exact ⟨l', List.mem_cons_of_mem _ hl', h'⟩


theorem updateAvailability_get (ts ts' : List EventTicket) (lines : List TicketLine)
    (h : updateAvailability ts lines = some ts') (i : Nat) :
    ts'[i]? =
      (ts[i]?).map (fun t =>
        if firstAt (ts.map (fun t => t.type)) i t.type = true then
          { t with available := t.available - requestedQuantity lines t.type }
        else t) := by
  rw [updateAvailability_eq_some ts ts' lines h, adjustAll_get]
  congr 1
  funext t
  simp only [totalFor_requestSteps, Int.sub_eq_add_neg]

theorem releaseTickets_get (ts : List EventTicket) (tickets : List BookingTicket) (i : Nat) :
    (releaseTickets ts tickets)[i]? =
      (ts[i]?).map (fun t =>
        if firstAt (ts.map (fun t => t.type)) i t.type = true then
          { t with available := t.available + bookedQuantity tickets t.type }
        else t) := by
  rw [releaseTickets_eq, adjustAll_get]
  congr 1
  funext t
  simp only [totalFor_releaseSteps]

theorem findTicket_eq_some_iff (ts : List EventTicket) (name : String) (t : EventTicket) :
    findTicket ts name = some t ↔
      ∃ i, ts[i]? = some t ∧ t.type = name ∧ firstAt (ts.map (fun t => t.type)) i name = true := by
  induction ts with
  | nil => simp [findTicket]
  | cons u us ih =>
    by_cases h : u.type = name
    · constructor
      · intro h1
        have : u = t := by simpa [findTicket, List.find?_cons, h] using h1
        subst this
        exact ⟨0, by simp, h, by simp [firstAt]⟩
      · rintro ⟨i, h1, h2, h3⟩
        cases i with
        | zero =>
          have : u = t := by simpa using h1
          subst this
          simp [findTicket, List.find?_cons, h]
        | succ j => simp [firstAt, h] at h3
    · have hf : findTicket (u :: us) name = findTicket us name := by
        simp [findTicket, List.find?_cons, h]
      rw [hf, ih]
      constructor
      · rintro ⟨i, h1, h2, h3⟩
        exact ⟨i + 1, by simpa using h1, h2, by simpa [firstAt, h] using h3⟩
      · rintro ⟨i, h1, h2, h3⟩
        cases i with
        | zero =>
          have : u = t := by simpa using h1
          exact absurd (this ▸ h2) h
        | succ j => exact ⟨j, by simpa using h1, h2, by simpa [firstAt, h] using h3⟩

/-! ## The two collections -/

theorem Event.findById_id (es : List Event) (id : String) (e : Event)
    (h : Event.findById es id = some e) : e.id = id := by
  have := List.find?_some h
  simpa using this

theorem Event.findById_mem (es : List Event) (id : String) (e : Event)
    (h : Event.findById es id = some e) : e ∈ es :=
  List.mem_of_find?_eq_some h

theorem Event.findById_save_same (es : List Event) (e doc : Event)
    (h : Event.findById es doc.id = some e) :
    Event.findById (Event.save es doc) doc.id = some doc := by
  induction es with
  | nil => simp [Event.findById] at h
  | cons x xs ih =>
    by_cases hx : x.id = doc.id
    · simp [Event.save, Event.findById, hx]
    · have h' : Event.findById xs doc.id = some e := by
        simpa [Event.findById, List.find?_cons, hx] using h
      have := ih h'
      simp only [Event.findById] at this
      simp [Event.save, Event.findById, hx, List.find?_cons, this]

theorem Event.findById_save_other (es : List Event) (doc : Event) (id : String)
    (h : id ≠ doc.id) :
    Event.findById (Event.save es doc) id = Event.findById es id := by
  induction es with
  | nil => simp [Event.save]
  | cons x xs ih =>
    simp only [Event.findById] at ih
    by_cases hx : x.id = doc.id
    · have h1 : ¬ x.id = id := fun h2 => h (h2 ▸ hx)
      have h2 : ¬ doc.id = id := fun h2 => h h2.symm
      simp [Event.save, Event.findById, hx, List.find?_cons, h2]
    · by_cases hy : x.id = id
      · have h3 : ¬ id = doc.id := h
        subst hy
        simp [Event.save, Event.findById, hx, List.find?_cons]
      · simp [Event.save, Event.findById, hx, List.find?_cons, hy, ih]

theorem Booking.findById_has_id (bs : List Booking) (id : String) (b : Booking)
    (h : Booking.findById bs id = some b) : b.id = id := by
  have := List.find?_some h
  simpa using this

theorem preSave_fields (random : ℚ) (b : Booking) :
    (preSave random b).id = b.id ∧ (preSave random b).user = b.user
      ∧ (preSave random b).event = b.event ∧ (preSave random b).tickets = b.tickets
      ∧ (preSave random b).totalAmount = b.totalAmount
      ∧ (preSave random b).paymentStatus = b.paymentStatus
      ∧ (preSave random b).paymentMethod = b.paymentMethod
      ∧ (preSave random b).paymentId = b.paymentId
      ∧ (preSave random b).bookingStatus = b.bookingStatus
      ∧ (preSave random b).attendeeInformation = b.attendeeInformation := by
  unfold preSave
  split <;> simp

/-- What `castTickets` keeps of the lines it accepts. -/
theorem castTickets_eq_some (lines : List TicketLine) (ts : List BookingTicket)
    (h : castTickets lines = some ts) :
    ts.map (fun t => (t.ticketType, t.quantity)) = lines.map (fun l => (l.ticketType, l.quantity))
      ∧ ts.map (fun t => some t.price) = lines.map (fun l => l.price)
      ∧ ∀ l ∈ lines, l.ticketType ≠ "" ∧ 1 ≤ l.quantity := by
  induction lines generalizing ts with
  | nil =>
    simp [castTickets] at h
    subst h
    simp
  | cons l ls ih =>
    simp only [castTickets] at h
    cases hp : l.price with
    | none => simp [hp] at h
    | some p =>
      simp only [hp] at h
      by_cases hc : l.ticketType ≠ "" ∧ 1 ≤ l.quantity
      · rw [if_pos hc] at h
        cases hr : castTickets ls with
        | none => simp [hr] at h
        | some ts1 =>
          simp only [hr, Option.some.injEq] at h
          subst h
          obtain ⟨h1, h2, h3⟩ := ih ts1 hr
          refine ⟨by simp [h1], by simp [h2, hp], ?_⟩
          intro l' hl'
          rcases List.mem_cons.1 hl' with rfl | hl'
          · exact hc
          · exact h3 l' hl'
      · rw [if_neg hc] at h
        simp at h

theorem castTickets_isSome (lines : List TicketLine)
    (h : ∀ l ∈ lines, l.ticketType ≠ "" ∧ 1 ≤ l.quantity ∧ l.price ≠ none) :
    ∃ ts, castTickets lines = some ts := by
  induction lines with
  | nil => exact ⟨[], rfl⟩
  | cons l ls ih =>
    obtain ⟨h1, h2, h3⟩ := h l (List.mem_cons_self _ _)
    obtain ⟨ts, hts⟩ := ih (fun l' hl' => h l' (List.mem_cons_of_mem _ hl'))
    obtain ⟨p, hp⟩ := Option.ne_none_iff_exists'.1 h3
    exact ⟨{ ticketType := l.ticketType, quantity := l.quantity, price := p } :: ts, by
      simp [castTickets, hp, h1, h2, hts]⟩

theorem bookedQuantity_of_cast (lines : List TicketLine) (ts : List BookingTicket)
    (h : castTickets lines = some ts) (name : String) :
    bookedQuantity ts name = requestedQuantity lines name := by
  have h1 := (castTickets_eq_some lines ts h).1
  have e1 : bookedQuantity ts name
      = (((ts.map (fun t => (t.ticketType, t.quantity))).filter (fun p => p.1 == name)).map
          (fun p => p.2)).sum := by
    unfold bookedQuantity
    simp [List.filter_map, Function.comp_def]
  have e2 : requestedQuantity lines name
      = (((lines.map (fun l => (l.ticketType, l.quantity))).filter (fun p => p.1 == name)).map
          (fun p => p.2)).sum := by
    unfold requestedQuantity
    simp [List.filter_map, Function.comp_def]
  rw [e1, e2, h1]

/-! ## `createBooking`, case by case -/

theorem Booking.create_eq_some (env : Env) (bs : List Booking) (input : BookingInput)
    (doc : Booking) (bs' : List Booking) (h : Booking.create env bs input = some (doc, bs')) :
    bs' = bs ++ [doc] ∧ castTickets input.tickets = some doc.tickets
      ∧ input.totalAmount = some doc.totalAmount
      ∧ doc.paymentStatus = PaymentStatus.pending ∧ doc.bookingStatus = BookingStatus.pending
      ∧ doc.paymentId = none ∧ doc.event = input.event ∧ doc.user = input.user
      ∧ doc.id = env.newId ∧ doc.paymentMethod = input.paymentMethod
      ∧ input.paymentMethod ∈ paymentMethodEnum ∧ env.bookingWriteOk = true := by
  unfold Booking.create at h
  split at h
  · rename_i tickets total ht htot
    split at h
    · simp only at h
      split at h
      · rename_i hv hw
        simp only [Option.some.injEq, Prod.mk.injEq] at h
        obtain ⟨h1, h2⟩ := h
        subst h1
        have hf := preSave_fields env.random
          { id := env.newId, user := input.user, event := input.event, tickets := tickets,
            totalAmount := total, paymentStatus := PaymentStatus.pending,
            paymentMethod := input.paymentMethod, paymentId := none,
            bookingStatus := BookingStatus.pending, bookingReference := none,
            attendeeInformation := input.attendeeInformation }
        obtain ⟨f1, f2, f3, f4, f5, f6, f7, f8, f9, _⟩ := hf
        refine ⟨h2.symm, ?_, ?_, f6, f9, f8, f3, f2, f1, f7, hv.2.2, hw.1⟩
        · rw [ht, f4]
        · rw [htot, f5]
      · simp at h
    · simp at h
  · simp at h

theorem checkTickets_ne_created (ts : List EventTicket) (lines : List TicketLine)
    (r : CreateResponse) (h : checkTickets ts lines = some r) :
    (∃ name, r = .ticketTypeNotFound name ∨ r = .notEnoughTickets name) := by
  obtain ⟨l, _, h1 | ⟨t, _, _, h1⟩⟩ := checkTickets_eq_some ts lines r h
  · exact ⟨l.ticketType, Or.inl h1.2⟩
  · exact ⟨l.ticketType, Or.inr h1⟩

theorem types_of_check (ts : List EventTicket) (lines : List TicketLine)
    (h : checkTickets ts lines = none) :
    ∀ l ∈ lines, l.ticketType ∈ ts.map (fun t => t.type) := by
  intro l hl
  obtain ⟨t, ht, _⟩ := (checkTickets_eq_none ts lines).1 h l hl
  exact (findTicket_isSome_iff ts l.ticketType).1 (by simp [ht])

/-- Every path through `createBooking`. -/
theorem createBooking_cases (env : Env) (user : User) (body : CreateBookingBody) (s : Store) :
    (validationResult body ≠ [] ∧
        createBooking env user body s = (.validationErrors (validationResult body), s)) ∨
    (validationResult body = [] ∧ Event.findById s.events body.event = none ∧
        createBooking env user body s
          = (if isObjectId body.event then .eventNotFound else .serverError, s)) ∨
    (validationResult body = [] ∧ ∃ e, Event.findById s.events body.event = some e ∧
      ((∃ f, checkTickets e.tickets body.tickets = some f ∧
          createBooking env user body s = (f, s)) ∨
       (checkTickets e.tickets body.tickets = none ∧
          Booking.create env s.bookings (createInput user body) = none ∧
          createBooking env user body s = (.serverError, s)) ∨
       (checkTickets e.tickets body.tickets = none ∧
          ∃ b ts', Booking.create env s.bookings (createInput user body)
              = some (b, s.bookings ++ [b]) ∧
            updateAvailability e.tickets body.tickets = some ts' ∧
            ((env.eventSaveOk = true ∧ createBooking env user body s =
                (.created b, { events := Event.save s.events { e with tickets := ts' }
                               bookings := s.bookings ++ [b] })) ∨
             (env.eventSaveOk = false ∧ createBooking env user body s =
                (.serverError, { s with bookings := s.bookings ++ [b] })))))) := by
  by_cases hv : validationResult body = []
  swap
  · exact Or.inl ⟨hv, by simp [createBooking, hv]⟩
  right
  cases he : Event.findById s.events body.event with
  | none =>
    exact Or.inl ⟨hv, rfl, by
      by_cases hid : isObjectId body.event = true <;> simp [createBooking, hv, he, hid]⟩
  | some e =>
    refine Or.inr ⟨hv, e, rfl, ?_⟩
    cases hc : checkTickets e.tickets body.tickets with
    | some f => exact Or.inl ⟨f, rfl, by simp [createBooking, hv, he, hc]⟩
    | none =>
      right
      cases hb : Booking.create env s.bookings (createInput user body) with
      | none =>
        refine Or.inl ⟨rfl, rfl, ?_⟩
        simp only [createInput] at hb
        simp [createBooking, hv, he, hc, hb]
      | some p =>
        obtain ⟨b, bs'⟩ := p
        have hbs : bs' = s.bookings ++ [b] := (Booking.create_eq_some _ _ _ _ _ hb).1
        subst hbs
        obtain ⟨ts', hu⟩ := updateAvailability_isSome e.tickets body.tickets
          (types_of_check _ _ hc)
        refine Or.inr ⟨rfl, b, ts', rfl, hu, ?_⟩
        simp only [createInput] at hb
        cases hs : env.eventSaveOk with
        | true => exact Or.inl ⟨rfl, by simp [createBooking, hv, he, hc, hb, hu, hs]⟩
        | false => exact Or.inr ⟨rfl, by simp [createBooking, hv, he, hc, hb, hu, hs]⟩

/-! ## The effect of a successful `createBooking` -/

theorem adjustOrSkip_frame (name : String) (d : Int) (ts : List EventTicket) :
    (adjustOrSkip name d ts).map (fun t => (t.type, t.price, t.quantity))
      = ts.map (fun t => (t.type, t.price, t.quantity)) := by
  induction ts with
  | nil => simp [adjustOrSkip, adjustAvailable]
  | cons t ts ih =>
    rw [adjustOrSkip_cons]
    split <;> simp [ih]

theorem adjustAll_frame (steps : List (String × Int)) (ts : List EventTicket) :
    (adjustAll steps ts).map (fun t => (t.type, t.price, t.quantity))
      = ts.map (fun t => (t.type, t.price, t.quantity)) := by
  induction steps generalizing ts with
  | nil => rfl
  | cons p ps ih =>
    show (adjustAll ps (adjustOrSkip p.1 p.2 ts)).map _ = _
    rw [ih, adjustOrSkip_frame]

theorem adjustAll_findTicket (steps : List (String × Int)) (ts : List EventTicket)
    (name : String) (t : EventTicket) (h : findTicket ts name = some t) :
    findTicket (adjustAll steps ts) name
      = some { t with available := t.available + totalFor steps name } := by
  obtain ⟨i, h1, h2, h3⟩ := (findTicket_eq_some_iff ts name t).1 h
  rw [findTicket_eq_some_iff]
  refine ⟨i, ?_, h2, ?_⟩
  · rw [adjustAll_get, h1]
    simp [h2, h3]
  · rw [adjustAll_types]
    exact h3

theorem updateAvailability_findTicket (ts ts' : List EventTicket) (lines : List TicketLine)
    (h : updateAvailability ts lines = some ts') (name : String) (t : EventTicket)
    (ht : findTicket ts name = some t) :
    findTicket ts' name
      = some { t with available := t.available - requestedQuantity lines name } := by
  rw [updateAvailability_eq_some ts ts' lines h, adjustAll_findTicket _ _ _ _ ht,
    totalFor_requestSteps, Int.sub_eq_add_neg]

theorem releaseTickets_findTicket (ts : List EventTicket) (tickets : List BookingTicket)
    (name : String) (t : EventTicket) (ht : findTicket ts name = some t) :
    findTicket (releaseTickets ts tickets) name
      = some { t with available := t.available + bookedQuantity tickets name } := by
  rw [releaseTickets_eq, adjustAll_findTicket _ _ _ _ ht, totalFor_releaseSteps]

theorem requestedQuantity_of_not_mem (lines : List TicketLine) (name : String)
    (h : ∀ l ∈ lines, l.ticketType ≠ name) : requestedQuantity lines name = 0 := by
  unfold requestedQuantity
  have : lines.filter (fun l => l.ticketType == name) = [] := by
    rw [List.filter_eq_nil_iff]
    intro l hl
    simpa using h l hl
  simp [this]

theorem requestedQuantity_of_nodup (lines : List TicketLine)
    (hd : (lines.map (fun l => l.ticketType)).Nodup) (l : TicketLine) (hl : l ∈ lines) :
    requestedQuantity lines l.ticketType = l.quantity := by
  induction lines with
  | nil => cases hl
  | cons x xs ih =>
    rw [List.map_cons, List.nodup_cons] at hd
    unfold requestedQuantity
    rcases List.mem_cons.1 hl with rfl | hl'
    · have h0 := requestedQuantity_of_not_mem xs l.ticketType (by
        intro y hy hyl
        exact hd.1 (List.mem_map.2 ⟨y, hy, hyl⟩))
      unfold requestedQuantity at h0
      simp [List.filter_cons, h0]
    · have hne : ¬ x.ticketType = l.ticketType := by
        intro hx
        exact hd.1 (List.mem_map.2 ⟨l, hl', hx.symm⟩)
      have := ih hd.2 hl'
      unfold requestedQuantity at this
      simp [List.filter_cons, hne, this]

/-- A well-formed request whose lines each pass the stock check succeeds when both writes
are accepted. -/
theorem createBooking_succeeds (env : Env) (user : User) (body : CreateBookingBody)
    (s : Store) (e : Event) (he : Event.findById s.events body.event = some e)
    (hstock : ∀ l ∈ body.tickets, ∃ t, findTicket e.tickets l.ticketType = some t
      ∧ l.quantity ≤ t.available ∧ 1 ≤ l.quantity)
    (hreq : wellFormed user body) (henv : writesAccepted env s) :
    ∃ b ts', Booking.create env s.bookings (createInput user body)
          = some (b, s.bookings ++ [b])
      ∧ updateAvailability e.tickets body.tickets = some ts'
      ∧ createBooking env user body s =
          (.created b, { events := Event.save s.events { e with tickets := ts' }
                         bookings := s.bookings ++ [b] }) := by
  obtain ⟨hv, hu, hm, hl⟩ := hreq
  obtain ⟨hw, hs, hid, href⟩ := henv
  have hc : checkTickets e.tickets body.tickets = none := by
    rw [checkTickets_eq_none]
    intro l hl'
    obtain ⟨t, h1, h2, _⟩ := hstock l hl'
    exact ⟨t, h1, h2⟩
  obtain ⟨ts, hts⟩ := castTickets_isSome body.tickets (fun l hl' =>
    ⟨(hl l hl').1, (hstock l hl').choose_spec.2.2, (hl l hl').2⟩)
  have htot : ∃ total, body.totalAmount = some total := by
    cases h : body.totalAmount with
    | some total => exact ⟨total, rfl⟩
    | none => simp [validationResult, h] at hv
  obtain ⟨total, htot⟩ := htot
  have hevent : body.event ≠ "" := by
    intro h
    simp [validationResult, h] at hv
  have hb : ∃ b, Booking.create env s.bookings (createInput user body)
      = some (b, s.bookings ++ [b]) := by
    simp only [Booking.create, createInput, hts, htot]
    rw [if_pos ⟨hu, hevent, hm⟩]
    simp only [preSave, true_or, if_true]
    rw [if_pos ⟨hw, hid, href⟩]
    exact ⟨_, rfl⟩
  obtain ⟨b, hb⟩ := hb
  rcases createBooking_cases env user body s with ⟨hv', _⟩ | ⟨_, h0, _⟩ | ⟨_, e', he', h1⟩
  · exact absurd hv hv'
  · rw [he] at h0; cases h0
  · rw [he] at he'
    cases he'
    rcases h1 with ⟨f, hf, _⟩ | ⟨_, h0, _⟩ | ⟨_, b', ts', hb', hu', ⟨_, h1⟩ | ⟨h0, _⟩⟩
    · rw [hc] at hf; cases hf
    · rw [hb] at h0; cases h0
    · rw [hb] at hb'
      cases hb'
      exact ⟨b, ts', hb, hu', h1⟩
    · rw [hs] at h0; cases h0

theorem quantity_le_requestedQuantity (lines : List TicketLine)
    (hpos : ∀ l ∈ lines, 0 ≤ l.quantity) (l : TicketLine) (hl : l ∈ lines) :
    l.quantity ≤ requestedQuantity lines l.ticketType := by
  induction lines with
  | nil => cases hl
  | cons x xs ih =>
    have hnonneg : 0 ≤ requestedQuantity xs l.ticketType := by
      unfold requestedQuantity
      apply List.sum_nonneg
      intro q hq
      obtain ⟨y, hy, rfl⟩ := List.mem_map.1 hq
      exact hpos y (List.mem_cons_of_mem _ (List.mem_of_mem_filter hy))
    have hcons : requestedQuantity (x :: xs) l.ticketType
        = (if x.ticketType = l.ticketType then x.quantity else 0)
          + requestedQuantity xs l.ticketType := by
      unfold requestedQuantity
      by_cases h : x.ticketType = l.ticketType
      · simp [List.filter_cons, h]
      · simp [List.filter_cons, h]
    rw [hcons]
    rcases List.mem_cons.1 hl with rfl | hl'
    · simp only [if_true]
      omega
    · have h1 := ih (fun y hy => hpos y (List.mem_cons_of_mem _ hy)) hl'
      have h2 := hpos x (List.mem_cons_self _ _)
      split <;> omega

theorem Event.findById_save_found (es : List Event) (id : String) (e : Event)
    (ts : List EventTicket) (h : Event.findById es id = some e) :
    Event.findById (Event.save es { e with tickets := ts }) id = some { e with tickets := ts } := by
  have hid := Event.findById_id es id e h
  subst hid
  exact Event.findById_save_same es e { e with tickets := ts } h

/-- A response of `createBooking` other than the 201 and the 500 one comes with an unchanged
store. -/
theorem createBooking_client_error_no_effect (env : Env) (user : User)
    (body : CreateBookingBody) (s : Store)
    (h1 : (createBooking env user body s).1.status ≠ 201)
    (h2 : (createBooking env user body s).1.status ≠ 500) :
    (createBooking env user body s).2 = s := by
  rcases createBooking_cases env user body s with ⟨_, h⟩ | ⟨_, _, h⟩ | ⟨_, e, _, h⟩
  · rw [h]
  · rw [h]
  · rcases h with ⟨f, _, h⟩ | ⟨_, _, h⟩ | ⟨_, b, ts', _, _, ⟨_, h⟩ | ⟨_, h⟩⟩
    · rw [h]
    · rw [h]
    · rw [h] at h1
      exact absurd rfl h1
    · rw [h] at h2
      exact absurd rfl h2

theorem updateAvailability_frame (ts ts' : List EventTicket) (lines : List TicketLine)
    (h : updateAvailability ts lines = some ts') :
    ts'.map (fun t => (t.type, t.price, t.quantity))
      = ts.map (fun t => (t.type, t.price, t.quantity)) := by
  rw [updateAvailability_eq_some ts ts' lines h, adjustAll_frame]

theorem updateAvailability_get_other (ts ts' : List EventTicket) (lines : List TicketLine)
    (h : updateAvailability ts lines = some ts') (i : Nat) (t : EventTicket)
    (ht : ts[i]? = some t) (hn : ∀ l ∈ lines, l.ticketType ≠ t.type) : ts'[i]? = some t := by
  rw [updateAvailability_get ts ts' lines h, ht]
  simp [requestedQuantity_of_not_mem lines t.type hn]

/-! ## `cancelBooking` and `processPayment`, case by case -/

theorem Booking.save_eq_some (env : Env) (bs : List Booking) (b saved : Booking)
    (bs' : List Booking) (h : Booking.save env bs b = some (saved, bs')) :
    saved = preSave env.random b ∧ bs' = Booking.replace bs saved
      ∧ env.bookingWriteOk = true := by
  unfold Booking.save at h
  simp only at h
  split at h
  · rename_i hw
    simp only [Option.some.injEq, Prod.mk.injEq] at h
    exact ⟨h.1.symm, by rw [← h.2, h.1], hw.1⟩
  · simp at h

/-- Every path through `cancelBooking`. -/
theorem cancelBooking_cases (env : Env) (user : User) (id : String) (s : Store) :
    (Booking.findById s.bookings id = none ∧
        cancelBooking env user id s
          = (if isObjectId id then .bookingNotFound else .serverError, s)) ∨
    ∃ b, Booking.findById s.bookings id = some b ∧
      (((b.user ≠ user.id ∧ user.role ≠ "admin") ∧
          cancelBooking env user id s = (.notAuthorized, s)) ∨
       (¬ (b.user ≠ user.id ∧ user.role ≠ "admin") ∧
          b.bookingStatus = BookingStatus.cancelled ∧
          cancelBooking env user id s = (.alreadyCancelled, s)) ∨
       (¬ (b.user ≠ user.id ∧ user.role ≠ "admin") ∧
          b.bookingStatus ≠ BookingStatus.cancelled ∧
          ((Booking.save env s.bookings { b with bookingStatus := BookingStatus.cancelled }
              = none ∧ cancelBooking env user id s = (.serverError, s)) ∨
           ∃ saved, saved = preSave env.random
                { b with bookingStatus := BookingStatus.cancelled } ∧
             env.bookingWriteOk = true ∧
             ((Event.findById s.events b.event = none ∧
                cancelBooking env user id s =
                  (.cancelled saved,
                    { s with bookings := Booking.replace s.bookings saved })) ∨
              ∃ e, Event.findById s.events b.event = some e ∧
                ((env.eventSaveOk = true ∧ cancelBooking env user id s =
                    (.cancelled saved,
                      { events := Event.save s.events
                          { e with tickets := releaseTickets e.tickets b.tickets }
                        bookings := Booking.replace s.bookings saved })) ∨
                 (env.eventSaveOk = false ∧ cancelBooking env user id s =
                    (.serverError,
                      { s with bookings := Booking.replace s.bookings saved }))))))) := by
  cases hb : Booking.findById s.bookings id with
  | none =>
    exact Or.inl ⟨rfl, by
      by_cases hid : isObjectId id = true <;> simp [cancelBooking, hb, hid]⟩
  | some b =>
    refine Or.inr ⟨b, rfl, ?_⟩
    by_cases hauth : b.user ≠ user.id ∧ user.role ≠ "admin"
    · exact Or.inl ⟨hauth, by simp only [cancelBooking, hb]; rw [if_pos hauth]⟩
    · right
      by_cases hst : b.bookingStatus = BookingStatus.cancelled
      · refine Or.inl ⟨hauth, hst, ?_⟩
        simp only [cancelBooking, hb]
        rw [if_neg hauth, if_pos hst]
      · refine Or.inr ⟨hauth, hst, ?_⟩
        cases hsave : Booking.save env s.bookings
            { b with bookingStatus := BookingStatus.cancelled } with
        | none =>
          refine Or.inl ⟨rfl, ?_⟩
          simp only [cancelBooking, hb]
          rw [if_neg hauth, if_neg hst]
          simp only [hsave]
        | some p =>
          obtain ⟨saved, bs'⟩ := p
          obtain ⟨h1, h2, h3⟩ := Booking.save_eq_some _ _ _ _ _ hsave
          have hev : saved.event = b.event := by
            rw [h1]; exact (preSave_fields _ _).2.2.1
          have htk : saved.tickets = b.tickets := by
            rw [h1]; exact (preSave_fields _ _).2.2.2.1
          refine Or.inr ⟨saved, h1, h3, ?_⟩
          cases he : Event.findById s.events b.event with
          | none =>
            refine Or.inl ⟨rfl, ?_⟩
            simp only [cancelBooking, hb]
            rw [if_neg hauth, if_neg hst]
            simp only [hsave, hev, he, h2]
          | some e =>
            refine Or.inr ⟨e, rfl, ?_⟩
            cases hs : env.eventSaveOk with
            | true =>
              refine Or.inl ⟨rfl, ?_⟩
              simp only [cancelBooking, hb]
              rw [if_neg hauth, if_neg hst]
              simp only [hsave, hev, he, h2, hs, htk, if_true]
            | false =>
              refine Or.inr ⟨rfl, ?_⟩
              simp only [cancelBooking, hb]
              rw [if_neg hauth, if_neg hst]
              simp [hsave, hev, he, h2, hs]

/-- What `processPayment` does to the store: the events are untouched, and the bookings are
untouched or the booking of the request is saved as paid and confirmed. -/
theorem processPayment_store (env : Env) (user : User) (body : PaymentBody) (s : Store) :
    (processPayment env user body s).2 = s ∨
    ∃ (b : Booking) (intent : PaymentIntent),
      Booking.findById s.bookings body.bookingId = some b ∧
      b.paymentStatus ≠ PaymentStatus.completed ∧
      (processPayment env user body s).2 =
        { s with bookings := (Booking.replace s.bookings
            (preSave env.random
              { b with
                paymentStatus := PaymentStatus.completed
                bookingStatus := BookingStatus.confirmed
                paymentId := some intent.id })) } := by
  have hrec : ∀ b intent, (recordPayment env s b intent).2 = s ∨
      (recordPayment env s b intent).2 =
        { s with bookings := (Booking.replace s.bookings
            (preSave env.random
              { b with
                paymentStatus := PaymentStatus.completed
                bookingStatus := BookingStatus.confirmed
                paymentId := some intent.id })) } := by
    intro b intent
    unfold recordPayment
    cases hsave : Booking.save env s.bookings
        { b with
          paymentStatus := PaymentStatus.completed
          bookingStatus := BookingStatus.confirmed
          paymentId := some intent.id } with
    | none => exact Or.inl rfl
    | some p =>
      obtain ⟨saved, bs'⟩ := p
      obtain ⟨h1, h2, _⟩ := Booking.save_eq_some _ _ _ _ _ hsave
      right
      simp only [h2, h1]
  cases hb : Booking.findById s.bookings body.bookingId with
  | none =>
    exact Or.inl (by
      by_cases hid : isObjectId body.bookingId = true <;> simp [processPayment, hb, hid])
  | some b =>
    by_cases hauth : b.user ≠ user.id
    · exact Or.inl (by simp only [processPayment, hb]; rw [if_pos hauth])
    by_cases hpaid : b.paymentStatus = PaymentStatus.completed
    · exact Or.inl (by simp only [processPayment, hb]; rw [if_neg hauth, if_pos hpaid])
    have hstart : processPayment env user body s =
        match Event.findById s.events b.event with
        | none => (.serverError, s)
        | some event =>
          if env.bypassStripe then recordPayment env s b (mockPaymentIntent env b)
          else
            match env.gateway (intentParams b event user body) with
            | .intent paymentIntent =>
              if paymentIntent.status = "succeeded" then recordPayment env s b paymentIntent
              else (.paymentFailed paymentIntent, s)
            | .stripeCardError message => (.cardError message, s)
            | .otherError => (.serverError, s) := by
      simp only [processPayment, hb]
      rw [if_neg hauth, if_neg hpaid]
    rw [hstart]
    cases he : Event.findById s.events b.event with
    | none => exact Or.inl rfl
    | some e =>
      simp only
      cases hby : env.bypassStripe with
      | true =>
        simp only [if_true]
        rcases hrec b (mockPaymentIntent env b) with h | h
        · exact Or.inl h
        · exact Or.inr ⟨b, _, rfl, hpaid, h⟩
      | false =>
        simp only [Bool.false_eq_true, if_false]
        cases hg : env.gateway (intentParams b e user body) with
        | intent paymentIntent =>
          simp only
          by_cases hok : paymentIntent.status = "succeeded"
          · rw [if_pos hok]
            rcases hrec b paymentIntent with h | h
            · exact Or.inl h
            · exact Or.inr ⟨b, _, rfl, hpaid, h⟩
          · rw [if_neg hok]
            exact Or.inl rfl
        | stripeCardError message => exact Or.inl rfl
        | otherError => exact Or.inl rfl

/-! ## Bounds on the counters -/

theorem Event.mem_save (es : List Event) (doc e : Event) (h : e ∈ Event.save es doc) :
    e ∈ es ∨ e = doc := by
  induction es with
  | nil => simp [Event.save] at h
  | cons x xs ih =>
    by_cases hx : x.id = doc.id
    · simp only [Event.save, hx, beq_self_eq_true, if_true, List.mem_cons] at h
      rcases h with h | h
      · exact Or.inr h
      · exact Or.inl (List.mem_cons_of_mem _ h)
    · have hx' : (x.id == doc.id) = false := by simpa using hx
      simp only [Event.save, hx', Bool.false_eq_true, if_false, List.mem_cons] at h
      rcases h with h | h
      · exact Or.inl (h ▸ List.mem_cons_self _ _)
      · rcases ih h with h' | h'
        · exact Or.inl (List.mem_cons_of_mem _ h')
        · exact Or.inr h'

theorem requestedQuantity_nonneg (lines : List TicketLine)
    (hpos : ∀ l ∈ lines, 0 ≤ l.quantity) (name : String) :
    0 ≤ requestedQuantity lines name := by
  unfold requestedQuantity
  apply List.sum_nonneg
  intro q hq
  obtain ⟨y, hy, rfl⟩ := List.mem_map.1 hq
  exact hpos y (List.mem_of_mem_filter hy)

theorem bookedQuantity_nonneg (tickets : List BookingTicket)
    (hpos : ∀ l ∈ tickets, 0 ≤ l.quantity) (name : String) :
    0 ≤ bookedQuantity tickets name := by
  unfold bookedQuantity
  apply List.sum_nonneg
  intro q hq
  obtain ⟨y, hy, rfl⟩ := List.mem_map.1 hq
  exact hpos y (List.mem_of_mem_filter hy)

/-- A run of steps keeps a property of the tickets when each ticket that `find` returns has
the property once the total of the steps that name it is added to its counter. -/
theorem adjustAll_preserves (P : EventTicket → Prop) (steps : List (String × Int))
    (ts : List EventTicket) (hinv : ∀ t ∈ ts, P t)
    (hfit : ∀ name t, findTicket ts name = some t →
      P { t with available := t.available + totalFor steps name }) :
    ∀ t' ∈ adjustAll steps ts, P t' := by
  intro t' ht'
  obtain ⟨i, hi⟩ := List.mem_iff_getElem?.1 ht'
  rw [adjustAll_get] at hi
  cases hti : ts[i]? with
  | none => simp [hti] at hi
  | some t =>
    rw [hti] at hi
    simp only [Option.map_some', Option.some.injEq] at hi
    by_cases hf : firstAt (ts.map (fun t => t.type)) i t.type = true
    · rw [if_pos hf] at hi
      have hfind : findTicket ts t.type = some t :=
        (findTicket_eq_some_iff ts t.type t).2 ⟨i, hti, rfl, hf⟩
      have := hfit t.type t hfind
      subst hi
      exact this
    · rw [if_neg hf] at hi
      subst hi
      exact hinv t (List.mem_iff_getElem?.2 ⟨i, hti⟩)

theorem requestedQuantity_le_available (ts : List EventTicket) (lines : List TicketLine)
    (hc : checkTickets ts lines = none)
    (hd : (lines.map (fun l => l.ticketType)).Nodup)
    (name : String) (t : EventTicket) (ht : findTicket ts name = some t)
    (hinv : 0 ≤ t.available) :
    requestedQuantity lines name ≤ t.available := by
  by_cases hex : ∃ l ∈ lines, l.ticketType = name
  · obtain ⟨l, hl, hn⟩ := hex
    obtain ⟨t0, ht0, hq⟩ := (checkTickets_eq_none ts lines).1 hc l hl
    rw [hn, ht] at ht0
    cases ht0
    rw [← hn, requestedQuantity_of_nodup lines hd l hl]
    exact hq
  · rw [requestedQuantity_of_not_mem lines name (fun l hl hn => hex ⟨l, hl, hn⟩)]
    exact hinv

/-- The events after a `createBooking` call: those from before, or those with the event of
the request saved with the counters of the second loop. -/
theorem createBooking_events (env : Env) (user : User) (body : CreateBookingBody) (s : Store) :
    (createBooking env user body s).2.events = s.events ∨
    ∃ e ts' b, Event.findById s.events body.event = some e
      ∧ checkTickets e.tickets body.tickets = none
      ∧ Booking.create env s.bookings (createInput user body) = some (b, s.bookings ++ [b])
      ∧ updateAvailability e.tickets body.tickets = some ts'
      ∧ env.eventSaveOk = true
      ∧ createBooking env user body s =
          (.created b, { events := Event.save s.events { e with tickets := ts' }
                         bookings := s.bookings ++ [b] }) := by
  rcases createBooking_cases env user body s with ⟨_, h⟩ | ⟨_, _, h⟩ | ⟨_, e, he, h⟩
  · rw [h]; exact Or.inl rfl
  · rw [h]; exact Or.inl rfl
  · rcases h with ⟨f, _, h⟩ | ⟨_, _, h⟩ | ⟨hc, b, ts', hb, hu, ⟨hs, h⟩ | ⟨_, h⟩⟩
    · rw [h]; exact Or.inl rfl
    · rw [h]; exact Or.inl rfl
    · exact Or.inr ⟨e, ts', b, he, hc, hb, hu, hs, h⟩
    · rw [h]; exact Or.inl rfl

/-- The events after a `cancelBooking` call: those from before, or those with the event of
the booking saved with the counters of the release loop. -/
theorem cancelBooking_events (env : Env) (user : User) (id : String) (s : Store) :
    (cancelBooking env user id s).2.events = s.events ∨
    ∃ b e, Booking.findById s.bookings id = some b
      ∧ b.bookingStatus ≠ BookingStatus.cancelled
      ∧ Event.findById s.events b.event = some e
      ∧ env.eventSaveOk = true
      ∧ (cancelBooking env user id s).2.events =
          Event.save s.events { e with tickets := releaseTickets e.tickets b.tickets } := by
  rcases cancelBooking_cases env user id s with ⟨_, h⟩ | ⟨b, hb, h⟩
  · rw [h]; exact Or.inl rfl
  · rcases h with ⟨_, h⟩ | ⟨_, _, h⟩ | ⟨_, hst, h⟩
    · rw [h]; exact Or.inl rfl
    · rw [h]; exact Or.inl rfl
    · rcases h with ⟨_, h⟩ | ⟨saved, _, _, h⟩
      · rw [h]; exact Or.inl rfl
      · rcases h with ⟨_, h⟩ | ⟨e, he, ⟨hs, h⟩ | ⟨_, h⟩⟩
        · rw [h]; exact Or.inl rfl
        · exact Or.inr ⟨b, e, hb, hst, he, hs, by rw [h]⟩
        · rw [h]; exact Or.inl rfl

/-! ## The accounting equation -/

theorem Booking.replace_sum (f : Booking → Int) (bs : List Booking) (id : String)
    (b doc : Booking) (hb : Booking.findById bs id = some b) (hid : doc.id = id) :
    ((Booking.replace bs doc).map f).sum = (bs.map f).sum - f b + f doc := by
  induction bs with
  | nil => simp [Booking.findById] at hb
  | cons x xs ih =>
    by_cases hx : x.id = id
    · have hxb : x = b := by
        simpa [Booking.findById, List.find?_cons, hx] using hb
      subst hxb
      simp [Booking.replace, hx, hid]
      ring
    · have hb' : Booking.findById xs id = some b := by
        simpa [Booking.findById, List.find?_cons, hx] using hb
      have hx' : ¬ x.id = doc.id := by rw [hid]; exact hx
      simp [Booking.replace, hx', ih hb']
      ring

theorem reservedQuantity_append (bs : List Booking) (b : Booking) (id name : String) :
    reservedQuantity (bs ++ [b]) id name = reservedQuantity bs id name + heldBy id name b := by
  simp [reservedQuantity]

theorem reservedQuantity_replace (bs : List Booking) (id : String) (b doc : Booking)
    (hb : Booking.findById bs id = some b) (hid : doc.id = id) (eid name : String) :
    reservedQuantity (Booking.replace bs doc) eid name
      = reservedQuantity bs eid name - heldBy eid name b + heldBy eid name doc :=
  Booking.replace_sum (heldBy eid name) bs id b doc hb hid

theorem adjustAll_findTicket_inv (steps : List (String × Int)) (ts : List EventTicket)
    (name : String) (t' : EventTicket) (h : findTicket (adjustAll steps ts) name = some t') :
    ∃ t, findTicket ts name = some t
      ∧ t' = { t with available := t.available + totalFor steps name } := by
  have h1 : (findTicket (adjustAll steps ts) name).isSome = true := by simp [h]
  rw [findTicket_isSome_iff, adjustAll_types, ← findTicket_isSome_iff] at h1
  obtain ⟨t, ht⟩ := Option.isSome_iff_exists.1 h1
  refine ⟨t, ht, ?_⟩
  rw [adjustAll_findTicket _ _ _ _ ht] at h
  exact (Option.some.inj h).symm

theorem accounted_of_initial (s : Store) (hb : s.bookings = [])
    (hfull : ∀ e ∈ s.events, ∀ t ∈ e.tickets, t.available = t.quantity) : accounted s := by
  intro id e he name t ht
  rw [hb]
  simp only [reservedQuantity, List.map_nil, List.sum_nil, sub_zero]
  exact hfull e (Event.findById_mem _ _ _ he) t (List.mem_of_find?_eq_some ht)

/-- Saving one event with adjusted counters and changing the bookings keeps the accounting
equation when the reserved quantities of that event move by the opposite of the totals of
the steps and those of the other events do not move. -/
theorem accounted_save (s : Store) (e : Event) (steps : List (String × Int))
    (bs' : List Booking) (hacc : accounted s)
    (he : Event.findById s.events e.id = some e)
    (hsame : ∀ name, reservedQuantity bs' e.id name
      = reservedQuantity s.bookings e.id name - totalFor steps name)
    (hother : ∀ id name, id ≠ e.id →
      reservedQuantity bs' id name = reservedQuantity s.bookings id name) :
    accounted { events := Event.save s.events { e with tickets := adjustAll steps e.tickets }
                bookings := bs' } := by
  intro id e1 he1 name t1 ht1
  by_cases hid : id = e.id
  · subst hid
    have hfound := Event.findById_save_same s.events e
      { e with tickets := adjustAll steps e.tickets } he
    simp only at he1
    rw [hfound] at he1
    cases he1
    obtain ⟨t, ht, rfl⟩ := adjustAll_findTicket_inv _ _ _ _ ht1
    have := hacc e.id e he name t ht
    simp only [hsame name]
    omega
  · simp only at he1
    rw [Event.findById_save_other s.events
      { e with tickets := adjustAll steps e.tickets } id hid] at he1
    have := hacc id e1 he1 name t1 ht1
    simp only [hother id name hid]
    exact this

/-- Changing the bookings alone keeps the accounting equation when no reserved quantity of
a stored event moves. -/
theorem accounted_bookings (s : Store) (bs' : List Booking) (hacc : accounted s)
    (hsame : ∀ id e name, Event.findById s.events id = some e →
      reservedQuantity bs' id name = reservedQuantity s.bookings id name) :
    accounted { s with bookings := bs' } := by
  intro id e1 he1 name t1 ht1
  have := hacc id e1 he1 name t1 ht1
  simp only [hsame id e1 name he1]
  exact this

theorem accounted_createBooking (env : Env) (user : User) (body : CreateBookingBody)
    (s : Store) (hacc : accounted s) (hsave : env.eventSaveOk = true) :
    accounted (createBooking env user body s).2 := by
  rcases createBooking_cases env user body s with ⟨_, h⟩ | ⟨_, _, h⟩ | ⟨_, e, he, h⟩
  · rw [h]; exact hacc
  · rw [h]; exact hacc
  · rcases h with ⟨f, _, h⟩ | ⟨_, _, h⟩ | ⟨_, b, ts', hb, hu, ⟨_, h⟩ | ⟨hs, _⟩⟩
    · rw [h]; exact hacc
    · rw [h]; exact hacc
    · rw [h, updateAvailability_eq_some _ _ _ hu]
      have hid := Event.findById_id _ _ _ he
      obtain ⟨_, hcast, _, _, hpend, _, hev, _⟩ := Booking.create_eq_some _ _ _ _ _ hb
      have hev' : b.event = e.id := by rw [hev, hid]; rfl
      apply accounted_save s e (requestSteps body.tickets) (s.bookings ++ [b]) hacc
        (by rw [hid]; exact he)
      · intro name
        rw [reservedQuantity_append, totalFor_requestSteps]
        have : heldBy e.id name b = requestedQuantity body.tickets name := by
          unfold heldBy
          rw [if_pos ⟨hev', by rw [hpend]; decide⟩]
          exact bookedQuantity_of_cast _ _ hcast name
        rw [this]
        ring
      · intro id name hne
        rw [reservedQuantity_append]
        have : heldBy id name b = 0 := by
          unfold heldBy
          rw [if_neg]
          rintro ⟨h1, _⟩
          exact hne (h1 ▸ hev'.symm ▸ rfl)
        rw [this]
        ring
    · rw [hsave] at hs; cases hs

theorem accounted_cancelBooking (env : Env) (user : User) (id : String) (s : Store)
    (hacc : accounted s) (hsave : env.eventSaveOk = true) :
    accounted (cancelBooking env user id s).2 := by
  rcases cancelBooking_cases env user id s with ⟨_, h⟩ | ⟨b, hb, h⟩
  · rw [h]; exact hacc
  · rcases h with ⟨_, h⟩ | ⟨_, _, h⟩ | ⟨_, hst, h⟩
    · rw [h]; exact hacc
    · rw [h]; exact hacc
    · rcases h with ⟨_, h⟩ | ⟨saved, hsaved, _, h⟩
      · rw [h]; exact hacc
      · obtain ⟨f1, _, f3, f4, _, _, _, _, f9, _⟩ := preSave_fields env.random
          { b with bookingStatus := BookingStatus.cancelled }
        rw [← hsaved] at f1 f3 f4 f9
        have hbid := Booking.findById_has_id _ _ _ hb
        have hsid : saved.id = id := by rw [f1]; exact hbid
        have hheld : ∀ eid name, heldBy eid name saved = 0 := by
          intro eid name
          unfold heldBy
          rw [if_neg]
          rintro ⟨_, h2⟩
          exact h2 f9
        have hrep : ∀ eid name, reservedQuantity (Booking.replace s.bookings saved) eid name
            = reservedQuantity s.bookings eid name - heldBy eid name b := by
          intro eid name
          rw [reservedQuantity_replace _ _ _ _ hb hsid, hheld]
          ring
        rcases h with ⟨hnone, h⟩ | ⟨e, he, ⟨_, h⟩ | ⟨hs, _⟩⟩
        · rw [h]
          apply accounted_bookings s _ hacc
          intro eid e1 name he1
          rw [hrep]
          have : heldBy eid name b = 0 := by
            unfold heldBy
            rw [if_neg]
            rintro ⟨h1, _⟩
            rw [h1, he1] at hnone
            cases hnone
          rw [this]
          ring
        · rw [h, releaseTickets_eq]
          have hid := Event.findById_id _ _ _ he
          apply accounted_save s e (releaseSteps b.tickets) _ hacc (by rw [hid]; exact he)
          · intro name
            rw [hrep, totalFor_releaseSteps]
            have : heldBy e.id name b = bookedQuantity b.tickets name := by
              unfold heldBy
              rw [if_pos ⟨hid.symm, hst⟩]
            rw [this]
          · intro eid name hne
            rw [hrep]
            have : heldBy eid name b = 0 := by
              unfold heldBy
              rw [if_neg]
              rintro ⟨h1, _⟩
              exact hne (by rw [← h1, hid])
            rw [this]
            ring
        · rw [hsave] at hs; cases hs

theorem accounted_processPayment (env : Env) (user : User) (body : PaymentBody) (s : Store)
    (hacc : accounted s)
    (hreg : (Booking.findById s.bookings body.bookingId).map (fun b => b.bookingStatus)
      ≠ some BookingStatus.cancelled) :
    accounted (processPayment env user body s).2 := by
  rcases processPayment_store env user body s with h | ⟨b, intent, hb, _, h⟩
  · rw [h]; exact hacc
  · rw [h]
    have hst : b.bookingStatus ≠ BookingStatus.cancelled := by
      intro hc
      apply hreg
      rw [hb]
      simp [hc]
    obtain ⟨f1, _, f3, f4, _, _, _, _, f9, _⟩ := preSave_fields env.random
      { b with
        paymentStatus := PaymentStatus.completed
        bookingStatus := BookingStatus.confirmed
        paymentId := some intent.id }
    apply accounted_bookings s _ hacc
    intro eid e1 name _
    have hbid : b.id = body.bookingId := Booking.findById_has_id _ _ _ hb
    rw [reservedQuantity_replace _ _ _ _ hb (by rw [f1]; exact hbid)]
    have : heldBy eid name (preSave env.random
        { b with
          paymentStatus := PaymentStatus.completed
          bookingStatus := BookingStatus.confirmed
          paymentId := some intent.id }) = heldBy eid name b := by
      unfold heldBy
      rw [f3, f4, f9]
      by_cases hev : b.event = eid
      · rw [if_pos ⟨hev, fun h => BookingStatus.noConfusion h⟩, if_pos ⟨hev, hst⟩]
      · rw [if_neg (fun h => hev h.1), if_neg (fun h => hev h.1)]
    rw [this]
    ring

theorem accounted_run (c : Call) (s : Store) (hacc : accounted s) (hreg : c.regular s) :
    accounted (c.run s) := by
  cases c with
  | createBooking env user body => exact accounted_createBooking env user body s hacc hreg
  | processPayment env user body => exact accounted_processPayment env user body s hacc hreg
  | cancelBooking env user id => exact accounted_cancelBooking env user id s hacc hreg

theorem accounted_runCalls (calls : List Call) (s : Store) (hacc : accounted s)
    (hreg : regularRun calls s) : accounted (runCalls calls s) := by
  induction calls generalizing s with
  | nil => exact hacc
  | cons c cs ih => exact ih (c.run s) (accounted_run c s hacc hreg.1) hreg.2

/-! ## `processPayment`, case by case -/

theorem Booking.findById_replace_same (bs : List Booking) (b doc : Booking)
    (h : Booking.findById bs doc.id = some b) :
    Booking.findById (Booking.replace bs doc) doc.id = some doc := by
  induction bs with
  | nil => simp [Booking.findById] at h
  | cons x xs ih =>
    by_cases hx : x.id = doc.id
    · simp [Booking.replace, Booking.findById, hx]
    · have h' : Booking.findById xs doc.id = some b := by
        simpa [Booking.findById, List.find?_cons, hx] using h
      have := ih h'
      simp only [Booking.findById] at this
      simp [Booking.replace, Booking.findById, hx, List.find?_cons, this]

theorem Booking.findById_replace_other (bs : List Booking) (doc : Booking) (id : String)
    (h : id ≠ doc.id) :
    Booking.findById (Booking.replace bs doc) id = Booking.findById bs id := by
  induction bs with
  | nil => simp [Booking.replace]
  | cons x xs ih =>
    simp only [Booking.findById] at ih
    by_cases hx : x.id = doc.id
    · have h2 : ¬ doc.id = id := fun h2 => h h2.symm
      have h3 : ¬ x.id = id := fun h3 => h (h3 ▸ hx)
      simp [Booking.replace, Booking.findById, hx, List.find?_cons, h2]
    · by_cases hy : x.id = id
      · subst hy
        simp [Booking.replace, Booking.findById, hx, List.find?_cons]
      · simp [Booking.replace, Booking.findById, hx, List.find?_cons, hy, ih]

/-- The booking as `processPayment` changes it in memory after a successful charge. -/
theorem recordPayment_cases (env : Env) (s : Store) (b : Booking) (intent : PaymentIntent) :
    (Booking.save env s.bookings
          { b with
            paymentStatus := PaymentStatus.completed
            bookingStatus := BookingStatus.confirmed
            paymentId := some intent.id } = none
        ∧ recordPayment env s b intent = (.serverError, s)) ∨
    (env.bookingWriteOk = true ∧
      recordPayment env s b intent =
        (.paymentSuccessful
          (preSave env.random
            { b with
              paymentStatus := PaymentStatus.completed
              bookingStatus := BookingStatus.confirmed
              paymentId := some intent.id }) intent,
          { s with bookings := (Booking.replace s.bookings
              (preSave env.random
                { b with
                  paymentStatus := PaymentStatus.completed
                  bookingStatus := BookingStatus.confirmed
                  paymentId := some intent.id })) })) := by
  unfold recordPayment
  cases hsave : Booking.save env s.bookings
      { b with
        paymentStatus := PaymentStatus.completed
        bookingStatus := BookingStatus.confirmed
        paymentId := some intent.id } with
  | none => exact Or.inl ⟨rfl, rfl⟩
  | some p =>
    obtain ⟨saved, bs'⟩ := p
    obtain ⟨h1, h2, h3⟩ := Booking.save_eq_some _ _ _ _ _ hsave
    right
    refine ⟨h3, ?_⟩
    simp only [h2, h1]

/-- Every path through `processPayment`. -/
theorem processPayment_cases (env : Env) (user : User) (body : PaymentBody) (s : Store) :
    (Booking.findById s.bookings body.bookingId = none ∧
        processPayment env user body s
          = (if isObjectId body.bookingId then .bookingNotFound else .serverError, s)) ∨
    ∃ b, Booking.findById s.bookings body.bookingId = some b ∧
      ((b.user ≠ user.id ∧ processPayment env user body s = (.notAuthorized, s)) ∨
       (b.user = user.id ∧ b.paymentStatus = PaymentStatus.completed ∧
          processPayment env user body s = (.alreadyPaid, s)) ∨
       (b.user = user.id ∧ b.paymentStatus ≠ PaymentStatus.completed ∧
          ((Event.findById s.events b.event = none ∧
              processPayment env user body s = (.serverError, s)) ∨
           ∃ e, Event.findById s.events b.event = some e ∧
             ((env.bypassStripe = true ∧
                processPayment env user body s
                  = recordPayment env s b (mockPaymentIntent env b)) ∨
              (env.bypassStripe = false ∧
                ((∃ intent, env.gateway (intentParams b e user body) = .intent intent
                    ∧ intent.status = "succeeded"
                    ∧ processPayment env user body s = recordPayment env s b intent) ∨
                 (∃ intent, env.gateway (intentParams b e user body) = .intent intent
                    ∧ intent.status ≠ "succeeded"
                    ∧ processPayment env user body s = (.paymentFailed intent, s)) ∨
                 (∃ message, env.gateway (intentParams b e user body)
                      = .stripeCardError message
                    ∧ processPayment env user body s = (.cardError message, s)) ∨
                 (env.gateway (intentParams b e user body) = .otherError
                    ∧ processPayment env user body s = (.serverError, s)))))))) := by
  cases hb : Booking.findById s.bookings body.bookingId with
  | none =>
    exact Or.inl ⟨rfl, by
      by_cases hid : isObjectId body.bookingId = true <;> simp [processPayment, hb, hid]⟩
  | some b =>
    refine Or.inr ⟨b, rfl, ?_⟩
    by_cases hauth : b.user ≠ user.id
    · exact Or.inl ⟨hauth, by simp only [processPayment, hb]; rw [if_pos hauth]⟩
    have hown : b.user = user.id := not_not.1 hauth
    by_cases hpaid : b.paymentStatus = PaymentStatus.completed
    · exact Or.inr (Or.inl ⟨hown, hpaid, by
        simp only [processPayment, hb]; rw [if_neg hauth, if_pos hpaid]⟩)
    refine Or.inr (Or.inr ⟨hown, hpaid, ?_⟩)
    have hstart : processPayment env user body s =
        match Event.findById s.events b.event with
        | none => (.serverError, s)
        | some event =>
          if env.bypassStripe then recordPayment env s b (mockPaymentIntent env b)
          else
            match env.gateway (intentParams b event user body) with
            | .intent paymentIntent =>
              if paymentIntent.status = "succeeded" then recordPayment env s b paymentIntent
              else (.paymentFailed paymentIntent, s)
            | .stripeCardError message => (.cardError message, s)
            | .otherError => (.serverError, s) := by
      simp only [processPayment, hb]
      rw [if_neg hauth, if_neg hpaid]
    rw [hstart]
    cases he : Event.findById s.events b.event with
    | none => exact Or.inl ⟨rfl, rfl⟩
    | some e =>
      refine Or.inr ⟨e, rfl, ?_⟩
      simp only
      cases hby : env.bypassStripe with
      | true => exact Or.inl ⟨rfl, by simp⟩
      | false =>
        refine Or.inr ⟨rfl, ?_⟩
        simp only [Bool.false_eq_true, if_false]
        cases hg : env.gateway (intentParams b e user body) with
        | intent paymentIntent =>
          simp only
          by_cases hok : paymentIntent.status = "succeeded"
          · rw [if_pos hok]
            exact Or.inl ⟨paymentIntent, rfl, hok, rfl⟩
          · rw [if_neg hok]
            exact Or.inr (Or.inl ⟨paymentIntent, rfl, hok, rfl⟩)
        | stripeCardError message => exact Or.inr (Or.inr (Or.inl ⟨message, rfl, rfl⟩))
        | otherError => exact Or.inr (Or.inr (Or.inr ⟨rfl, rfl⟩))

theorem preSave_of_reference (random : ℚ) (b : Booking)
    (h : b.bookingReference ≠ none ∧ b.bookingReference ≠ some "") : preSave random b = b := by
  unfold preSave
  rw [if_neg]
  rintro (h1 | h1)
  · exact h.1 h1
  · exact h.2 h1

theorem Booking.save_of_reference (env : Env) (bs : List Booking) (b : Booking)
    (hw : env.bookingWriteOk = true)
    (h : b.bookingReference ≠ none ∧ b.bookingReference ≠ some "") :
    Booking.save env bs b = some (b, Booking.replace bs b) := by
  simp [Booking.save, preSave_of_reference env.random b h, hw]

theorem recordPayment_gateway (env : Env) (g : IntentParams → GatewayOutcome) (s : Store)
    (b : Booking) (intent : PaymentIntent) :
    recordPayment { env with gateway := g } s b intent = recordPayment env s b intent := rfl

/-- The response and the store of `processPayment` depend on the gateway only through its
answer to the call that `gatewayRequest` names. -/
theorem processPayment_gateway (env : Env) (g : IntentParams → GatewayOutcome) (user : User)
    (body : PaymentBody) (s : Store)
    (h : ∀ p, gatewayRequest env user body s = some p → g p = env.gateway p) :
    processPayment { env with gateway := g } user body s = processPayment env user body s := by
  unfold gatewayRequest at h
  unfold processPayment
  cases hb : Booking.findById s.bookings body.bookingId with
  | none => rfl
  | some b =>
    simp only [hb] at h
    simp only
    by_cases hauth : b.user ≠ user.id
    · rw [if_pos hauth, if_pos hauth]
    rw [if_neg hauth, if_neg hauth]
    rw [if_neg hauth] at h
    by_cases hpaid : b.paymentStatus = PaymentStatus.completed
    · rw [if_pos hpaid, if_pos hpaid]
    rw [if_neg hpaid, if_neg hpaid]
    rw [if_neg hpaid] at h
    cases he : Event.findById s.events b.event with
    | none => rfl
    | some e =>
      simp only [he] at h
      simp only
      by_cases hby : env.bypassStripe = true
      · rw [if_pos hby, if_pos hby]
        rfl
      · rw [if_neg hby, if_neg hby]
        rw [if_neg hby] at h
        have hg : g (intentParams b e user body) = env.gateway (intentParams b e user body) :=
          h _ rfl
        show (match g (intentParams b e user body) with
          | .intent paymentIntent =>
            if paymentIntent.status = "succeeded" then
              recordPayment { env with gateway := g } s b paymentIntent
            else (.paymentFailed paymentIntent, s)
          | .stripeCardError message => (.cardError message, s)
          | .otherError => (.serverError, s)) = _
        rw [hg]
        rfl

/-- A `cancelBooking` call that answers with the 200 response. -/
theorem cancelBooking_cancelled (env : Env) (user : User) (id : String) (s : Store)
    (saved : Booking) (h : (cancelBooking env user id s).1 = .cancelled saved) :
    ∃ b, Booking.findById s.bookings id = some b
      ∧ ¬ (b.user ≠ user.id ∧ user.role ≠ "admin")
      ∧ b.bookingStatus ≠ BookingStatus.cancelled
      ∧ saved = preSave env.random { b with bookingStatus := BookingStatus.cancelled }
      ∧ env.bookingWriteOk = true
      ∧ ((Event.findById s.events b.event = none ∧
            (cancelBooking env user id s).2
              = { s with bookings := Booking.replace s.bookings saved }) ∨
         ∃ e, Event.findById s.events b.event = some e ∧ env.eventSaveOk = true ∧
            (cancelBooking env user id s).2 =
              { events := Event.save s.events
                  { e with tickets := releaseTickets e.tickets b.tickets }
                bookings := Booking.replace s.bookings saved }) := by
  rcases cancelBooking_cases env user id s with ⟨_, h1⟩ | ⟨b, hb, h1⟩
  · rw [h1] at h; split at h <;> cases h
  · rcases h1 with ⟨_, h1⟩ | ⟨_, _, h1⟩ | ⟨hauth, hst, h1⟩
    · rw [h1] at h; cases h
    · rw [h1] at h; cases h
    · rcases h1 with ⟨_, h1⟩ | ⟨saved', hsaved, hw, h1⟩
      · rw [h1] at h; cases h
      · rcases h1 with ⟨hnone, h1⟩ | ⟨e, he, ⟨hs, h1⟩ | ⟨_, h1⟩⟩
        · rw [h1] at h
          cases h
          exact ⟨b, hb, hauth, hst, hsaved, hw, Or.inl ⟨hnone, h1 ▸ rfl⟩⟩
        · rw [h1] at h
          cases h
          exact ⟨b, hb, hauth, hst, hsaved, hw, Or.inr ⟨e, he, hs, h1 ▸ rfl⟩⟩
        · rw [h1] at h; cases h

/-- A `processPayment` call that answers `Payment successful`. -/
theorem processPayment_successful (env : Env) (user : User) (body : PaymentBody) (s : Store)
    (b' : Booking) (intent : PaymentIntent)
    (h : (processPayment env user body s).1 = .paymentSuccessful b' intent) :
    ∃ b, Booking.findById s.bookings body.bookingId = some b
      ∧ b.user = user.id
      ∧ b' = preSave env.random
          { b with
            paymentStatus := PaymentStatus.completed
            bookingStatus := BookingStatus.confirmed
            paymentId := some intent.id }
      ∧ (processPayment env user body s).2
          = { s with bookings := Booking.replace s.bookings b' }
      ∧ Booking.findById (processPayment env user body s).2.bookings body.bookingId = some b'
      ∧ b'.paymentStatus = PaymentStatus.completed := by
  have hrec : ∀ b i, Booking.findById s.bookings body.bookingId = some b → b.user = user.id →
      processPayment env user body s = recordPayment env s b i →
      ∃ b, Booking.findById s.bookings body.bookingId = some b
        ∧ b.user = user.id
        ∧ b' = preSave env.random
            { b with
              paymentStatus := PaymentStatus.completed
              bookingStatus := BookingStatus.confirmed
              paymentId := some intent.id }
        ∧ (processPayment env user body s).2
            = { s with bookings := Booking.replace s.bookings b' }
        ∧ Booking.findById (processPayment env user body s).2.bookings body.bookingId
            = some b'
        ∧ b'.paymentStatus = PaymentStatus.completed := by
    intro b i hb hown hr
    rcases recordPayment_cases env s b i with ⟨_, h1⟩ | ⟨_, h1⟩
    · rw [hr, h1] at h; cases h
    · rw [hr, h1] at h
      simp only [PaymentResponse.paymentSuccessful.injEq] at h
      obtain ⟨hb', hi⟩ := h
      subst hi
      have hfields := preSave_fields env.random
        { b with
          paymentStatus := PaymentStatus.completed
          bookingStatus := BookingStatus.confirmed
          paymentId := some i.id }
      rw [hb'] at hfields h1
      have hbid : b.id = body.bookingId := Booking.findById_has_id _ _ _ hb
      have hid : b'.id = body.bookingId := by
        rw [hfields.1]; exact hbid
      refine ⟨b, hb, hown, hb'.symm, by rw [hr, h1], ?_, hfields.2.2.2.2.2.1⟩
      rw [hr, h1]
      have := Booking.findById_replace_same s.bookings b b' (by rw [hid]; exact hb)
      rw [hid] at this
      exact this
  rcases processPayment_cases env user body s with ⟨_, h1⟩ | ⟨b, hb, h1⟩
  · rw [h1] at h; split at h <;> cases h
  · rcases h1 with ⟨_, h1⟩ | ⟨_, _, h1⟩ | ⟨hown, _, h1⟩
    · rw [h1] at h; cases h
    · rw [h1] at h; cases h
    · rcases h1 with ⟨_, h1⟩ | ⟨e, _, h1⟩
      · rw [h1] at h; cases h
      · rcases h1 with ⟨_, h1⟩ | ⟨_, h1⟩
        · exact hrec b _ hb hown h1
        · rcases h1 with ⟨i, _, _, h1⟩ | ⟨i, _, _, h1⟩ | ⟨m, _, h1⟩ | ⟨_, h1⟩
          · exact hrec b _ hb hown h1
          · rw [h1] at h; cases h
          · rw [h1] at h; cases h
          · rw [h1] at h; cases h

/-- What `processPayment` does for a booking that is already paid for. -/
theorem processPayment_paid (env : Env) (user : User) (body : PaymentBody) (s : Store)
    (b : Booking) (hb : Booking.findById s.bookings body.bookingId = some b)
    (hpaid : b.paymentStatus = PaymentStatus.completed) :
    (b.user ≠ user.id ∧ processPayment env user body s = (.notAuthorized, s)) ∨
    (b.user = user.id ∧ processPayment env user body s = (.alreadyPaid, s)) := by
  rcases processPayment_cases env user body s with ⟨h0, _⟩ | ⟨b0, hb0, h⟩
  · rw [hb] at h0; cases h0
  · rw [hb] at hb0
    cases hb0
    rcases h with ⟨h1, h⟩ | ⟨h1, _, h⟩ | ⟨_, h0, _⟩
    · exact Or.inl ⟨h1, h⟩
    · exact Or.inr ⟨h1, h⟩
    · exact absurd hpaid h0

theorem gatewayRequest_paid (env : Env) (user : User) (body : PaymentBody) (s : Store)
    (b : Booking) (hb : Booking.findById s.bookings body.bookingId = some b)
    (hpaid : b.paymentStatus = PaymentStatus.completed) :
    gatewayRequest env user body s = none := by
  unfold gatewayRequest
  simp only [hb]
  by_cases hauth : b.user ≠ user.id
  · rw [if_pos hauth]
  · rw [if_neg hauth, if_pos hpaid]

theorem gatewayRequest_eq_some (env : Env) (user : User) (body : PaymentBody) (s : Store)
    (p : IntentParams) (h : gatewayRequest env user body s = some p) :
    ∃ b e, Booking.findById s.bookings body.bookingId = some b
      ∧ Event.findById s.events b.event = some e
      ∧ b.user = user.id ∧ b.paymentStatus ≠ PaymentStatus.completed
      ∧ env.bypassStripe = false
      ∧ p = intentParams b e user body := by
  unfold gatewayRequest at h
  cases hb : Booking.findById s.bookings body.bookingId with
  | none => simp [hb] at h
  | some b =>
    simp only [hb] at h
    by_cases hauth : b.user ≠ user.id
    · rw [if_pos hauth] at h; cases h
    rw [if_neg hauth] at h
    by_cases hpaid : b.paymentStatus = PaymentStatus.completed
    · rw [if_pos hpaid] at h; cases h
    rw [if_neg hpaid] at h
    cases he : Event.findById s.events b.event with
    | none => simp [he] at h
    | some e =>
      simp only [he] at h
      by_cases hby : env.bypassStripe = true
      · rw [if_pos hby] at h; cases h
      · rw [if_neg hby] at h
        exact ⟨b, e, rfl, he, not_not.1 hauth, hpaid, by simpa using hby,
          (Option.some.inj h).symm⟩

/-! ## The effect of `cancelBooking` -/

theorem releaseTickets_frame (ts : List EventTicket) (tickets : List BookingTicket) :
    (releaseTickets ts tickets).map (fun t => (t.type, t.price, t.quantity))
      = ts.map (fun t => (t.type, t.price, t.quantity)) := by
  rw [releaseTickets_eq, adjustAll_frame]

theorem bookedQuantity_of_not_mem (tickets : List BookingTicket) (name : String)
    (h : ∀ l ∈ tickets, l.ticketType ≠ name) : bookedQuantity tickets name = 0 := by
  unfold bookedQuantity
  have : tickets.filter (fun l => l.ticketType == name) = [] := by
    rw [List.filter_eq_nil_iff]
    intro l hl
    simpa using h l hl
  simp [this]

theorem bookedQuantity_of_nodup (tickets : List BookingTicket)
    (hd : (tickets.map (fun l => l.ticketType)).Nodup) (l : BookingTicket) (hl : l ∈ tickets) :
    bookedQuantity tickets l.ticketType = l.quantity := by
  induction tickets with
  | nil => cases hl
  | cons x xs ih =>
    rw [List.map_cons, List.nodup_cons] at hd
    unfold bookedQuantity
    rcases List.mem_cons.1 hl with rfl | hl'
    · have h0 := bookedQuantity_of_not_mem xs l.ticketType (by
        intro y hy hyl
        exact hd.1 (List.mem_map.2 ⟨y, hy, hyl⟩))
      unfold bookedQuantity at h0
      simp [List.filter_cons, h0]
    · have hne : ¬ x.ticketType = l.ticketType := by
        intro hx
        exact hd.1 (List.mem_map.2 ⟨l, hl', hx.symm⟩)
      have := ih hd.2 hl'
      unfold bookedQuantity at this
      simp [List.filter_cons, hne, this]

theorem releaseTickets_get_other (ts : List EventTicket) (tickets : List BookingTicket)
    (i : Nat) (t : EventTicket) (ht : ts[i]? = some t)
    (hn : ∀ l ∈ tickets, l.ticketType ≠ t.type) :
    (releaseTickets ts tickets)[i]? = some t := by
  rw [releaseTickets_get, ht]
  simp [bookedQuantity_of_not_mem tickets t.type hn]

theorem releaseTickets_findTicket_none (ts : List EventTicket) (tickets : List BookingTicket)
    (name : String) (h : findTicket ts name = none) :
    findTicket (releaseTickets ts tickets) name = none := by
  have h1 : ¬ (findTicket (releaseTickets ts tickets) name).isSome = true := by
    rw [findTicket_isSome_iff, releaseTickets_eq, adjustAll_types, ← findTicket_isSome_iff, h]
    simp
  simpa using h1

/-- The booking that `cancelBooking` saves: the booking from before with `bookingStatus`
cancelled and, if it had no reference, a reference from the pre-save hook. -/
theorem cancelled_fields (random : ℚ) (b : Booking) :
    (preSave random { b with bookingStatus := BookingStatus.cancelled }).bookingStatus
        = BookingStatus.cancelled
      ∧ (preSave random { b with bookingStatus := BookingStatus.cancelled }).id = b.id
      ∧ (preSave random { b with bookingStatus := BookingStatus.cancelled }).user = b.user
      ∧ (preSave random { b with bookingStatus := BookingStatus.cancelled }).event = b.event
      ∧ (preSave random { b with bookingStatus := BookingStatus.cancelled }).tickets
          = b.tickets
      ∧ (preSave random { b with bookingStatus := BookingStatus.cancelled }).totalAmount
          = b.totalAmount
      ∧ (preSave random { b with bookingStatus := BookingStatus.cancelled }).paymentStatus
          = b.paymentStatus
      ∧ (preSave random { b with bookingStatus := BookingStatus.cancelled }).paymentMethod
          = b.paymentMethod
      ∧ (preSave random { b with bookingStatus := BookingStatus.cancelled }).paymentId
          = b.paymentId
      ∧ (preSave random { b with bookingStatus := BookingStatus.cancelled }).attendeeInformation
          = b.attendeeInformation := by
  obtain ⟨f1, f2, f3, f4, f5, f6, f7, f8, f9, f10⟩ :=
    preSave_fields random { b with bookingStatus := BookingStatus.cancelled }
  exact ⟨f9, f1, f2, f3, f4, f5, f6, f7, f8, f10⟩

/-- A `cancelBooking` call that writes the booking: the stored booking is then the cancelled
one, and the events are those from before unless the event of the booking exists and its
save is accepted. -/
theorem cancelBooking_written (env : Env) (user : User) (id : String) (s : Store)
    (h : (cancelBooking env user id s).2.bookings ≠ s.bookings) :
    ∃ b, Booking.findById s.bookings id = some b
      ∧ b.bookingStatus ≠ BookingStatus.cancelled
      ∧ (cancelBooking env user id s).2.bookings
          = Booking.replace s.bookings
              (preSave env.random { b with bookingStatus := BookingStatus.cancelled })
      ∧ Booking.findById (cancelBooking env user id s).2.bookings id
          = some (preSave env.random { b with bookingStatus := BookingStatus.cancelled })
      ∧ ((Event.findById s.events b.event = none ∧
            (cancelBooking env user id s).2.events = s.events) ∨
         ∃ e, Event.findById s.events b.event = some e ∧
           ((env.eventSaveOk = true ∧
              (cancelBooking env user id s).2.events =
                Event.save s.events
                  { e with tickets := releaseTickets e.tickets b.tickets }) ∨
            (env.eventSaveOk = false ∧
              (cancelBooking env user id s).1 = .serverError ∧
              (cancelBooking env user id s).2.events = s.events))) := by
  rcases cancelBooking_cases env user id s with ⟨_, h1⟩ | ⟨b, hb, h1⟩
  · rw [h1] at h; exact absurd rfl h
  · rcases h1 with ⟨_, h1⟩ | ⟨_, _, h1⟩ | ⟨_, hst, h1⟩
    · rw [h1] at h; exact absurd rfl h
    · rw [h1] at h; exact absurd rfl h
    · rcases h1 with ⟨_, h1⟩ | ⟨saved, hsaved, _, h1⟩
      · rw [h1] at h; exact absurd rfl h
      · subst hsaved
        have hid : (preSave env.random
            { b with bookingStatus := BookingStatus.cancelled }).id = id := by
          rw [(cancelled_fields env.random b).2.1]
          exact Booking.findById_has_id _ _ _ hb
        have hfind := Booking.findById_replace_same s.bookings b
          (preSave env.random { b with bookingStatus := BookingStatus.cancelled })
          (by rw [hid]; exact hb)
        rw [hid] at hfind
        refine ⟨b, hb, hst, ?_, ?_, ?_⟩
        · rcases h1 with ⟨_, h1⟩ | ⟨e, _, ⟨_, h1⟩ | ⟨_, h1⟩⟩ <;> rw [h1]
        · rcases h1 with ⟨_, h1⟩ | ⟨e, _, ⟨_, h1⟩ | ⟨_, h1⟩⟩ <;> rw [h1] <;> exact hfind
        · rcases h1 with ⟨hnone, h1⟩ | ⟨e, he, ⟨hs, h1⟩ | ⟨hs, h1⟩⟩
          · exact Or.inl ⟨hnone, by rw [h1]⟩
          · exact Or.inr ⟨e, he, Or.inl ⟨hs, by rw [h1]⟩⟩
          · exact Or.inr ⟨e, he, Or.inr ⟨hs, by rw [h1], by rw [h1]⟩⟩

/-- A `cancelBooking` call that answers with the 200 response for a booking whose event
exists: the booking is stored as cancelled and the event is saved with the counters of the
release loop. -/
theorem cancelBooking_released (env : Env) (user : User) (id : String) (s : Store)
    (b saved : Booking) (e : Event)
    (hb : Booking.findById s.bookings id = some b)
    (he : Event.findById s.events b.event = some e)
    (hok : (cancelBooking env user id s).1 = .cancelled saved) :
    saved = preSave env.random { b with bookingStatus := BookingStatus.cancelled }
      ∧ b.bookingStatus ≠ BookingStatus.cancelled
      ∧ Booking.findById (cancelBooking env user id s).2.bookings id = some saved
      ∧ Event.findById (cancelBooking env user id s).2.events b.event
          = some { e with tickets := releaseTickets e.tickets b.tickets }
      ∧ ∀ eid, eid ≠ b.event →
          Event.findById (cancelBooking env user id s).2.events eid
            = Event.findById s.events eid := by
  obtain ⟨b0, hb0, _, hst, hsaved, _, h⟩ := cancelBooking_cancelled env user id s saved hok
  rw [hb] at hb0
  cases hb0
  have hid : saved.id = id := by
    rw [hsaved, (cancelled_fields env.random b).2.1]
    exact Booking.findById_has_id _ _ _ hb
  have hfind := Booking.findById_replace_same s.bookings b saved (by rw [hid]; exact hb)
  rw [hid] at hfind
  rcases h with ⟨hnone, _⟩ | ⟨e0, he0, _, h⟩
  · rw [he] at hnone; cases hnone
  · rw [he] at he0
    cases he0
    rw [h]
    refine ⟨hsaved, hst, hfind, Event.findById_save_found _ _ _ _ he, ?_⟩
    intro eid hne
    apply Event.findById_save_other
    show eid ≠ e.id
    rw [Event.findById_id _ _ _ he]
    exact hne

/-! ## The decimal digits of a reference number -/

theorem toDigits_seven (n : Nat) (h1 : 1000000 ≤ n) (h2 : n ≤ 9999999) :
    Nat.toDigits 10 n =
      [Nat.digitChar (n / 1000000), Nat.digitChar (n / 100000 % 10),
       Nat.digitChar (n / 10000 % 10), Nat.digitChar (n / 1000 % 10),
       Nat.digitChar (n / 100 % 10), Nat.digitChar (n / 10 % 10), Nat.digitChar (n % 10)] := by
  have hf : n + 1 = (n - 6) + 1 + 1 + 1 + 1 + 1 + 1 + 1 := by omega
  unfold Nat.toDigits
  rw [hf]
  simp only [Nat.toDigitsCore]
  have e1 : ¬ n / 10 = 0 := by omega
  have e2 : ¬ n / 10 / 10 = 0 := by omega
  have e3 : ¬ n / 10 / 10 / 10 = 0 := by omega
  have e4 : ¬ n / 10 / 10 / 10 / 10 = 0 := by omega
  have e5 : ¬ n / 10 / 10 / 10 / 10 / 10 = 0 := by omega
  have e6 : ¬ n / 10 / 10 / 10 / 10 / 10 / 10 = 0 := by omega
  have e7 : n / 10 / 10 / 10 / 10 / 10 / 10 / 10 = 0 := by omega
  simp only [e1, e2, e3, e4, e5, e6, e7, if_true, if_false]
  have d6 : n / 10 / 10 / 10 / 10 / 10 / 10 % 10 = n / 1000000 := by omega
  have d5 : n / 10 / 10 / 10 / 10 / 10 % 10 = n / 100000 % 10 := by omega
  have d4 : n / 10 / 10 / 10 / 10 % 10 = n / 10000 % 10 := by omega
  have d3 : n / 10 / 10 / 10 % 10 = n / 1000 % 10 := by omega
  have d2 : n / 10 / 10 % 10 = n / 100 % 10 := by omega
  rw [d6, d5, d4, d3, d2]

theorem digitChar_isDigit (d : Nat) (h : d < 10) : (Nat.digitChar d).isDigit = true := by
  interval_cases d <;> decide

theorem digitChar_ne_zero (d : Nat) (h1 : 1 ≤ d) (h : d < 10) : Nat.digitChar d ≠ '0' := by
  interval_cases d <;> decide

/-! ## What a save keeps of a booking -/

theorem cancelBooking_bookings (env : Env) (user : User) (id : String) (s : Store) :
    (cancelBooking env user id s).2.bookings = s.bookings ∨
    ∃ b, Booking.findById s.bookings id = some b
      ∧ (cancelBooking env user id s).2.bookings
          = Booking.replace s.bookings
              (preSave env.random { b with bookingStatus := BookingStatus.cancelled }) := by
  by_cases h : (cancelBooking env user id s).2.bookings = s.bookings
  · exact Or.inl h
  · obtain ⟨b, hb, _, hrep, _⟩ := cancelBooking_written env user id s h
    exact Or.inr ⟨b, hb, hrep⟩

/-- Replacing a stored booking by one with the same id, user, event, tickets and total, and
with the same reference if it had one, keeps those fields of every stored booking. -/
theorem Booking.replace_keeps (bs : List Booking) (id : String) (b doc : Booking)
    (hb : Booking.findById bs id = some b) (hid : doc.id = id)
    (hkeep : doc.user = b.user ∧ doc.event = b.event ∧ doc.tickets = b.tickets
      ∧ doc.totalAmount = b.totalAmount
      ∧ (b.bookingReference ≠ none ∧ b.bookingReference ≠ some "" →
          doc.bookingReference = b.bookingReference))
    (id' : String) (b₀ : Booking) (h₀ : Booking.findById bs id' = some b₀) :
    ∃ b₁, Booking.findById (Booking.replace bs doc) id' = some b₁
      ∧ b₁.user = b₀.user ∧ b₁.event = b₀.event ∧ b₁.tickets = b₀.tickets
      ∧ b₁.totalAmount = b₀.totalAmount
      ∧ (b₀.bookingReference ≠ none ∧ b₀.bookingReference ≠ some "" →
          b₁.bookingReference = b₀.bookingReference) := by
  by_cases h : id' = id
  · subst h
    rw [hb] at h₀
    cases h₀
    refine ⟨doc, ?_, hkeep⟩
    have := Booking.findById_replace_same bs b doc (by rw [hid]; exact hb)
    rw [hid] at this
    exact this
  · refine ⟨b₀, ?_, rfl, rfl, rfl, rfl, fun _ => rfl⟩
    rw [Booking.findById_replace_other bs doc id' (by rw [hid]; exact h)]
    exact h₀

theorem preSave_keeps (random : ℚ) (b : Booking) :
    (preSave random b).user = b.user ∧ (preSave random b).event = b.event
      ∧ (preSave random b).tickets = b.tickets
      ∧ (preSave random b).totalAmount = b.totalAmount
      ∧ (b.bookingReference ≠ none ∧ b.bookingReference ≠ some "" →
          (preSave random b).bookingReference = b.bookingReference) := by
  obtain ⟨_, f2, f3, f4, f5, _⟩ := preSave_fields random b
  exact ⟨f2, f3, f4, f5, fun h => by rw [preSave_of_reference random b h]⟩

/-! ## Requests that do not overlap -/

theorem adjustOrSkip_counters (name : String) (d : Int) (ts : List EventTicket) :
    List.Forall₂ (fun a b : EventTicket => b = { a with available := b.available }) ts
      (adjustOrSkip name d ts) := by
  induction ts with
  | nil => simp [adjustOrSkip, adjustAvailable]
  | cons t ts ih =>
    rw [adjustOrSkip_cons]
    split
    · exact List.Forall₂.cons rfl (List.forall₂_same.2 (fun _ _ => rfl))
    · exact List.Forall₂.cons rfl ih

theorem adjustAll_counters (steps : List (String × Int)) (ts : List EventTicket) :
    List.Forall₂ (fun a b : EventTicket => b = { a with available := b.available }) ts
      (adjustAll steps ts) := by
  induction steps generalizing ts with
  | nil => exact List.forall₂_same.2 (fun _ _ => rfl)
  | cons p ps ih =>
    show List.Forall₂ _ ts (adjustAll ps (adjustOrSkip p.1 p.2 ts))
    have h1 := adjustOrSkip_counters p.1 p.2 ts
    have h2 := ih (adjustOrSkip p.1 p.2 ts)
    clear ih
    generalize adjustAll ps (adjustOrSkip p.1 p.2 ts) = zs at h2
    generalize adjustOrSkip p.1 p.2 ts = ys at h1 h2
    induction h1 generalizing zs with
    | nil => cases h2; exact List.Forall₂.nil
    | cons hab _ ih' =>
      cases h2 with
      | cons hbc hrest =>
        refine List.Forall₂.cons ?_ (ih' _ hrest)
        rw [hbc, hab]

/-- On the document that was loaded, the write of the modified paths is the write of the
whole document. -/
theorem setModified_same (ts ts' : List EventTicket)
    (h : List.Forall₂ (fun a b : EventTicket => b = { a with available := b.available }) ts ts') :
    setModified ts ts' ts = ts' := by
  induction h with
  | nil => rfl
  | @cons a b l₁ l₂ hab _ ih =>
    simp only [setModified, ih]
    by_cases hav : b.available = a.available
    · rw [if_neg (not_not.2 hav)]
      congr 1
      rw [hab, hav]
    · rw [if_pos hav]
      congr 1
      exact hab.symm

/-- A request that takes its three steps in a row is the handler `createBooking`. -/
theorem CreateTask.run_start (env : Env) (user : User) (body : CreateBookingBody) (s : Store) :
    CreateTask.run 3 (.start env user body) s
      = (.finished (createBooking env user body s).1, (createBooking env user body s).2) := by
  simp only [CreateTask.run]
  by_cases hv : validationResult body = []
  swap
  · simp [CreateTask.step, createBooking, hv]
  cases he : Event.findById s.events body.event with
  | none =>
    by_cases hid : isObjectId body.event = true <;>
      simp [CreateTask.step, createBooking, hv, he, hid]
  | some e =>
    cases hc : checkTickets e.tickets body.tickets with
    | some f => simp [CreateTask.step, createBooking, hv, he, hc]
    | none =>
      cases hb : Booking.create env s.bookings
          { user := user.id
            event := body.event
            tickets := body.tickets
            totalAmount := body.totalAmount
            paymentMethod := body.paymentMethod
            attendeeInformation := body.attendeeInformation } with
      | none => simp [CreateTask.step, createBooking, hv, he, hc, hb]
      | some p =>
        obtain ⟨b, bs'⟩ := p
        cases hu : updateAvailability e.tickets body.tickets with
        | none => simp [CreateTask.step, createBooking, hv, he, hc, hb, hu]
        | some ts' =>
          have hfind : Event.findById s.events e.id = some e := by
            rw [Event.findById_id _ _ _ he]; exact he
          have hset : setModified e.tickets ts' e.tickets = ts' := by
            apply setModified_same
            rw [updateAvailability_eq_some _ _ _ hu]
            exact adjustAll_counters _ _
          cases hs : env.eventSaveOk with
          | true => simp [CreateTask.step, createBooking, hv, he, hc, hb, hu, hs, hfind, hset]
          | false => simp [CreateTask.step, createBooking, hv, he, hc, hb, hu, hs]

/-- Two requests that overlap and lower different counters of one event: each save writes the
counter its request has lowered, so both reservations are in the stored event. -/
theorem setModified_keeps_other_counters :
    (runSchedule [0, 1, 0, 1, 0, 1] exampleTwoTypeRace
        { events := [exampleTwoTypeEvent], bookings := [] }).1.map
        (fun t => t.response.map (fun r => r.status)) = [some 201, some 201]
      ∧ (runSchedule [0, 1, 0, 1, 0, 1] exampleTwoTypeRace
          { events := [exampleTwoTypeEvent], bookings := [] }).2.events.map
          (fun e => e.tickets.map (fun t => (t.type, t.available)))
          = [[("A", 7), ("B", 3), ("C", 7)]] := by
  refine ⟨by decide!, by decide!⟩

theorem available_nonneg_createBooking (env : Env) (user : User) (body : CreateBookingBody)
    (s : Store) (hinv : ∀ e ∈ s.events, ∀ t ∈ e.tickets, 0 ≤ t.available)
    (hd : (body.tickets.map (fun l => l.ticketType)).Nodup) :
    ∀ e ∈ (createBooking env user body s).2.events, ∀ t ∈ e.tickets, 0 ≤ t.available := by
  rcases createBooking_events env user body s with h | ⟨e, ts', b, he, hc, hb, hu, _, h⟩
  · intro e' he'
    rw [h] at he'
    exact hinv e' he'
  · rw [h]
    intro e' he' t' ht'
    rcases Event.mem_save _ _ _ he' with hold | hnew
    · exact hinv e' hold t' ht'
    · subst hnew
      have hmem := Event.findById_mem _ _ _ he
      rw [updateAvailability_eq_some _ _ _ hu] at ht'
      refine adjustAll_preserves (fun t => 0 ≤ t.available) _ _ (hinv e hmem) ?_ t' ht'
      intro name t ht
      have h0 := hinv e hmem t (List.mem_of_find?_eq_some ht)
      have h1 := requestedQuantity_le_available _ _ hc hd name t ht h0
      rw [totalFor_requestSteps]
      show 0 ≤ t.available + -requestedQuantity body.tickets name
      omega

theorem reserving_runCalls (calls : List Call) (s : Store)
    (hacc : accounted s) (hinv : ∀ e ∈ s.events, ∀ t ∈ e.tickets, 0 ≤ t.available)
    (hres : ∀ c ∈ calls, c.reserving) :
    accounted (runCalls calls s)
      ∧ ∀ e ∈ (runCalls calls s).events, ∀ t ∈ e.tickets, 0 ≤ t.available := by
  induction calls generalizing s with
  | nil => exact ⟨hacc, hinv⟩
  | cons c cs ih =>
    have hc := hres c (List.mem_cons_self _ _)
    have hrest : ∀ c' ∈ cs, c'.reserving := fun c' h' => hres c' (List.mem_cons_of_mem _ h')
    cases c with
    | createBooking env user body =>
      exact ih _ (accounted_createBooking env user body s hacc hc.1)
        (available_nonneg_createBooking env user body s hinv hc.2) hrest
    | processPayment env user body => exact absurd hc (by simp [Call.reserving])
    | cancelBooking env user id => exact absurd hc (by simp [Call.reserving])

/-! ## The update handlers -/

theorem Event.save_keeps_tickets (es : List Event) (e doc : Event)
    (he : Event.findById es doc.id = some e) (ht : doc.tickets = e.tickets) :
    (Event.save es doc).map (fun x => (x.id, x.tickets)) = es.map (fun x => (x.id, x.tickets)) := by
  induction es with
  | nil => rfl
  | cons x xs ih =>
    by_cases hx : x.id = doc.id
    · have hxe : x = e := by
        simpa [Event.findById, List.find?_cons, hx] using he
      subst hxe
      simp [Event.save, hx, ht]
    · have he' : Event.findById xs doc.id = some e := by
        simpa [Event.findById, List.find?_cons, hx] using he
      simp [Event.save, hx, ih he']

/-- Every path through `updateEvent`. -/
theorem updateEvent_cases (env : Env) (user : User) (id : String) (body : EventUpdate)
    (s : Store) :
    ((updateEvent env user id body s).2 = s
        ∧ ∀ e', (updateEvent env user id body s).1 ≠ .updated e') ∨
    ∃ e e', Event.findById s.events id = some e
      ∧ ¬ (e.organizer ≠ user.id ∧ user.role ≠ "admin")
      ∧ env.eventSaveOk = true ∧ body.result e = some e'
      ∧ updateEvent env user id body s
          = (.updated e', { s with events := Event.save s.events e' }) := by
  unfold updateEvent
  cases he : Event.findById s.events id with
  | none =>
    simp only
    split <;> exact Or.inl ⟨rfl, fun e' h => by cases h⟩
  | some e =>
    simp only
    by_cases hauth : e.organizer ≠ user.id ∧ user.role ≠ "admin"
    · rw [if_pos hauth]; exact Or.inl ⟨rfl, fun e' h => by cases h⟩
    · rw [if_neg hauth]
      unfold Event.findByIdAndUpdate
      by_cases hok : env.eventSaveOk = true
      · rw [if_pos hok]
        cases hr : body.result e with
        | none => exact Or.inl ⟨rfl, fun e' h => by cases h⟩
        | some e' => exact Or.inr ⟨e, e', rfl, hauth, hok, hr, rfl⟩
      · rw [if_neg hok]
        exact Or.inl ⟨rfl, fun e' h => by cases h⟩

/-- An update document cannot write the `_id`. -/
theorem EventUpdate.result_id (body : EventUpdate) (e e' : Event)
    (h : body.result e = some e') : e'.id = e.id := by
  cases body with
  | fields doc =>
    simp only [EventUpdate.result] at h
    split at h
    · cases h; rfl
    · cases h
  | other result =>
    simp only [EventUpdate.result] at h
    split at h
    · cases h
    · split at h
      · cases h; assumption
      · cases h

theorem updateBooking_events (env : Env) (user : User) (id : String) (body : BookingUpdate)
    (s : Store) : (updateBooking env user id body s).2.events = s.events := by
  unfold updateBooking
  split
  · split <;> rfl
  · split
    · rfl
    · split <;> rfl

theorem createPaymentIntent_store (env : Env) (user : User) (body : PaymentBody) (s : Store) :
    (createPaymentIntent env user body s).2 = s := by
  unfold createPaymentIntent
  split
  · split <;> rfl
  · split
    · rfl
    · split
      · rfl
      · split
        · rfl
        · split <;> rfl

theorem getPaymentStatus_store (env : Env) (user : User) (bookingId : String) (s : Store) :
    (getPaymentStatus env user bookingId s).2 = s := by
  unfold getPaymentStatus
  split
  · split <;> rfl
  · split
    · rfl
    · split
      · rfl
      · split
        · rfl
        · split
          · rfl
          · split <;> rfl

/-! ## Reserve, then release -/

theorem adjustAll_roundtrip (ts : List EventTicket) (lines : List TicketLine)
    (tickets : List BookingTicket)
    (h : ∀ name, bookedQuantity tickets name = requestedQuantity lines name) :
    adjustAll (releaseSteps tickets) (adjustAll (requestSteps lines) ts) = ts := by
  apply List.ext_getElem?
  intro i
  rw [adjustAll_get, adjustAll_types, adjustAll_get]
  cases hi : ts[i]? with
  | none => rfl
  | some t =>
    simp only [Option.map_some', Option.some.injEq]
    by_cases hf : firstAt (ts.map (fun t => t.type)) i t.type = true
    · simp only [hf, if_true, totalFor_releaseSteps, totalFor_requestSteps, h]
      cases t
      simp
    · have hf' : firstAt (ts.map (fun t => t.type)) i t.type = false := by simpa using hf
      simp [hf']

theorem Event.save_save (es : List Event) (e e' : Event)
    (he : Event.findById es e.id = some e) (hid : e'.id = e.id) :
    Event.save (Event.save es e') e = es := by
  induction es with
  | nil => rfl
  | cons x xs ih =>
    by_cases hx : x.id = e.id
    · have hxe : x = e := by
        simpa [Event.findById, List.find?_cons, hx] using he
      subst hxe
      simp [Event.save, hid]
    · have he' : Event.findById xs e.id = some e := by
        simpa [Event.findById, List.find?_cons, hx] using he
      have hx' : ¬ x.id = e'.id := by rw [hid]; exact hx
      simp [Event.save, hx, hx', ih he']

/-- A `createBooking` call that answers with the 201 response. -/
theorem createBooking_created (env : Env) (user : User) (body : CreateBookingBody)
    (s s' : Store) (b : Booking) (h : createBooking env user body s = (.created b, s')) :
    ∃ e ts', Event.findById s.events body.event = some e
      ∧ Booking.create env s.bookings (createInput user body) = some (b, s.bookings ++ [b])
      ∧ updateAvailability e.tickets body.tickets = some ts'
      ∧ env.eventSaveOk = true
      ∧ s' = { events := Event.save s.events { e with tickets := ts' }
               bookings := s.bookings ++ [b] } := by
  rcases createBooking_cases env user body s with ⟨_, h1⟩ | ⟨_, _, h1⟩ | ⟨_, e, he, h1⟩
  · rw [h1] at h; cases h
  · rw [h1] at h; split at h <;> cases h
  · rcases h1 with ⟨f, hf, h1⟩ | ⟨_, _, h1⟩ | ⟨_, b', ts', hb, hu, ⟨hs, h1⟩ | ⟨_, h1⟩⟩
    · rw [h1] at h
      obtain ⟨name, hn | hn⟩ := checkTickets_ne_created _ _ _ hf
      · rw [hn] at h; cases h
      · rw [hn] at h; cases h
    · rw [h1] at h; cases h
    · rw [h1] at h
      cases h
      exact ⟨e, ts', he, hb, hu, hs, rfl⟩
    · rw [h1] at h; cases h

/-! ## The cart -/

theorem toFixed2_zero : toFixed2 0 = 0 := by
  unfold toFixed2
  rw [if_neg (lt_irrefl 0)]
  have : Int.floor ((0 : ℚ) * 100 + 1 / 2) = 0 := by
    rw [Int.floor_eq_iff]
    norm_num
  rw [this]
  simp

theorem calculateTotal_nil : calculateTotal [] = 0 := by
  unfold calculateTotal
  simpa using toFixed2_zero

theorem addQuantity_keys (eventId ticketTypeId : String) (quantity : ℚ)
    (items : List CartItem) :
    cartKeys (addQuantity eventId ticketTypeId quantity items) = cartKeys items := by
  induction items with
  | nil => rfl
  | cons item rest ih =>
    unfold addQuantity
    split
    · rfl
    · simp only [cartKeys, List.map_cons] at ih ⊢
      rw [ih]

theorem not_mem_cartKeys (items : List CartItem) (eventId ticketTypeId : String)
    (h : ¬ items.any (fun item => item.hasKey eventId ticketTypeId) = true) :
    (eventId, ticketTypeId) ∉ cartKeys items := by
  intro hmem
  apply h
  obtain ⟨item, hitem, hkey⟩ := List.mem_map.1 hmem
  rw [List.any_eq_true]
  refine ⟨item, hitem, ?_⟩
  simp only [Prod.mk.injEq] at hkey
  simp [CartItem.hasKey, hkey.1, hkey.2]

theorem updateQuantity_keys (eventId ticketTypeId : String) (quantity : ℚ)
    (items : List CartItem) :
    cartKeys (items.map (fun item =>
      if item.hasKey eventId ticketTypeId then { item with quantity := quantity } else item))
      = cartKeys items := by
  unfold cartKeys
  rw [List.map_map]
  apply List.map_congr_left
  intro item _
  simp only [Function.comp]
  split <;> rfl

/-! ## The reservation protocol -/

theorem findTicket_eq_none_iff (ts : List EventTicket) (name : String) :
    findTicket ts name = none ↔ ∀ t ∈ ts, t.type ≠ name := by
  simp [findTicket]

/-- C1. When some requested line names a ticket type that is not on the event, or one of
which fewer tickets are available than the line asks for, `createBooking` answers with a
400 failure, creates no booking and leaves every counter as it was: the store after the call
is the store before it.  For a request that passed the route validation the failure is
`Ticket type ... not found` or `Not enough ... tickets available`, for a line that fails in
that way. -/
theorem createBooking_inventory_failure (env : Env) (user : User) (body : CreateBookingBody)
    (s : Store) (e : Event) (he : Event.findById s.events body.event = some e)
    (hbad : ∃ l ∈ body.tickets, (∀ t ∈ e.tickets, t.type ≠ l.ticketType) ∨
      ∃ t, findTicket e.tickets l.ticketType = some t ∧ t.available < l.quantity) :
    (createBooking env user body s).2 = s
      ∧ (createBooking env user body s).1.status = 400
      ∧ (validationResult body = [] →
          ∃ l ∈ body.tickets,
            ((∀ t ∈ e.tickets, t.type ≠ l.ticketType) ∧
              (createBooking env user body s).1 = .ticketTypeNotFound l.ticketType) ∨
            (∃ t, findTicket e.tickets l.ticketType = some t ∧ t.available < l.quantity ∧
              (createBooking env user body s).1 = .notEnoughTickets l.ticketType)) := by
  have hcheck : ∃ f, checkTickets e.tickets body.tickets = some f := by
    cases hc : checkTickets e.tickets body.tickets with
    | some f => exact ⟨f, rfl⟩
    | none =>
      exfalso
      obtain ⟨l, hl, hb⟩ := hbad
      obtain ⟨t, ht, hq⟩ := (checkTickets_eq_none _ _).1 hc l hl
      rcases hb with hb | ⟨t', ht', hq'⟩
      · exact hb t (List.mem_of_find?_eq_some ht) (by simpa using List.find?_some ht)
      · rw [ht] at ht'
        cases ht'
        omega
  obtain ⟨f, hf⟩ := hcheck
  rcases createBooking_cases env user body s with ⟨hv, h⟩ | ⟨_, h0, _⟩ | ⟨hv, e', he', h⟩
  · rw [h]
    exact ⟨rfl, rfl, fun h' => absurd h' hv⟩
  · rw [he] at h0; cases h0
  · rw [he] at he'
    cases he'
    rcases h with ⟨f', hf', h⟩ | ⟨h0, _⟩ | ⟨h0, _⟩
    · rw [h]
      obtain ⟨l, hl, h1⟩ := checkTickets_eq_some _ _ _ hf'
      refine ⟨rfl, ?_, fun _ => ⟨l, hl, ?_⟩⟩
      · rcases h1 with ⟨_, h1⟩ | ⟨_, _, _, h1⟩ <;> rw [h1] <;> rfl
      · rcases h1 with ⟨h1, h2⟩ | ⟨t, h1, h2, h3⟩
        · exact Or.inl ⟨(findTicket_eq_none_iff _ _).1 h1, h2⟩
        · exact Or.inr ⟨t, h1, h2, h3⟩
    · rw [hf] at h0; cases h0
    · rw [hf] at h0; cases h0

theorem createBooking_inventory_failure_witness :
    Event.findById exampleStore.events exampleTooMany.event = some exampleEvent
      ∧ (createBooking exampleEnv exampleUser exampleTooMany exampleStore).2 = exampleStore
      ∧ (createBooking exampleEnv exampleUser exampleTooMany exampleStore).1.status = 400 :=
  have h := createBooking_inventory_failure exampleEnv exampleUser exampleTooMany exampleStore
    exampleEvent (by decide)
    ⟨{ ticketType := "General", quantity := 101, price := some 50 }, by decide,
      Or.inr ⟨{ type := "General", price := 50, quantity := 100, available := 100 },
        by decide, by decide⟩⟩
  ⟨by decide, h.1, h.2.1⟩

/-- C10, as the specification states it, fails: the event id `F` of the request matches no
stored event, and the response is not a not-found result.  The id is not an `ObjectId`, the
lookup throws, and the handler answers with the 500 `Server error`.  The store is as it
was. -/
theorem createBooking_malformed_event_id :
    (∀ e ∈ exampleStore.events, e.id ≠ exampleUnknownEvent.event)
      ∧ validationResult exampleUnknownEvent = []
      ∧ isObjectId exampleUnknownEvent.event = false
      ∧ createBooking exampleEnv exampleUser exampleUnknownEvent exampleStore
          = (.serverError, exampleStore)
      ∧ (createBooking exampleEnv exampleUser exampleUnknownEvent exampleStore).1.status = 500
      ∧ (createBooking exampleEnv exampleUser exampleUnknownEvent exampleStore).1
          ≠ .eventNotFound := by
  refine ⟨by decide, by decide, by decide, by decide, by decide, by decide⟩

/-- C10, amended. When the event id of the request matches no stored event, `createBooking`
creates no booking and changes no counter of any event: the response is not the 201 success
and the store after the call is the store before it.  The response of a request that passed
the route validation is the 404 `Event not found` when the id is a well-formed `ObjectId`,
and the 500 `Server error` when it is not; a request stopped by the validation gets the
validation errors instead. -/
theorem createBooking_event_not_found (env : Env) (user : User) (body : CreateBookingBody)
    (s : Store) (h : ∀ e ∈ s.events, e.id ≠ body.event) :
    (createBooking env user body s).2 = s
      ∧ (∀ b, (createBooking env user body s).1 ≠ .created b)
      ∧ (validationResult body = [] → isObjectId body.event = true →
          (createBooking env user body s).1 = .eventNotFound
            ∧ (createBooking env user body s).1.status = 404)
      ∧ (validationResult body = [] → isObjectId body.event = false →
          (createBooking env user body s).1 = .serverError
            ∧ (createBooking env user body s).1.status = 500)
      ∧ (validationResult body ≠ [] →
          (createBooking env user body s).1 = .validationErrors (validationResult body)) := by
  have hnone : Event.findById s.events body.event = none := by
    simp only [Event.findById, List.find?_eq_none]
    intro e he
    simpa using h e he
  rcases createBooking_cases env user body s with ⟨hv, h1⟩ | ⟨hv, _, h1⟩ | ⟨_, e, he, _⟩
  · rw [h1]
    refine ⟨rfl, ?_, fun h' => absurd h' hv, fun h' => absurd h' hv, fun _ => rfl⟩
    intro b hb
    cases hb
  · rw [h1]
    by_cases hid : isObjectId body.event = true
    · rw [if_pos hid]
      refine ⟨rfl, ?_, fun _ _ => ⟨rfl, rfl⟩, ?_, fun h' => absurd hv h'⟩
      · intro b hb
        cases hb
      · intro _ h'
        rw [hid] at h'
        cases h'
    · rw [if_neg hid]
      refine ⟨rfl, ?_, fun _ h' => absurd h' hid, fun _ _ => ⟨rfl, rfl⟩,
        fun h' => absurd hv h'⟩
      intro b hb
      cases hb
  · rw [hnone] at he; cases he

theorem createBooking_event_not_found_witness :
    (∀ e ∈ exampleStore.events, e.id ≠ exampleAbsentEvent.event)
      ∧ validationResult exampleAbsentEvent = []
      ∧ isObjectId exampleAbsentEvent.event = true
      ∧ (createBooking exampleEnv exampleUser exampleAbsentEvent exampleStore).2 = exampleStore
      ∧ (createBooking exampleEnv exampleUser exampleAbsentEvent exampleStore).1
          = .eventNotFound
      ∧ (createBooking exampleEnv exampleUser exampleAbsentEvent exampleStore).1.status = 404 :=
  have h := createBooking_event_not_found exampleEnv exampleUser exampleAbsentEvent
    exampleStore (by decide)
  ⟨by decide, by decide, by decide, h.1, (h.2.2.1 (by decide) (by decide)).1,
    (h.2.2.1 (by decide) (by decide)).2⟩

theorem not_created_of_status (r : CreateResponse) (h : r.status ≠ 201) :
    ∀ b, r ≠ .created b := by
  intro b hb
  subst hb
  exact h rfl

/-- C7. A request whose `tickets` list is empty, or that has a line with a quantity below 1,
is rejected without any effect: the response is not the 201 success, no booking is created
and every counter keeps its value (the store after the call is the store before it).  The
empty list is stopped by the route validation; a quantity below 1 is stopped at the latest by
the schema validation of `Booking.create`, which runs before any counter is touched. -/
theorem createBooking_rejects_empty_or_nonpositive (env : Env) (user : User)
    (body : CreateBookingBody) (s : Store)
    (h : body.tickets = [] ∨ ∃ l ∈ body.tickets, l.quantity < 1) :
    (createBooking env user body s).2 = s
      ∧ (∀ b, (createBooking env user body s).1 ≠ .created b)
      ∧ (createBooking env user body s).1.status ≠ 201
      ∧ (body.tickets = [] →
          (createBooking env user body s).1 = .validationErrors (validationResult body)) := by
  have hstop : body.tickets = [] → validationResult body ≠ [] := by
    intro h0
    simp [validationResult, h0]
  have hcast : (∃ l ∈ body.tickets, l.quantity < 1) →
      ∀ b bs', Booking.create env s.bookings (createInput user body) ≠ some (b, bs') := by
    rintro ⟨l, hl, hq⟩ b bs' hb
    have hc := (Booking.create_eq_some _ _ _ _ _ hb).2.1
    have := ((castTickets_eq_some _ _ hc).2.2 l hl).2
    omega
  rcases createBooking_cases env user body s with ⟨hv, h1⟩ | ⟨hv, _, h1⟩ | ⟨hv, e, he, h1⟩
  · rw [h1]
    exact ⟨rfl, not_created_of_status _ (by simp [CreateResponse.status]),
      by simp [CreateResponse.status], fun _ => rfl⟩
  · rw [h1]
    split <;>
      exact ⟨rfl, not_created_of_status _ (by simp [CreateResponse.status]),
        by simp [CreateResponse.status],
        fun h0 => absurd hv (hstop h0)⟩
  · have hq : ∃ l ∈ body.tickets, l.quantity < 1 := by
      rcases h with h | h
      · exact absurd hv (hstop h)
      · exact h
    rcases h1 with ⟨f, hf, h1⟩ | ⟨_, _, h1⟩ | ⟨_, b, ts', hb, _⟩
    · rw [h1]
      obtain ⟨name, hn | hn⟩ := checkTickets_ne_created _ _ _ hf
      · subst hn
        exact ⟨rfl, not_created_of_status _ (by simp [CreateResponse.status]),
      by simp [CreateResponse.status],
          fun h0 => absurd hv (hstop h0)⟩
      · subst hn
        exact ⟨rfl, not_created_of_status _ (by simp [CreateResponse.status]),
      by simp [CreateResponse.status],
          fun h0 => absurd hv (hstop h0)⟩
    · rw [h1]
      exact ⟨rfl, not_created_of_status _ (by simp [CreateResponse.status]),
      by simp [CreateResponse.status],
        fun h0 => absurd hv (hstop h0)⟩
    · exact absurd hb (hcast hq b _)

theorem createBooking_rejects_empty_or_nonpositive_witness :
    (∃ l ∈ exampleZeroQuantity.tickets, l.quantity < 1)
      ∧ (createBooking exampleEnv exampleUser exampleZeroQuantity exampleStore).2 = exampleStore
      ∧ (createBooking exampleEnv exampleUser exampleZeroQuantity exampleStore).1.status ≠ 201 :=
  have h := createBooking_rejects_empty_or_nonpositive exampleEnv exampleUser
    exampleZeroQuantity exampleStore (Or.inr (by decide))
  ⟨by decide, h.1, h.2.2.1⟩

/-- C9. Whatever the request body carries, a booking that `createBooking` adds to the
collection has `bookingStatus` pending, `paymentStatus` pending and no `paymentId`: the call
adds at most one booking, at the end of the collection, and the booking returned with the 201
response is that one. -/
theorem createBooking_new_booking_pending (env : Env) (user : User) (body : CreateBookingBody)
    (s : Store) :
    ((createBooking env user body s).2.bookings = s.bookings
        ∨ ∃ b, (createBooking env user body s).2.bookings = s.bookings ++ [b]
            ∧ b.bookingStatus = BookingStatus.pending
            ∧ b.paymentStatus = PaymentStatus.pending ∧ b.paymentId = none)
      ∧ ∀ b, (createBooking env user body s).1 = .created b →
          (createBooking env user body s).2.bookings = s.bookings ++ [b]
            ∧ b.bookingStatus = BookingStatus.pending
            ∧ b.paymentStatus = PaymentStatus.pending ∧ b.paymentId = none := by
  rcases createBooking_cases env user body s with ⟨hv, h1⟩ | ⟨hv, _, h1⟩ | ⟨hv, e, he, h1⟩
  · rw [h1]
    exact ⟨Or.inl rfl, fun b hb => by cases hb⟩
  · rw [h1]
    split <;> exact ⟨Or.inl rfl, fun b hb => by cases hb⟩
  · rcases h1 with ⟨f, hf, h1⟩ | ⟨_, _, h1⟩ | ⟨_, b, ts', hb, _, ⟨_, h1⟩ | ⟨_, h1⟩⟩
    · rw [h1]
      refine ⟨Or.inl rfl, fun b hb => ?_⟩
      obtain ⟨name, hn | hn⟩ := checkTickets_ne_created _ _ _ hf
      · rw [hn] at hb; cases hb
      · rw [hn] at hb; cases hb
    · rw [h1]
      exact ⟨Or.inl rfl, fun b hb => by cases hb⟩
    · obtain ⟨_, _, _, p1, p2, p3, _⟩ := Booking.create_eq_some _ _ _ _ _ hb
      rw [h1]
      refine ⟨Or.inr ⟨b, rfl, p2, p1, p3⟩, fun b' hb' => ?_⟩
      cases hb'
      exact ⟨rfl, p2, p1, p3⟩
    · obtain ⟨_, _, _, p1, p2, p3, _⟩ := Booking.create_eq_some _ _ _ _ _ hb
      rw [h1]
      exact ⟨Or.inr ⟨b, rfl, p2, p1, p3⟩, fun b' hb' => by cases hb'⟩

theorem createBooking_new_booking_pending_witness :
    exampleRequest.bookingStatus = some BookingStatus.confirmed
      ∧ exampleRequest.paymentStatus = some PaymentStatus.completed
      ∧ exampleRequest.paymentId = some "pi_forged"
      ∧ (createBooking exampleEnv exampleUser exampleRequest exampleStore).1
          = .created exampleBooking
      ∧ (createBooking exampleEnv exampleUser exampleRequest exampleStore).2.bookings
          = exampleStore.bookings ++ [exampleBooking]
      ∧ exampleBooking.bookingStatus = BookingStatus.pending
      ∧ exampleBooking.paymentStatus = PaymentStatus.pending
      ∧ exampleBooking.paymentId = none :=
  have h : (createBooking exampleEnv exampleUser exampleRequest exampleStore).1
      = .created exampleBooking := by with_unfolding_all decide
  ⟨rfl, rfl, rfl, h,
    (createBooking_new_booking_pending exampleEnv exampleUser exampleRequest exampleStore).2
      exampleBooking h⟩

/-- C5, as the specification states it, fails: the request for two General tickets at 50
that declares a total of 1 succeeds, and the booking it creates has `totalAmount` 1, not the
100 that the prices of the event give. -/
theorem createBooking_total_not_recomputed :
    ∃ b, (createBooking exampleEnv exampleUser exampleUnderpaid exampleStore).1 = .created b
      ∧ eventPriceTotal exampleEvent.tickets exampleUnderpaid.tickets = 100
      ∧ b.totalAmount = 1
      ∧ b.totalAmount ≠ eventPriceTotal exampleEvent.tickets exampleUnderpaid.tickets :=
  ⟨{ exampleBooking with totalAmount := 1 }, by with_unfolding_all decide,
    by with_unfolding_all decide, rfl, by with_unfolding_all decide⟩

/-- C5, amended. The `totalAmount` stored on the booking that a successful `createBooking`
creates is the `totalAmount` the request body carries, and the price stored on each line is
the price the request carries on that line; neither is recomputed from the prices of the
event. -/
theorem createBooking_total_from_request (env : Env) (user : User) (body : CreateBookingBody)
    (s s' : Store) (b : Booking)
    (h : createBooking env user body s = (.created b, s')) :
    body.totalAmount = some b.totalAmount
      ∧ b.tickets.map (fun t => some t.price) = body.tickets.map (fun l => l.price)
      ∧ b.tickets.map (fun t => (t.ticketType, t.quantity))
          = body.tickets.map (fun l => (l.ticketType, l.quantity)) := by
  have hcreate : Booking.create env s.bookings (createInput user body)
      = some (b, s.bookings ++ [b]) := by
    rcases createBooking_cases env user body s with ⟨_, h1⟩ | ⟨_, _, h1⟩ | ⟨_, e, _, h1⟩
    · rw [h1] at h; cases h
    · rw [h1] at h; split at h <;> cases h
    · rcases h1 with ⟨f, hf, h1⟩ | ⟨_, _, h1⟩ | ⟨_, b', ts', hb, _, ⟨_, h1⟩ | ⟨_, h1⟩⟩
      · rw [h1] at h
        obtain ⟨name, hn | hn⟩ := checkTickets_ne_created _ _ _ hf
        · rw [hn] at h; cases h
        · rw [hn] at h; cases h
      · rw [h1] at h; cases h
      · rw [h1] at h
        cases h
        exact hb
      · rw [h1] at h; cases h
  obtain ⟨_, hc, ht, _⟩ := Booking.create_eq_some _ _ _ _ _ hcreate
  obtain ⟨c1, c2, _⟩ := castTickets_eq_some _ _ hc
  exact ⟨ht, c2, c1⟩

theorem createBooking_total_from_request_witness :
    createBooking exampleEnv exampleUser exampleUnderpaid exampleStore
        = (.created { exampleBooking with totalAmount := 1 },
            { events := [{ exampleEvent with tickets :=
                [{ type := "General", price := 50, quantity := 100, available := 98 }] }]
              bookings := [{ exampleBooking with totalAmount := 1 }] })
      ∧ exampleUnderpaid.totalAmount = some 1 :=
  have h : createBooking exampleEnv exampleUser exampleUnderpaid exampleStore
        = (.created { exampleBooking with totalAmount := 1 },
            { events := [{ exampleEvent with tickets :=
                [{ type := "General", price := 50, quantity := 100, available := 98 }] }]
              bookings := [{ exampleBooking with totalAmount := 1 }] }) := by
    with_unfolding_all decide
  ⟨h, (createBooking_total_from_request exampleEnv exampleUser exampleUnderpaid exampleStore _
    _ h).1⟩

/-- C4, as the specification states it, fails: when the events collection refuses the write,
the request for two General tickets is answered with the 500 error, and yet the booking is in
the collection while the stored counter is still 100. -/
theorem createBooking_booking_without_reservation :
    createBooking exampleEnvSaveFails exampleUser exampleRequest exampleStore
      = (.serverError, { events := [exampleEvent], bookings := [exampleBooking] }) := by
  with_unfolding_all decide

/-- C4, amended. If a booking exists as a result of a `createBooking` call and the events
collection accepted the save, the call reports success and every requested line's quantity
has been subtracted from the stored `available` of the ticket type it names (all the lines
that name one type together).  A call that answers with any response but the 201 and the
500 one has created no booking and changed nothing.  When the events collection refuses the
save after the booking has been written, the call answers with the 500 error, the booking
stays and the stored counters are those from before the call. -/
theorem createBooking_booking_and_reservation (env : Env) (user : User)
    (body : CreateBookingBody) (s : Store) :
    ((createBooking env user body s).2.bookings ≠ s.bookings → env.eventSaveOk = true →
        ∃ b e e', (createBooking env user body s).1 = .created b
          ∧ (createBooking env user body s).2.bookings = s.bookings ++ [b]
          ∧ Event.findById s.events body.event = some e
          ∧ Event.findById (createBooking env user body s).2.events body.event = some e'
          ∧ ∀ l ∈ body.tickets, ∃ t, findTicket e.tickets l.ticketType = some t
              ∧ l.quantity ≤ requestedQuantity body.tickets l.ticketType
              ∧ findTicket e'.tickets l.ticketType = some
                  { t with available :=
                      t.available - requestedQuantity body.tickets l.ticketType })
      ∧ ((createBooking env user body s).1.status ≠ 201 →
          (createBooking env user body s).1.status ≠ 500 →
          (createBooking env user body s).2 = s)
      ∧ ((createBooking env user body s).2.bookings ≠ s.bookings → env.eventSaveOk = false →
          (createBooking env user body s).1 = .serverError
            ∧ (createBooking env user body s).2.events = s.events) := by
  rcases createBooking_cases env user body s with ⟨hv, h1⟩ | ⟨hv, _, h1⟩ | ⟨hv, e, he, h1⟩
  · rw [h1]
    exact ⟨fun h => absurd rfl h, fun _ _ => rfl, fun h => absurd rfl h⟩
  · rw [h1]
    exact ⟨fun h => absurd rfl h, fun _ _ => rfl, fun h => absurd rfl h⟩
  · rcases h1 with ⟨f, hf, h1⟩ | ⟨_, _, h1⟩ | ⟨hc, b, ts', hb, hu, ⟨hs, h1⟩ | ⟨hs, h1⟩⟩
    · rw [h1]
      exact ⟨fun h => absurd rfl h, fun _ _ => rfl, fun h => absurd rfl h⟩
    · rw [h1]
      exact ⟨fun h => absurd rfl h, fun _ _ => rfl, fun h => absurd rfl h⟩
    · rw [h1]
      refine ⟨fun _ _ => ⟨b, e, { e with tickets := ts' }, rfl, rfl, he,
        Event.findById_save_found _ _ _ _ he, ?_⟩, fun h => absurd rfl h,
        fun _ h0 => by rw [hs] at h0; cases h0⟩
      intro l hl
      obtain ⟨t, ht, _⟩ := (checkTickets_eq_none _ _).1 hc l hl
      have hcast := (Booking.create_eq_some _ _ _ _ _ hb).2.1
      have hpos : ∀ l ∈ body.tickets, 0 ≤ l.quantity := by
        intro l' hl'
        have := ((castTickets_eq_some _ _ hcast).2.2 l' hl').2
        omega
      exact ⟨t, ht, quantity_le_requestedQuantity _ hpos l hl,
        updateAvailability_findTicket _ _ _ hu _ _ ht⟩
    · rw [h1]
      exact ⟨fun _ h0 => (by rw [hs] at h0; cases h0), fun _ h => absurd rfl h,
        fun _ _ => ⟨rfl, rfl⟩⟩

theorem createBooking_booking_and_reservation_witness :
    (createBooking exampleEnv exampleUser exampleRequest exampleStore).2.bookings
        ≠ exampleStore.bookings
      ∧ exampleEnv.eventSaveOk = true
      ∧ ∃ b e e', (createBooking exampleEnv exampleUser exampleRequest exampleStore).1
            = .created b
          ∧ (createBooking exampleEnv exampleUser exampleRequest exampleStore).2.bookings
            = exampleStore.bookings ++ [b]
          ∧ Event.findById exampleStore.events exampleRequest.event = some e
          ∧ Event.findById
              (createBooking exampleEnv exampleUser exampleRequest exampleStore).2.events
              exampleRequest.event = some e'
          ∧ ∀ l ∈ exampleRequest.tickets, ∃ t, findTicket e.tickets l.ticketType = some t
              ∧ l.quantity ≤ requestedQuantity exampleRequest.tickets l.ticketType
              ∧ findTicket e'.tickets l.ticketType = some
                  { t with available :=
                      t.available - requestedQuantity exampleRequest.tickets l.ticketType } :=
  ⟨by with_unfolding_all decide, rfl,
    (createBooking_booking_and_reservation exampleEnv exampleUser exampleRequest
      exampleStore).1 (by with_unfolding_all decide) rfl⟩

/-- C6, as the specification states it, fails: the request with two lines that both name
General is not rejected.  It succeeds, the booking with both lines is in the collection and
the counter of General has gone from 100 to 98. -/
theorem createBooking_repeated_type_not_rejected :
    (∃ l₁ l₂, exampleRepeated.tickets = [l₁, l₂] ∧ l₁.ticketType = l₂.ticketType)
      ∧ createBooking exampleEnv exampleUser exampleRepeated exampleStore
          = (.created exampleRepeatedBooking,
              { events := [exampleEventAfter], bookings := [exampleRepeatedBooking] }) :=
  ⟨⟨_, _, rfl, rfl⟩, by with_unfolding_all decide⟩

/-- C6, amended. A request is not rejected for naming one ticket type on two lines.  Take a
well-formed request, with or without repeated names, in which every line names a ticket type
on the event and has a quantity of at least 1, and in which the quantities of all the lines
that name the ticket type of a line add up to at most its `available`.  It succeeds when both
writes are accepted: the booking created carries every line of the request, the `available`
of each ticket type goes down by the sum of the quantities of the lines that name it, and
the `available` of a ticket type that a line names is 0 or more afterwards.  When a request
is answered with a 400 or a 404 failure, no booking is created and no counter changes. -/
theorem createBooking_repeated_type_accepted (env : Env) (user : User)
    (body : CreateBookingBody) (s : Store) :
    (∀ e, Event.findById s.events body.event = some e →
        (∀ l ∈ body.tickets, ∃ t, findTicket e.tickets l.ticketType = some t
          ∧ requestedQuantity body.tickets l.ticketType ≤ t.available ∧ 1 ≤ l.quantity) →
        wellFormed user body → writesAccepted env s →
        ∃ b e', (createBooking env user body s).1 = .created b
          ∧ (createBooking env user body s).2.bookings = s.bookings ++ [b]
          ∧ b.tickets.map (fun t => (t.ticketType, t.quantity))
              = body.tickets.map (fun l => (l.ticketType, l.quantity))
          ∧ Event.findById (createBooking env user body s).2.events body.event = some e'
          ∧ (∀ name t, findTicket e.tickets name = some t →
              findTicket e'.tickets name = some
                { t with available := t.available - requestedQuantity body.tickets name })
          ∧ ∀ l ∈ body.tickets, ∃ t', findTicket e'.tickets l.ticketType = some t'
              ∧ 0 ≤ t'.available)
      ∧ ((createBooking env user body s).1.status = 400
            ∨ (createBooking env user body s).1.status = 404 →
          (createBooking env user body s).2 = s) := by
  constructor
  · intro e he hsum hreq henv
    have hpos : ∀ l ∈ body.tickets, 0 ≤ l.quantity := by
      intro l hl
      obtain ⟨_, _, _, hq⟩ := hsum l hl
      omega
    have hstock : ∀ l ∈ body.tickets, ∃ t, findTicket e.tickets l.ticketType = some t
        ∧ l.quantity ≤ t.available ∧ 1 ≤ l.quantity := by
      intro l hl
      obtain ⟨t, ht, h2, hq⟩ := hsum l hl
      have h1 := quantity_le_requestedQuantity body.tickets hpos l hl
      exact ⟨t, ht, by omega, hq⟩
    obtain ⟨b, ts', hb, hu, h⟩ := createBooking_succeeds env user body s e he hstock hreq henv
    rw [h]
    have hcast := (Booking.create_eq_some _ _ _ _ _ hb).2.1
    refine ⟨b, { e with tickets := ts' }, rfl, rfl, (castTickets_eq_some _ _ hcast).1,
      Event.findById_save_found _ _ _ _ he,
      fun name t ht => updateAvailability_findTicket _ _ _ hu _ _ ht, ?_⟩
    intro l hl
    obtain ⟨t, ht, h2, _⟩ := hsum l hl
    exact ⟨_, updateAvailability_findTicket _ _ _ hu _ _ ht, by show 0 ≤ t.available - _; omega⟩
  · intro hstatus
    apply createBooking_client_error_no_effect
    · rcases hstatus with h1 | h1 <;> rw [h1] <;> decide
    · rcases hstatus with h1 | h1 <;> rw [h1] <;> decide

theorem createBooking_repeated_type_accepted_witness :
    Event.findById exampleStore.events exampleRepeated.event = some exampleEvent
      ∧ (∃ l₁ l₂, exampleRepeated.tickets = [l₁, l₂] ∧ l₁.ticketType = l₂.ticketType)
      ∧ requestedQuantity exampleRepeated.tickets "General" = 2
      ∧ wellFormed exampleUser exampleRepeated ∧ writesAccepted exampleEnv exampleStore
      ∧ ∃ b e', (createBooking exampleEnv exampleUser exampleRepeated exampleStore).1
            = .created b
          ∧ (createBooking exampleEnv exampleUser exampleRepeated exampleStore).2.bookings
            = exampleStore.bookings ++ [b]
          ∧ b.tickets.map (fun t => (t.ticketType, t.quantity))
              = exampleRepeated.tickets.map (fun l => (l.ticketType, l.quantity))
          ∧ Event.findById
              (createBooking exampleEnv exampleUser exampleRepeated exampleStore).2.events
              exampleRepeated.event = some e'
          ∧ (∀ name t, findTicket exampleEvent.tickets name = some t →
              findTicket e'.tickets name = some
                { t with available :=
                    t.available - requestedQuantity exampleRepeated.tickets name })
          ∧ ∀ l ∈ exampleRepeated.tickets, ∃ t', findTicket e'.tickets l.ticketType = some t'
              ∧ 0 ≤ t'.available :=
  ⟨by decide, ⟨_, _, rfl, rfl⟩, by decide, by decide, by with_unfolding_all decide,
    (createBooking_repeated_type_accepted exampleEnv exampleUser exampleRepeated
      exampleStore).1 exampleEvent (by decide) (by decide) (by decide)
      (by with_unfolding_all decide)⟩

/-- C8. A well-formed request whose lines name pairwise distinct ticket types, each on the
event with `available` at least the requested quantity and that at least 1, succeeds when
both writes are accepted.  Afterwards the ticket type named by a line has its `available`
lowered by exactly the quantity of that line; every ticket whose type no line names is
unchanged; the type, price and quantity of every ticket of the event are unchanged; and
every other event is as it was. -/
theorem createBooking_reserves (env : Env) (user : User) (body : CreateBookingBody)
    (s : Store) (e : Event) (he : Event.findById s.events body.event = some e)
    (hdistinct : (body.tickets.map (fun l => l.ticketType)).Nodup)
    (hstock : ∀ l ∈ body.tickets, ∃ t, findTicket e.tickets l.ticketType = some t
      ∧ l.quantity ≤ t.available ∧ 1 ≤ l.quantity)
    (hreq : wellFormed user body) (henv : writesAccepted env s) :
    ∃ b e', (createBooking env user body s).1 = .created b
      ∧ (createBooking env user body s).1.status = 201
      ∧ Event.findById (createBooking env user body s).2.events body.event = some e'
      ∧ (∀ l ∈ body.tickets, ∃ t, findTicket e.tickets l.ticketType = some t
          ∧ findTicket e'.tickets l.ticketType
              = some { t with available := t.available - l.quantity })
      ∧ (∀ (i : Nat) (t : EventTicket), e.tickets[i]? = some t →
          (∀ l ∈ body.tickets, l.ticketType ≠ t.type) →
          e'.tickets[i]? = some t)
      ∧ e'.tickets.map (fun t => (t.type, t.price, t.quantity))
          = e.tickets.map (fun t => (t.type, t.price, t.quantity))
      ∧ ∀ id, id ≠ body.event →
          Event.findById (createBooking env user body s).2.events id
            = Event.findById s.events id := by
  obtain ⟨b, ts', _, hu, h⟩ := createBooking_succeeds env user body s e he hstock hreq henv
  rw [h]
  refine ⟨b, { e with tickets := ts' }, rfl, rfl, Event.findById_save_found _ _ _ _ he,
    ?_, ?_, updateAvailability_frame _ _ _ hu, ?_⟩
  · intro l hl
    obtain ⟨t, ht, _⟩ := hstock l hl
    refine ⟨t, ht, ?_⟩
    have := updateAvailability_findTicket _ _ _ hu _ _ ht
    rw [requestedQuantity_of_nodup _ hdistinct l hl] at this
    exact this
  · intro i t ht hn
    exact updateAvailability_get_other _ _ _ hu i t ht hn
  · intro id hid
    apply Event.findById_save_other
    show id ≠ e.id
    rw [Event.findById_id _ _ _ he]
    exact hid

theorem createBooking_reserves_witness :
    Event.findById exampleStore.events exampleRequest.event = some exampleEvent
      ∧ wellFormed exampleUser exampleRequest ∧ writesAccepted exampleEnv exampleStore
      ∧ exampleEvent.tickets
          = [{ type := "General", price := 50, quantity := 100, available := 100 }]
      ∧ (createBooking exampleEnv exampleUser exampleRequest exampleStore).2.events
          = [{ exampleEvent with tickets :=
                [{ type := "General", price := 50, quantity := 100, available := 98 }] }]
      ∧ ∃ b e', (createBooking exampleEnv exampleUser exampleRequest exampleStore).1
            = .created b
          ∧ (createBooking exampleEnv exampleUser exampleRequest exampleStore).1.status = 201
          ∧ Event.findById
              (createBooking exampleEnv exampleUser exampleRequest exampleStore).2.events
              exampleRequest.event = some e'
          ∧ (∀ l ∈ exampleRequest.tickets,
              ∃ t, findTicket exampleEvent.tickets l.ticketType = some t
                ∧ findTicket e'.tickets l.ticketType
                    = some { t with available := t.available - l.quantity })
          ∧ (∀ (i : Nat) (t : EventTicket), exampleEvent.tickets[i]? = some t →
              (∀ l ∈ exampleRequest.tickets, l.ticketType ≠ t.type) →
              e'.tickets[i]? = some t)
          ∧ e'.tickets.map (fun t => (t.type, t.price, t.quantity))
              = exampleEvent.tickets.map (fun t => (t.type, t.price, t.quantity))
          ∧ ∀ id, id ≠ exampleRequest.event →
              Event.findById
                (createBooking exampleEnv exampleUser exampleRequest exampleStore).2.events id
                = Event.findById exampleStore.events id :=
  ⟨by decide, by decide, by with_unfolding_all decide, rfl, by with_unfolding_all decide,
    createBooking_reserves exampleEnv exampleUser exampleRequest exampleStore exampleEvent
      (by decide) (by decide) (by decide) (by decide) (by with_unfolding_all decide)⟩

/-! ## The ledger invariant -/

/-- C2, as the specification states it, fails on both sides.  With one General ticket left,
the request with two lines of one General ticket each passes the check line by line and
drives `available` to -1.  And cancelling a stored booking of two tickets on an event whose
100 tickets are all available drives `available` to 102, above `quantity`. -/
theorem ledgerInvariant_not_preserved :
    (ledgerInvariant exampleScarceStore
        ∧ (createBooking exampleEnv exampleUser exampleRepeated exampleScarceStore).2.events
            = [{ exampleEvent with tickets :=
                  [{ type := "General", price := 50, quantity := 1, available := -1 }] }]
        ∧ ¬ ledgerInvariant
            (createBooking exampleEnv exampleUser exampleRepeated exampleScarceStore).2)
      ∧ (ledgerInvariant exampleUnreservedStore
        ∧ (cancelBooking exampleEnv exampleUser "b1" exampleUnreservedStore).2.events
            = [{ exampleEvent with tickets :=
                  [{ type := "General", price := 50, quantity := 100, available := 102 }] }]
        ∧ ¬ ledgerInvariant
            (cancelBooking exampleEnv exampleUser "b1" exampleUnreservedStore).2) := by
  refine ⟨⟨?_, ?_, ?_⟩, ?_, ?_, ?_⟩ <;> with_unfolding_all decide

/-- C2, amended. If every ticket type has `0 ≤ available ≤ quantity` before the call, it
still has after a `createBooking` call whose lines name pairwise distinct ticket types, and
after a `cancelBooking` call on a stored booking whose quantities are not negative and add
up, for each ticket type of its event, to at most `quantity - available`.  For a stored
booking whose quantities are not negative, `cancelBooking` keeps `0 ≤ available` in any
case. -/
theorem ledgerInvariant_preserved :
    (∀ (env : Env) (user : User) (body : CreateBookingBody) (s : Store),
        ledgerInvariant s → (body.tickets.map (fun l => l.ticketType)).Nodup →
        ledgerInvariant (createBooking env user body s).2)
      ∧ (∀ (env : Env) (user : User) (id : String) (s : Store),
        ledgerInvariant s →
        (∀ b, Booking.findById s.bookings id = some b →
          (∀ l ∈ b.tickets, 0 ≤ l.quantity)
            ∧ ∀ e, Event.findById s.events b.event = some e →
                ∀ name t, findTicket e.tickets name = some t →
                  t.available + bookedQuantity b.tickets name ≤ t.quantity) →
        ledgerInvariant (cancelBooking env user id s).2)
      ∧ (∀ (env : Env) (user : User) (id : String) (s : Store),
        (∀ e ∈ s.events, ∀ t ∈ e.tickets, 0 ≤ t.available) →
        (∀ b, Booking.findById s.bookings id = some b → ∀ l ∈ b.tickets, 0 ≤ l.quantity) →
        ∀ e ∈ (cancelBooking env user id s).2.events, ∀ t ∈ e.tickets, 0 ≤ t.available) := by
  refine ⟨?_, ?_, ?_⟩
  · intro env user body s hinv hd
    rcases createBooking_events env user body s with h | ⟨e, ts', b, he, hc, hb, hu, _, h⟩
    · intro e' he'
      rw [h] at he'
      exact hinv e' he'
    · rw [h]
      intro e' he' t' ht'
      rcases Event.mem_save _ _ _ he' with hold | hnew
      · exact hinv e' hold t' ht'
      · subst hnew
        have hmem := Event.findById_mem _ _ _ he
        have hcast := (Booking.create_eq_some _ _ _ _ _ hb).2.1
        have hpos : ∀ l ∈ body.tickets, 0 ≤ l.quantity := by
          intro l hl
          have := ((castTickets_eq_some _ _ hcast).2.2 l hl).2
          omega
        rw [updateAvailability_eq_some _ _ _ hu] at ht'
        refine adjustAll_preserves (fun t => 0 ≤ t.available ∧ t.available ≤ t.quantity)
          _ _ (hinv e hmem) ?_ t' ht'
        intro name t ht
        have h0 := hinv e hmem t (List.mem_of_find?_eq_some ht)
        have h1 := requestedQuantity_le_available _ _ hc hd name t ht h0.1
        have h2 := requestedQuantity_nonneg _ hpos name
        rw [totalFor_requestSteps]
        show 0 ≤ t.available + -requestedQuantity body.tickets name
          ∧ t.available + -requestedQuantity body.tickets name ≤ t.quantity
        constructor <;> omega
  · intro env user id s hinv hfit
    rcases cancelBooking_events env user id s with h | ⟨b, e, hb, _, he, _, h⟩
    · intro e' he'
      rw [h] at he'
      exact hinv e' he'
    · intro e' he' t' ht'
      rw [h] at he'
      rcases Event.mem_save _ _ _ he' with hold | hnew
      · exact hinv e' hold t' ht'
      · subst hnew
        have hmem := Event.findById_mem _ _ _ he
        obtain ⟨hpos, hle⟩ := hfit b hb
        rw [releaseTickets_eq] at ht'
        refine adjustAll_preserves (fun t => 0 ≤ t.available ∧ t.available ≤ t.quantity)
          _ _ (hinv e hmem) ?_ t' ht'
        intro name t ht
        have h0 := hinv e hmem t (List.mem_of_find?_eq_some ht)
        have h1 := hle e he name t ht
        have h2 := bookedQuantity_nonneg _ hpos name
        rw [totalFor_releaseSteps]
        show 0 ≤ t.available + bookedQuantity b.tickets name
          ∧ t.available + bookedQuantity b.tickets name ≤ t.quantity
        constructor <;> omega
  · intro env user id s hinv hpos
    rcases cancelBooking_events env user id s with h | ⟨b, e, hb, _, he, _, h⟩
    · intro e' he'
      rw [h] at he'
      exact hinv e' he'
    · intro e' he' t' ht'
      rw [h] at he'
      rcases Event.mem_save _ _ _ he' with hold | hnew
      · exact hinv e' hold t' ht'
      · subst hnew
        have hmem := Event.findById_mem _ _ _ he
        rw [releaseTickets_eq] at ht'
        refine adjustAll_preserves (fun t => 0 ≤ t.available) _ _ (hinv e hmem) ?_ t' ht'
        intro name t ht
        have h0 := hinv e hmem t (List.mem_of_find?_eq_some ht)
        have h2 := bookedQuantity_nonneg _ (hpos b hb) name
        rw [totalFor_releaseSteps]
        show 0 ≤ t.available + bookedQuantity b.tickets name
        omega

theorem ledgerInvariant_preserved_witness :
    (ledgerInvariant exampleStore
        ∧ (exampleRequest.tickets.map (fun l => l.ticketType)).Nodup
        ∧ ledgerInvariant (createBooking exampleEnv exampleUser exampleRequest exampleStore).2)
      ∧ (ledgerInvariant exampleReservedStore
        ∧ ledgerInvariant (cancelBooking exampleEnv exampleUser "b1" exampleReservedStore).2) :=
  ⟨⟨by decide, by decide,
      ledgerInvariant_preserved.1 exampleEnv exampleUser exampleRequest exampleStore
        (by decide) (by decide)⟩,
    by decide,
    ledgerInvariant_preserved.2.1 exampleEnv exampleUser "b1" exampleReservedStore (by decide)
      (by
        intro b hb
        have hb' : b = exampleBooking := by
          have h0 : Booking.findById exampleReservedStore.bookings "b1" = some exampleBooking := by
            decide
          rw [h0] at hb
          exact (Option.some.inj hb).symm
        subst hb'
        refine ⟨by decide, ?_⟩
        intro e he name t ht
        have he' : e = exampleEventAfter := by
          have h0 : Event.findById exampleReservedStore.events exampleBooking.event
              = some exampleEventAfter := by decide
          rw [h0] at he
          exact (Option.some.inj he).symm
        subst he'
        have hmem : t ∈ exampleEventAfter.tickets := List.mem_of_find?_eq_some ht
        have hname : t.type = name := by simpa using List.find?_some ht
        have ht' : t = { type := "General", price := 50, quantity := 100, available := 98 } := by
          simpa [exampleEventAfter] using hmem
        subst ht'
        subst hname
        decide)⟩

/-! ## The accounting equation over sequences of calls -/

/-- C3, as the specification states it, fails.  From the event with all 100 General tickets
available and no booking: after a booking of two tickets is made, cancelled and then paid
for, the booking is confirmed again while all 100 tickets are available, so `available` is
100 and `quantity` minus the quantities of the bookings that are not cancelled is 98.  The
same gap opens when the booking is made while the events collection refuses the write. -/
theorem accounting_not_invariant :
    (exampleStore.bookings = []
        ∧ ∀ e ∈ exampleStore.events, ∀ t ∈ e.tickets, t.available = t.quantity)
      ∧ ((runCalls exampleRevivingCalls exampleStore).events = [exampleEvent]
        ∧ (runCalls exampleRevivingCalls exampleStore).bookings.map
            (fun b => (b.event, b.bookingStatus, b.tickets))
            = [("E", BookingStatus.confirmed,
                [{ ticketType := "General", quantity := 2, price := 50 }])]
        ∧ reservedQuantity (runCalls exampleRevivingCalls exampleStore).bookings "E" "General"
            = 2)
      ∧ ((runCalls exampleUnsavedCalls exampleStore).events = [exampleEvent]
        ∧ (runCalls exampleUnsavedCalls exampleStore).bookings = [exampleBooking]
        ∧ reservedQuantity (runCalls exampleUnsavedCalls exampleStore).bookings "E" "General"
            = 2)
      ∧ findTicket exampleEvent.tickets "General"
          = some { type := "General", price := 50, quantity := 100, available := 100 }
      ∧ ¬ accounted (runCalls exampleRevivingCalls exampleStore)
      ∧ ¬ accounted (runCalls exampleUnsavedCalls exampleStore) := by
  refine ⟨by decide, ⟨?_, ?_, ?_⟩, ⟨?_, ?_, ?_⟩, by decide, ?_, ?_⟩
  · with_unfolding_all decide
  · with_unfolding_all decide
  · with_unfolding_all decide
  · with_unfolding_all decide
  · with_unfolding_all decide
  · with_unfolding_all decide
  · intro h
    have h1 := h "E" exampleEvent (by with_unfolding_all decide) "General"
      { type := "General", price := 50, quantity := 100, available := 100 } (by decide)
    have h2 : reservedQuantity (runCalls exampleRevivingCalls exampleStore).bookings
        "E" "General" = 2 := by with_unfolding_all decide
    rw [h2] at h1
    exact absurd h1 (by decide)
  · intro h
    have h1 := h "E" exampleEvent (by with_unfolding_all decide) "General"
      { type := "General", price := 50, quantity := 100, available := 100 } (by decide)
    have h2 : reservedQuantity (runCalls exampleUnsavedCalls exampleStore).bookings
        "E" "General" = 2 := by with_unfolding_all decide
    rw [h2] at h1
    exact absurd h1 (by decide)

/-- C3, amended. Start from a store with no booking in which every ticket type has
`available = quantity`.  After any finite sequence of `createBooking`, `processPayment` and
`cancelBooking` calls in which every save of an event is accepted and no payment is
processed for a cancelled booking, the ticket that the handlers find under a name on an
event has `available` equal to its `quantity` minus the sum of the quantities of all
bookings of that event with `bookingStatus` other than cancelled that reference that
name. -/
theorem accounting_invariant (s : Store) (calls : List Call)
    (hempty : s.bookings = [])
    (hfull : ∀ e ∈ s.events, ∀ t ∈ e.tickets, t.available = t.quantity)
    (hreg : regularRun calls s) :
    ∀ id e, Event.findById (runCalls calls s).events id = some e →
      ∀ name t, findTicket e.tickets name = some t →
        t.available = t.quantity - reservedQuantity (runCalls calls s).bookings id name :=
  accounted_runCalls calls s (accounted_of_initial s hempty hfull) hreg

theorem accounting_invariant_witness :
    regularRun exampleRegularCalls exampleStore
      ∧ (runCalls exampleRegularCalls exampleStore).bookings.map
          (fun b => (b.bookingStatus, b.paymentStatus))
          = [(BookingStatus.cancelled, PaymentStatus.completed)]
      ∧ Event.findById (runCalls exampleRegularCalls exampleStore).events "E"
          = some exampleEvent
      ∧ (100 : Int) = 100
          - reservedQuantity (runCalls exampleRegularCalls exampleStore).bookings "E" "General" :=
  have hreg : regularRun exampleRegularCalls exampleStore := by
    refine ⟨?_, ?_, ?_, trivial⟩ <;> with_unfolding_all decide
  have hfind : Event.findById (runCalls exampleRegularCalls exampleStore).events "E"
      = some exampleEvent := by with_unfolding_all decide
  ⟨hreg, by with_unfolding_all decide, hfind,
    accounting_invariant exampleStore exampleRegularCalls rfl (by decide) hreg "E"
      exampleEvent hfind "General"
      { type := "General", price := 50, quantity := 100, available := 100 } (by decide)⟩

/-! ## Payment reconciliation -/

/-- C11. Take a stored booking owned by the requester whose `paymentStatus` is not
completed, and let the charge succeed with the intent `intent`: the gateway, called for the
booking and its event, returns it with status `succeeded` (or, with `BYPASS_STRIPE`, it is the
mock intent).  When the bookings collection accepts the write, `processPayment` answers with
`Payment successful`, and the stored booking is the one from before with `paymentStatus`
completed, `bookingStatus` confirmed and `paymentId` the id of the intent; every other field,
a reference already assigned included, is as before. -/
theorem processPayment_success_recorded (env : Env) (user : User) (body : PaymentBody)
    (s : Store) (b : Booking) (e : Event) (intent : PaymentIntent)
    (hb : Booking.findById s.bookings body.bookingId = some b)
    (hown : b.user = user.id)
    (hunpaid : b.paymentStatus ≠ PaymentStatus.completed)
    (he : Event.findById s.events b.event = some e)
    (hcharge : (env.bypassStripe = true ∧ intent = mockPaymentIntent env b) ∨
      (env.bypassStripe = false ∧ env.gateway (intentParams b e user body) = .intent intent
        ∧ intent.status = "succeeded"))
    (hwrite : env.bookingWriteOk = true)
    (href : b.bookingReference ≠ none ∧ b.bookingReference ≠ some "") :
    ∃ b', (processPayment env user body s).1 = .paymentSuccessful b' intent
      ∧ Booking.findById (processPayment env user body s).2.bookings body.bookingId = some b'
      ∧ b'.paymentStatus = PaymentStatus.completed
      ∧ b'.bookingStatus = BookingStatus.confirmed
      ∧ b'.paymentId = some intent.id
      ∧ b' = { b with
          paymentStatus := PaymentStatus.completed
          bookingStatus := BookingStatus.confirmed
          paymentId := some intent.id }
      ∧ (b'.tickets = b.tickets ∧ b'.totalAmount = b.totalAmount ∧ b'.user = b.user
          ∧ b'.event = b.event ∧ b'.bookingReference = b.bookingReference) := by
  have hrec : processPayment env user body s = recordPayment env s b intent := by
    rcases processPayment_cases env user body s with ⟨h0, _⟩ | ⟨b0, hb0, h⟩
    · rw [hb] at h0; cases h0
    · rw [hb] at hb0
      cases hb0
      rcases h with ⟨h0, _⟩ | ⟨_, h0, _⟩ | ⟨_, _, h⟩
      · exact absurd hown h0
      · exact absurd h0 hunpaid
      · rcases h with ⟨h0, _⟩ | ⟨e0, he0, h⟩
        · rw [he] at h0; cases h0
        · rw [he] at he0
          cases he0
          rcases hcharge with ⟨hby, hi⟩ | ⟨hby, hg, hok⟩
          · rcases h with ⟨_, h⟩ | ⟨h0, _⟩
            · rw [h, hi]
            · rw [hby] at h0; cases h0
          · rcases h with ⟨h0, _⟩ | ⟨_, h⟩
            · rw [hby] at h0; cases h0
            · rcases h with ⟨i, hi, _, h⟩ | ⟨i, hi, hno, _⟩ | ⟨m, hm, _⟩ | ⟨ho, _⟩
              · rw [hg] at hi
                cases hi
                exact h
              · rw [hg] at hi
                cases hi
                exact absurd hok hno
              · rw [hg] at hm; cases hm
              · rw [hg] at ho; cases ho
  have href' : ({ b with
      paymentStatus := PaymentStatus.completed
      bookingStatus := BookingStatus.confirmed
      paymentId := some intent.id } : Booking).bookingReference ≠ none
      ∧ ({ b with
      paymentStatus := PaymentStatus.completed
      bookingStatus := BookingStatus.confirmed
      paymentId := some intent.id } : Booking).bookingReference ≠ some "" := href
  have hpre := preSave_of_reference env.random _ href'
  have hsave := Booking.save_of_reference env s.bookings _ hwrite href'
  rcases recordPayment_cases env s b intent with ⟨h0, _⟩ | ⟨_, h⟩
  · rw [hsave] at h0; cases h0
  · rw [hpre] at h
    rw [hrec, h]
    refine ⟨_, rfl, ?_, rfl, rfl, rfl, rfl, rfl, rfl, rfl, rfl, rfl⟩
    have hid : b.id = body.bookingId := Booking.findById_has_id _ _ _ hb
    have := Booking.findById_replace_same s.bookings b
      { b with
        paymentStatus := PaymentStatus.completed
        bookingStatus := BookingStatus.confirmed
        paymentId := some intent.id } (by rw [hid]; exact hb)
    rw [← hid]
    exact this

theorem processPayment_success_recorded_witness :
    Booking.findById exampleReservedStore.bookings examplePayment.bookingId
        = some exampleBooking
      ∧ exampleBooking.paymentStatus = PaymentStatus.pending
      ∧ exampleGatewayEnv.gateway
          (intentParams exampleBooking exampleEventAfter exampleUser examplePayment)
          = .intent { id := "pi_1", amount := 10000, status := "succeeded" }
      ∧ processPayment exampleGatewayEnv exampleUser examplePayment exampleReservedStore
          = (.paymentSuccessful examplePaidBooking
              { id := "pi_1", amount := 10000, status := "succeeded" }, examplePaidStore)
      ∧ ∃ b', (processPayment exampleGatewayEnv exampleUser examplePayment
            exampleReservedStore).1
            = .paymentSuccessful b' { id := "pi_1", amount := 10000, status := "succeeded" }
          ∧ Booking.findById (processPayment exampleGatewayEnv exampleUser examplePayment
              exampleReservedStore).2.bookings examplePayment.bookingId = some b'
          ∧ b'.paymentStatus = PaymentStatus.completed
          ∧ b'.bookingStatus = BookingStatus.confirmed
          ∧ b'.paymentId = some "pi_1"
          ∧ b' = { exampleBooking with
              paymentStatus := PaymentStatus.completed
              bookingStatus := BookingStatus.confirmed
              paymentId := some "pi_1" }
          ∧ (b'.tickets = exampleBooking.tickets ∧ b'.totalAmount = exampleBooking.totalAmount
              ∧ b'.user = exampleBooking.user ∧ b'.event = exampleBooking.event
              ∧ b'.bookingReference = exampleBooking.bookingReference) :=
  ⟨by decide, rfl, by decide!, by decide!,
    processPayment_success_recorded exampleGatewayEnv exampleUser examplePayment
      exampleReservedStore exampleBooking exampleEventAfter
      { id := "pi_1", amount := 10000, status := "succeeded" }
      (by decide) (by decide) (by decide) (by decide)
      (Or.inr ⟨rfl, by decide!, rfl⟩) rfl (by decide)⟩

/-- C12, as the specification states it, fails: when the gateway declines the charge for the
pending booking of the scenario, `processPayment` answers `Payment failed` and writes
nothing; the stored booking still has `paymentStatus` pending, not failed. -/
theorem processPayment_decline_not_recorded :
    Booking.findById exampleReservedStore.bookings examplePayment.bookingId
        = some exampleBooking
      ∧ exampleBooking.bookingStatus = BookingStatus.pending
      ∧ exampleBooking.paymentStatus = PaymentStatus.pending
      ∧ processPayment exampleDeclineEnv exampleUser examplePayment exampleReservedStore
          = (.paymentFailed
              { id := "pi_2", amount := 10000, status := "requires_payment_method" },
              exampleReservedStore)
      ∧ (Booking.findById (processPayment exampleDeclineEnv exampleUser examplePayment
            exampleReservedStore).2.bookings examplePayment.bookingId).map
          (fun b => b.paymentStatus) ≠ some PaymentStatus.failed := by
  refine ⟨by decide, rfl, rfl, by decide!, by decide!⟩

/-- C12, amended. When the charge does not succeed, that is, the gateway is called and
returns an intent with a status other than `succeeded` or throws (a decline, an error or a
timeout), `processPayment` answers with a failure and writes nothing: the store is the one
from before, so a booking with `bookingStatus` pending and `paymentStatus` pending still has
both. -/
theorem processPayment_failure_no_effect (env : Env) (user : User) (body : PaymentBody)
    (s : Store) (b : Booking)
    (hb : Booking.findById s.bookings body.bookingId = some b)
    (hby : env.bypassStripe = false)
    (hfail : ∀ e intent, Event.findById s.events b.event = some e →
      env.gateway (intentParams b e user body) = .intent intent →
      intent.status ≠ "succeeded") :
    (processPayment env user body s).2 = s
      ∧ (processPayment env user body s).1.success = false
      ∧ Booking.findById (processPayment env user body s).2.bookings body.bookingId = some b
      ∧ (b.bookingStatus = BookingStatus.pending → b.paymentStatus = PaymentStatus.pending →
          (Booking.findById (processPayment env user body s).2.bookings body.bookingId).map
            (fun b' => (b'.bookingStatus, b'.paymentStatus))
            = some (BookingStatus.pending, PaymentStatus.pending)) := by
  have hstore : (processPayment env user body s).2 = s
      ∧ (processPayment env user body s).1.success = false := by
    rcases processPayment_cases env user body s with ⟨_, h⟩ | ⟨b0, hb0, h⟩
    · rw [h]; split <;> exact ⟨rfl, rfl⟩
    · rw [hb] at hb0
      cases hb0
      rcases h with ⟨_, h⟩ | ⟨_, _, h⟩ | ⟨_, _, h⟩
      · rw [h]; exact ⟨rfl, rfl⟩
      · rw [h]; exact ⟨rfl, rfl⟩
      · rcases h with ⟨_, h⟩ | ⟨e, he, h⟩
        · rw [h]; exact ⟨rfl, rfl⟩
        · rcases h with ⟨h0, _⟩ | ⟨_, h⟩
          · rw [hby] at h0; cases h0
          · rcases h with ⟨i, hi, hok, _⟩ | ⟨i, _, _, h⟩ | ⟨m, _, h⟩ | ⟨_, h⟩
            · exact absurd hok (hfail e i he hi)
            · rw [h]; exact ⟨rfl, rfl⟩
            · rw [h]; exact ⟨rfl, rfl⟩
            · rw [h]; exact ⟨rfl, rfl⟩
  refine ⟨hstore.1, hstore.2, by rw [hstore.1]; exact hb, ?_⟩
  intro h1 h2
  rw [hstore.1, hb]
  simp [h1, h2]

theorem processPayment_failure_no_effect_witness :
    Booking.findById exampleReservedStore.bookings examplePayment.bookingId
        = some exampleBooking
      ∧ exampleDeclineEnv.bypassStripe = false
      ∧ (processPayment exampleDeclineEnv exampleUser examplePayment exampleReservedStore).2
          = exampleReservedStore
      ∧ (processPayment exampleDeclineEnv exampleUser examplePayment
          exampleReservedStore).1.success = false :=
  have h := processPayment_failure_no_effect exampleDeclineEnv exampleUser examplePayment
    exampleReservedStore exampleBooking (by decide) rfl
    (by
      intro e intent _ hg
      have hs : intent.status = "requires_payment_method" :=
        congrArg PaymentIntent.status (GatewayOutcome.intent.inj hg).symm
      rw [hs]
      decide)
  ⟨by decide, rfl, h.1, h.2.1⟩

/-- C13. For a booking whose `paymentStatus` is already completed, a `processPayment` call
makes no call to the payment gateway (it names no gateway request, and its response and
store are the same whatever the gateway would answer) and leaves the store, and so every
field of the booking, as it was.  In particular, after a `processPayment` call that answered
`Payment successful`, a further call for the same booking charges nothing and changes
nothing. -/
theorem processPayment_idempotent :
    (∀ (env : Env) (user : User) (body : PaymentBody) (s : Store) (b : Booking),
        Booking.findById s.bookings body.bookingId = some b →
        b.paymentStatus = PaymentStatus.completed →
        gatewayRequest env user body s = none
          ∧ (∀ g, processPayment { env with gateway := g } user body s
              = processPayment env user body s)
          ∧ (processPayment env user body s).2 = s
          ∧ Booking.findById (processPayment env user body s).2.bookings body.bookingId
              = some b)
      ∧ (∀ (env env₂ : Env) (user user₂ : User) (body body₂ : PaymentBody) (s : Store)
          (b' : Booking) (intent : PaymentIntent),
        (processPayment env user body s).1 = .paymentSuccessful b' intent →
        body₂.bookingId = body.bookingId →
        gatewayRequest env₂ user₂ body₂ (processPayment env user body s).2 = none
          ∧ (processPayment env₂ user₂ body₂ (processPayment env user body s).2).2
              = (processPayment env user body s).2) := by
  have hfirst : ∀ (env : Env) (user : User) (body : PaymentBody) (s : Store) (b : Booking),
      Booking.findById s.bookings body.bookingId = some b →
      b.paymentStatus = PaymentStatus.completed →
      gatewayRequest env user body s = none
        ∧ (∀ g, processPayment { env with gateway := g } user body s
            = processPayment env user body s)
        ∧ (processPayment env user body s).2 = s
        ∧ Booking.findById (processPayment env user body s).2.bookings body.bookingId
            = some b := by
    intro env user body s b hb hpaid
    have hreq := gatewayRequest_paid env user body s b hb hpaid
    have hstore : (processPayment env user body s).2 = s := by
      rcases processPayment_paid env user body s b hb hpaid with ⟨_, h⟩ | ⟨_, h⟩ <;> rw [h]
    refine ⟨hreq, fun g => processPayment_gateway env g user body s ?_, hstore, ?_⟩
    · intro p hp
      rw [hreq] at hp
      cases hp
    · rw [hstore]
      exact hb
  refine ⟨hfirst, ?_⟩
  intro env env₂ user user₂ body body₂ s b' intent hok hid
  obtain ⟨b, _, _, _, _, hfind, hpaid⟩ := processPayment_successful env user body s b' intent hok
  rw [← hid] at hfind
  obtain ⟨h1, _, h3, _⟩ := hfirst env₂ user₂ body₂ _ b' hfind hpaid
  exact ⟨h1, h3⟩

theorem processPayment_idempotent_witness :
    Booking.findById examplePaidStore.bookings examplePayment.bookingId
        = some examplePaidBooking
      ∧ examplePaidBooking.paymentStatus = PaymentStatus.completed
      ∧ gatewayRequest exampleGatewayEnv exampleUser examplePayment examplePaidStore = none
      ∧ (processPayment exampleGatewayEnv exampleUser examplePayment examplePaidStore).2
          = examplePaidStore
      ∧ (processPayment exampleGatewayEnv exampleUser examplePayment
          (processPayment exampleGatewayEnv exampleUser examplePayment
            exampleReservedStore).2).2
          = (processPayment exampleGatewayEnv exampleUser examplePayment
              exampleReservedStore).2 :=
  have h := processPayment_idempotent.1 exampleGatewayEnv exampleUser examplePayment
    examplePaidStore examplePaidBooking (by decide) rfl
  have h' := processPayment_idempotent.2 exampleGatewayEnv exampleGatewayEnv exampleUser
    exampleUser examplePayment examplePayment exampleReservedStore examplePaidBooking
    { id := "pi_1", amount := 10000, status := "succeeded" } (by decide!) rfl
  ⟨by decide, rfl, h.1, h.2.2.1, h'.2⟩

/-- C14, as the specification states it, fails: for the owner of a booking that is already
paid for, `processPayment` answers with the 400 response `This booking is already paid for`,
whose `success` field is false and which carries no booking. -/
theorem processPayment_already_paid_is_error :
    Booking.findById examplePaidStore.bookings examplePayment.bookingId
        = some examplePaidBooking
      ∧ examplePaidBooking.paymentStatus = PaymentStatus.completed
      ∧ examplePaidBooking.user = exampleUser.id
      ∧ (processPayment exampleGatewayEnv exampleUser examplePayment examplePaidStore).1
          = .alreadyPaid
      ∧ (processPayment exampleGatewayEnv exampleUser examplePayment
          examplePaidStore).1.status = 400
      ∧ (processPayment exampleGatewayEnv exampleUser examplePayment
          examplePaidStore).1.success = false
      ∧ (processPayment exampleGatewayEnv exampleUser examplePayment
          examplePaidStore).1.booking = none := by
  refine ⟨by decide, rfl, rfl, ?_, ?_, ?_, ?_⟩ <;> decide

/-- C14, amended. For every booking whose `paymentStatus` is already completed,
`processPayment` called by the owner reports the already-paid outcome as a failure: the 400
response `This booking is already paid for` with `success` false, which carries no booking.
The store is left as it was. -/
theorem processPayment_already_paid (env : Env) (user : User) (body : PaymentBody)
    (s : Store) (b : Booking)
    (hb : Booking.findById s.bookings body.bookingId = some b)
    (hpaid : b.paymentStatus = PaymentStatus.completed) (hown : b.user = user.id) :
    (processPayment env user body s).1 = .alreadyPaid
      ∧ (processPayment env user body s).1.status = 400
      ∧ (processPayment env user body s).1.success = false
      ∧ (processPayment env user body s).1.booking = none
      ∧ (processPayment env user body s).2 = s := by
  rcases processPayment_paid env user body s b hb hpaid with ⟨h0, _⟩ | ⟨_, h⟩
  · exact absurd hown h0
  · rw [h]
    exact ⟨rfl, rfl, rfl, rfl, rfl⟩

theorem processPayment_already_paid_witness :
    Booking.findById examplePaidStore.bookings examplePayment.bookingId
        = some examplePaidBooking
      ∧ (processPayment exampleEnv exampleUser examplePayment examplePaidStore).1
          = .alreadyPaid
      ∧ (processPayment exampleEnv exampleUser examplePayment examplePaidStore).2
          = examplePaidStore :=
  have h := processPayment_already_paid exampleEnv exampleUser examplePayment
    examplePaidStore examplePaidBooking (by decide) rfl rfl
  ⟨by decide, h.1, h.2.2.2.2⟩

/-- C15. The amount that `processPayment` passes to the payment gateway is the stored
`totalAmount` of the booking times 100, rounded to the nearest integer: two requests with
the same `bookingId` send the same amount, whatever else their bodies, their requesters and
their surroundings are.  The mock intent of the `BYPASS_STRIPE` branch has that amount
too. -/
theorem gatewayRequest_amount (env₁ env₂ : Env) (user₁ user₂ : User)
    (body₁ body₂ : PaymentBody) (s : Store) (p₁ p₂ : IntentParams)
    (hid : body₁.bookingId = body₂.bookingId)
    (h₁ : gatewayRequest env₁ user₁ body₁ s = some p₁)
    (h₂ : gatewayRequest env₂ user₂ body₂ s = some p₂) :
    p₁.amount = p₂.amount
      ∧ (∃ b, Booking.findById s.bookings body₁.bookingId = some b
          ∧ p₁.amount = amountInCents b.totalAmount
          ∧ (mockPaymentIntent env₁ b).amount = amountInCents b.totalAmount
          ∧ (p₁.amount : ℚ) ≤ b.totalAmount * 100 + 1 / 2
          ∧ b.totalAmount * 100 + 1 / 2 < (p₁.amount : ℚ) + 1) := by
  obtain ⟨b₁, e₁, hb₁, _, _, _, _, hp₁⟩ := gatewayRequest_eq_some _ _ _ _ _ h₁
  obtain ⟨b₂, e₂, hb₂, _, _, _, _, hp₂⟩ := gatewayRequest_eq_some _ _ _ _ _ h₂
  rw [← hid, hb₁] at hb₂
  cases hb₂
  have ha₁ : p₁.amount = amountInCents b₁.totalAmount := by rw [hp₁]; rfl
  have ha₂ : p₂.amount = amountInCents b₁.totalAmount := by rw [hp₂]; rfl
  refine ⟨by rw [ha₁, ha₂], b₁, hb₁, ha₁, rfl, ?_, ?_⟩
  · rw [ha₁]
    exact Int.floor_le _
  · rw [ha₁]
    exact Int.lt_floor_add_one _

theorem gatewayRequest_amount_witness :
    examplePayment.bookingId = examplePaymentOther.bookingId
      ∧ examplePayment.paymentMethodId ≠ examplePaymentOther.paymentMethodId
      ∧ examplePayment.amount ≠ examplePaymentOther.amount
      ∧ (∃ p₁ p₂, gatewayRequest exampleGatewayEnv exampleUser examplePayment
            exampleReservedStore = some p₁
          ∧ gatewayRequest exampleDeclineEnv exampleUser examplePaymentOther
            exampleReservedStore = some p₂
          ∧ p₁.amount = 10000
          ∧ p₁.amount = p₂.amount) :=
  ⟨rfl, by decide, by decide,
    intentParams exampleBooking exampleEventAfter exampleUser examplePayment,
    intentParams exampleBooking exampleEventAfter exampleUser examplePaymentOther,
    by decide!, by decide!, by decide!,
    (gatewayRequest_amount exampleGatewayEnv exampleDeclineEnv exampleUser exampleUser
      examplePayment examplePaymentOther exampleReservedStore
      (intentParams exampleBooking exampleEventAfter exampleUser examplePayment)
      (intentParams exampleBooking exampleEventAfter exampleUser examplePaymentOther)
      rfl (by decide!) (by decide!)).1⟩

/-- C16. `processPayment` never changes inventory: for every store, requester, request and
surroundings, so for every gateway outcome, the events after the call are the events before
it, with every `available`, `quantity` and `price`.  A call that does not answer `Payment
successful` leaves the whole store as it was, so a failed charge keeps the reservation. -/
theorem processPayment_keeps_inventory (env : Env) (user : User) (body : PaymentBody)
    (s : Store) :
    (processPayment env user body s).2.events = s.events
      ∧ ((processPayment env user body s).1.success = false →
          (processPayment env user body s).2 = s) := by
  constructor
  · rcases processPayment_store env user body s with h | ⟨b, intent, _, _, h⟩
    · rw [h]
    · rw [h]
  · intro hfail
    have hrec : ∀ b i, processPayment env user body s = recordPayment env s b i →
        (processPayment env user body s).2 = s := by
      intro b i hr
      rcases recordPayment_cases env s b i with ⟨_, h1⟩ | ⟨_, h1⟩
      · rw [hr, h1]
      · rw [hr, h1] at hfail
        cases hfail
    rcases processPayment_cases env user body s with ⟨_, h⟩ | ⟨b, _, h⟩
    · rw [h]
    · rcases h with ⟨_, h⟩ | ⟨_, _, h⟩ | ⟨_, _, h⟩
      · rw [h]
      · rw [h]
      · rcases h with ⟨_, h⟩ | ⟨e, _, h⟩
        · rw [h]
        · rcases h with ⟨_, h⟩ | ⟨_, h⟩
          · exact hrec b _ h
          · rcases h with ⟨i, _, _, h⟩ | ⟨i, _, _, h⟩ | ⟨m, _, h⟩ | ⟨_, h⟩
            · exact hrec b _ h
            · rw [h]
            · rw [h]
            · rw [h]

theorem processPayment_keeps_inventory_witness :
    (processPayment exampleGatewayEnv exampleUser examplePayment
        exampleReservedStore).2.events = exampleReservedStore.events
      ∧ (processPayment exampleDeclineEnv exampleUser examplePayment
        exampleReservedStore).1.success = false
      ∧ (processPayment exampleDeclineEnv exampleUser examplePayment exampleReservedStore).2
        = exampleReservedStore :=
  ⟨(processPayment_keeps_inventory exampleGatewayEnv exampleUser examplePayment
      exampleReservedStore).1,
    by decide!,
    (processPayment_keeps_inventory exampleDeclineEnv exampleUser examplePayment
      exampleReservedStore).2 (by decide!)⟩

/-! ## Cancellation and release -/

/-- C17. Take a stored booking whose lines name pairwise distinct ticket types, each present
on its event, which exists.  When `cancelBooking` answers with the 200 response (so the
requester is the owner or an admin and the booking was not cancelled), the stored booking
has `bookingStatus` cancelled, the `available` of the ticket type that a line names has gone
up by exactly the quantity of that line, every ticket whose type no line names is unchanged,
the type, price and quantity of every ticket are unchanged, and every other event is as it
was. -/
theorem cancelBooking_releases (env : Env) (user : User) (id : String) (s : Store)
    (b saved : Booking) (e : Event)
    (hb : Booking.findById s.bookings id = some b)
    (he : Event.findById s.events b.event = some e)
    (hdistinct : (b.tickets.map (fun l => l.ticketType)).Nodup)
    (hpresent : ∀ l ∈ b.tickets, ∃ t, findTicket e.tickets l.ticketType = some t)
    (hok : (cancelBooking env user id s).1 = .cancelled saved) :
    (b.bookingStatus ≠ BookingStatus.cancelled
        ∧ (b.user = user.id ∨ user.role = "admin"))
      ∧ Booking.findById (cancelBooking env user id s).2.bookings id = some saved
      ∧ saved.bookingStatus = BookingStatus.cancelled
      ∧ ∃ e', Event.findById (cancelBooking env user id s).2.events b.event = some e'
        ∧ (∀ l ∈ b.tickets, ∃ t, findTicket e.tickets l.ticketType = some t
            ∧ findTicket e'.tickets l.ticketType
                = some { t with available := t.available + l.quantity })
        ∧ (∀ (i : Nat) (t : EventTicket), e.tickets[i]? = some t →
            (∀ l ∈ b.tickets, l.ticketType ≠ t.type) → e'.tickets[i]? = some t)
        ∧ e'.tickets.map (fun t => (t.type, t.price, t.quantity))
            = e.tickets.map (fun t => (t.type, t.price, t.quantity))
        ∧ ∀ eid, eid ≠ b.event →
            Event.findById (cancelBooking env user id s).2.events eid
              = Event.findById s.events eid := by
  obtain ⟨hsaved, hst, hfind, hev, hother⟩ :=
    cancelBooking_released env user id s b saved e hb he hok
  obtain ⟨b0, hb0, hauth, _⟩ := cancelBooking_cancelled env user id s saved hok
  rw [hb] at hb0
  cases hb0
  have hauth' : b.user = user.id ∨ user.role = "admin" := by
    by_cases h1 : b.user = user.id
    · exact Or.inl h1
    · by_cases h2 : user.role = "admin"
      · exact Or.inr h2
      · exact absurd ⟨h1, h2⟩ hauth
  refine ⟨⟨hst, hauth'⟩, hfind, by rw [hsaved]; exact (cancelled_fields _ _).1,
    _, hev, ?_, ?_, releaseTickets_frame _ _, hother⟩
  · intro l hl
    obtain ⟨t, ht⟩ := hpresent l hl
    refine ⟨t, ht, ?_⟩
    have := releaseTickets_findTicket e.tickets b.tickets _ _ ht
    rw [bookedQuantity_of_nodup _ hdistinct l hl] at this
    exact this
  · intro i t ht hn
    exact releaseTickets_get_other _ _ i t ht hn

theorem cancelBooking_releases_witness :
    Booking.findById exampleTwoTypeStore.bookings "b2" = some exampleTwoTypeBooking
      ∧ exampleTwoTypeBooking.tickets.map (fun l => (l.ticketType, l.quantity))
          = [("A", 2), ("B", 1)]
      ∧ exampleTwoTypeEvent.tickets.map (fun t => (t.type, t.available))
          = [("A", 8), ("B", 4), ("C", 7)]
      ∧ (cancelBooking exampleEnv exampleUser "b2" exampleTwoTypeStore).2.events.map
          (fun e => e.tickets.map (fun t => (t.type, t.available)))
          = [[("A", 10), ("B", 5), ("C", 7)]]
      ∧ Booking.findById (cancelBooking exampleEnv exampleUser "b2"
            exampleTwoTypeStore).2.bookings "b2"
          = some { exampleTwoTypeBooking with bookingStatus := BookingStatus.cancelled }
      ∧ ({ exampleTwoTypeBooking with bookingStatus := BookingStatus.cancelled }
          : Booking).bookingStatus = BookingStatus.cancelled :=
  have h := cancelBooking_releases exampleEnv exampleUser "b2" exampleTwoTypeStore
    exampleTwoTypeBooking
    { exampleTwoTypeBooking with bookingStatus := BookingStatus.cancelled }
    exampleTwoTypeEvent (by decide) (by decide) (by decide)
    (by
      intro l hl
      simp only [exampleTwoTypeBooking, List.mem_cons, List.mem_singleton] at hl
      rcases hl with rfl | rfl | hl
      · exact Option.isSome_iff_exists.1 (by decide)
      · exact Option.isSome_iff_exists.1 (by decide)
      · cases hl)
    (by decide!)
  ⟨by decide, by decide, by decide, by decide!, h.2.1, h.2.2.1⟩

/-- C18, as the specification states it, fails: cancelling the paid and confirmed booking of
the scenario as its owner succeeds and stores it with `bookingStatus` cancelled, but its
`paymentStatus` is still completed, not refunded. -/
theorem cancelBooking_no_refund :
    Booking.findById examplePaidStore.bookings "b1" = some examplePaidBooking
      ∧ examplePaidBooking.paymentStatus = PaymentStatus.completed
      ∧ examplePaidBooking.bookingStatus = BookingStatus.confirmed
      ∧ cancelBooking exampleEnv exampleUser "b1" examplePaidStore
          = (.cancelled { examplePaidBooking with bookingStatus := BookingStatus.cancelled },
              { events := [exampleEvent]
                bookings :=
                  [{ examplePaidBooking with bookingStatus := BookingStatus.cancelled }] })
      ∧ (Booking.findById (cancelBooking exampleEnv exampleUser "b1"
            examplePaidStore).2.bookings "b1").map (fun b => b.paymentStatus)
          = some PaymentStatus.completed := by
  refine ⟨by decide, rfl, rfl, by decide!, by decide!⟩

/-- C18, amended. After a `cancelBooking` call that answers with the 200 response, the
stored booking has `bookingStatus` cancelled and the `paymentStatus` it had before, whatever
that was: a completed payment stays completed.  Its other fields are as before as well. -/
theorem cancelBooking_keeps_paymentStatus (env : Env) (user : User) (id : String)
    (s : Store) (b saved : Booking)
    (hb : Booking.findById s.bookings id = some b)
    (hok : (cancelBooking env user id s).1 = .cancelled saved) :
    Booking.findById (cancelBooking env user id s).2.bookings id = some saved
      ∧ saved.bookingStatus = BookingStatus.cancelled
      ∧ saved.paymentStatus = b.paymentStatus
      ∧ (saved.id = b.id ∧ saved.user = b.user ∧ saved.event = b.event
          ∧ saved.tickets = b.tickets ∧ saved.totalAmount = b.totalAmount
          ∧ saved.paymentMethod = b.paymentMethod ∧ saved.paymentId = b.paymentId
          ∧ saved.attendeeInformation = b.attendeeInformation) := by
  obtain ⟨b0, hb0, _, _, hsaved, _, h⟩ := cancelBooking_cancelled env user id s saved hok
  rw [hb] at hb0
  cases hb0
  obtain ⟨c1, c2, c3, c4, c5, c6, c7, c8, c9, c10⟩ := cancelled_fields env.random b
  rw [← hsaved] at c1 c2 c3 c4 c5 c6 c7 c8 c9 c10
  have hid : saved.id = id := by
    rw [c2]; exact Booking.findById_has_id _ _ _ hb
  have hfind := Booking.findById_replace_same s.bookings b saved (by rw [hid]; exact hb)
  rw [hid] at hfind
  refine ⟨?_, c1, c7, c2, c3, c4, c5, c6, c8, c9, c10⟩
  rcases h with ⟨_, h⟩ | ⟨e, _, _, h⟩ <;> rw [h] <;> exact hfind

theorem cancelBooking_keeps_paymentStatus_witness :
    Booking.findById examplePaidStore.bookings "b1" = some examplePaidBooking
      ∧ Booking.findById (cancelBooking exampleEnv exampleUser "b1"
          examplePaidStore).2.bookings "b1"
          = some { examplePaidBooking with bookingStatus := BookingStatus.cancelled }
      ∧ ({ examplePaidBooking with bookingStatus := BookingStatus.cancelled }
          : Booking).paymentStatus = examplePaidBooking.paymentStatus :=
  have h := cancelBooking_keeps_paymentStatus exampleEnv exampleUser "b1" examplePaidStore
    examplePaidBooking { examplePaidBooking with bookingStatus := BookingStatus.cancelled }
    (by decide) (by decide!)
  ⟨by decide, h.1, h.2.2.1⟩

/-- C19, as the specification states it, fails in each of the three cases it names.  When the
events collection refuses the save, the call answers with the 500 error, the booking is
stored as cancelled and the counter is still 98.  When the event of the booking is gone, or
no longer has the ticket type of the line, the call succeeds, the booking is stored as
cancelled and no counter has moved. -/
theorem cancelBooking_flip_without_release :
    cancelBooking exampleEnvSaveFails exampleUser "b1" exampleReservedStore
        = (.serverError, { exampleReservedStore with bookings := [exampleCancelledBooking] })
      ∧ cancelBooking exampleEnv exampleUser "b1" exampleOrphanStore
        = (.cancelled exampleCancelledBooking,
            { exampleOrphanStore with bookings := [exampleCancelledBooking] })
      ∧ cancelBooking exampleEnv exampleUser "b1" exampleRetypedStore
        = (.cancelled exampleCancelledBooking,
            { exampleRetypedStore with bookings := [exampleCancelledBooking] })
      ∧ exampleCancelledBooking.bookingStatus = BookingStatus.cancelled
      ∧ exampleCancelledBooking.tickets
          = [{ ticketType := "General", quantity := 2, price := 50 }] := by
  refine ⟨by decide!, by decide!, by decide!, rfl, rfl⟩

/-- C19, amended. A `cancelBooking` call records the booking with `bookingStatus` cancelled
as soon as the bookings collection accepts the save, before the event is looked at.  If the
event of the booking exists and its save is accepted, the quantities of the lines have been
added back to the stored `available` of every ticket type found on the event, and a line
whose ticket type is not on the event has been skipped.  If the event no longer exists, or
its save is refused (the call then answers with the 500 error), the booking is recorded as
cancelled all the same and the stored counters are those from before. -/
theorem cancelBooking_flip_then_release (env : Env) (user : User) (id : String) (s : Store)
    (hwritten : (cancelBooking env user id s).2.bookings ≠ s.bookings) :
    ∃ b, Booking.findById s.bookings id = some b
      ∧ b.bookingStatus ≠ BookingStatus.cancelled
      ∧ (Booking.findById (cancelBooking env user id s).2.bookings id).map
          (fun b' => (b'.bookingStatus, b'.tickets))
          = some (BookingStatus.cancelled, b.tickets)
      ∧ (∀ e, Event.findById s.events b.event = some e → env.eventSaveOk = true →
          ∃ e', Event.findById (cancelBooking env user id s).2.events b.event = some e'
            ∧ (∀ name t, findTicket e.tickets name = some t →
                findTicket e'.tickets name = some
                  { t with available := t.available + bookedQuantity b.tickets name })
            ∧ (∀ name, findTicket e.tickets name = none →
                findTicket e'.tickets name = none))
      ∧ (Event.findById s.events b.event = none ∨ env.eventSaveOk = false →
          (cancelBooking env user id s).2.events = s.events)
      ∧ (env.eventSaveOk = false → Event.findById s.events b.event ≠ none →
          (cancelBooking env user id s).1 = .serverError) := by
  obtain ⟨b, hb, hst, _, hfind, hev⟩ := cancelBooking_written env user id s hwritten
  refine ⟨b, hb, hst, ?_, ?_, ?_, ?_⟩
  · rw [hfind]
    simp [(cancelled_fields env.random b).1, (cancelled_fields env.random b).2.2.2.2.1]
  · intro e he hs
    rcases hev with ⟨hnone, _⟩ | ⟨e0, he0, ⟨_, h⟩ | ⟨hs0, _⟩⟩
    · rw [he] at hnone; cases hnone
    · rw [he] at he0
      cases he0
      rw [h]
      exact ⟨_, Event.findById_save_found _ _ _ _ he,
        fun name t ht => releaseTickets_findTicket _ _ _ _ ht,
        fun name hn => releaseTickets_findTicket_none _ _ _ hn⟩
    · rw [hs] at hs0; cases hs0
  · intro hcase
    rcases hev with ⟨_, h⟩ | ⟨e0, he0, ⟨hs0, _⟩ | ⟨_, _, h⟩⟩
    · exact h
    · rcases hcase with hnone | hs
      · rw [he0] at hnone; cases hnone
      · rw [hs] at hs0; cases hs0
    · exact h
  · intro hs hne
    rcases hev with ⟨hnone, _⟩ | ⟨e0, _, ⟨hs0, _⟩ | ⟨_, h, _⟩⟩
    · exact absurd hnone hne
    · rw [hs] at hs0; cases hs0
    · exact h

theorem cancelBooking_flip_then_release_witness :
    (cancelBooking exampleEnv exampleUser "b1" exampleReservedStore).2.bookings
        ≠ exampleReservedStore.bookings
      ∧ cancelBooking exampleEnv exampleUser "b1" exampleReservedStore
        = (.cancelled exampleCancelledBooking,
            { events := [exampleEvent], bookings := [exampleCancelledBooking] })
      ∧ ∃ b, Booking.findById exampleReservedStore.bookings "b1" = some b
        ∧ b.bookingStatus ≠ BookingStatus.cancelled
        ∧ (Booking.findById (cancelBooking exampleEnv exampleUser "b1"
              exampleReservedStore).2.bookings "b1").map
            (fun b' => (b'.bookingStatus, b'.tickets))
            = some (BookingStatus.cancelled, b.tickets) :=
  have h := cancelBooking_flip_then_release exampleEnv exampleUser "b1" exampleReservedStore
    (by decide!)
  ⟨by decide!, by decide!, h.choose, h.choose_spec.1, h.choose_spec.2.1, h.choose_spec.2.2.1⟩

/-- C20, as the specification states it, fails: with 99 of the 100 General tickets
available, cancelling a stored booking of two tickets succeeds and leaves `available` at
101, above `quantity`. -/
theorem cancelBooking_release_not_clamped :
    (Booking.findById exampleOverReleaseStore.bookings "b1").map
        (fun b => (b.bookingStatus, b.tickets.map (fun l => (l.ticketType, l.quantity))))
        = some (BookingStatus.pending, [("General", 2)])
      ∧ exampleOverReleaseStore.events.map
          (fun e => e.tickets.map (fun t => (t.type, t.quantity, t.available)))
          = [[("General", 100, 99)]]
      ∧ (cancelBooking exampleEnv exampleUser "b1" exampleOverReleaseStore).1
          = .cancelled exampleCancelledBooking
      ∧ (cancelBooking exampleEnv exampleUser "b1" exampleOverReleaseStore).2.events.map
          (fun e => e.tickets.map (fun t => (t.type, t.quantity, t.available)))
          = [[("General", 100, 101)]]
      ∧ ¬ ledgerInvariant (cancelBooking exampleEnv exampleUser "b1"
          exampleOverReleaseStore).2 := by
  refine ⟨by decide, by decide, by decide!, by decide!, by decide!⟩

/-- C20, amended. The release is not clamped.  After a `cancelBooking` call that answers
with the 200 response for a booking whose event exists, the ticket found under a name on the
event has its `available` from before plus the quantities of all the lines of the booking
that name it, and its `quantity` from before; so it is at most `quantity` exactly when those
quantities are at most `quantity` minus the `available` from before. -/
theorem cancelBooking_release_unclamped (env : Env) (user : User) (id : String) (s : Store)
    (b saved : Booking) (e : Event)
    (hb : Booking.findById s.bookings id = some b)
    (he : Event.findById s.events b.event = some e)
    (hok : (cancelBooking env user id s).1 = .cancelled saved) :
    ∃ e', Event.findById (cancelBooking env user id s).2.events b.event = some e'
      ∧ ∀ name t, findTicket e.tickets name = some t →
          ∃ t', findTicket e'.tickets name = some t'
            ∧ t'.available = t.available + bookedQuantity b.tickets name
            ∧ t'.quantity = t.quantity
            ∧ (t'.available ≤ t'.quantity ↔
                bookedQuantity b.tickets name ≤ t.quantity - t.available) := by
  obtain ⟨_, _, _, hev, _⟩ := cancelBooking_released env user id s b saved e hb he hok
  refine ⟨_, hev, ?_⟩
  intro name t ht
  refine ⟨_, releaseTickets_findTicket _ _ _ _ ht, rfl, rfl, ?_⟩
  show t.available + bookedQuantity b.tickets name ≤ t.quantity ↔ _
  omega

theorem cancelBooking_release_unclamped_witness :
    Booking.findById exampleOverReleaseStore.bookings "b1" = some exampleBooking
      ∧ (cancelBooking exampleEnv exampleUser "b1" exampleOverReleaseStore).1
          = .cancelled exampleCancelledBooking
      ∧ ∃ e', Event.findById (cancelBooking exampleEnv exampleUser "b1"
            exampleOverReleaseStore).2.events exampleBooking.event = some e'
        ∧ ∀ name t,
            findTicket [{ type := "General", price := 50, quantity := 100, available := 99 }]
              name = some t →
            ∃ t', findTicket e'.tickets name = some t'
              ∧ t'.available = t.available + bookedQuantity exampleBooking.tickets name
              ∧ t'.quantity = t.quantity
              ∧ (t'.available ≤ t'.quantity ↔
                  bookedQuantity exampleBooking.tickets name ≤ t.quantity - t.available) :=
  ⟨by decide, by decide!,
    cancelBooking_release_unclamped exampleEnv exampleUser "b1" exampleOverReleaseStore
      exampleBooking exampleCancelledBooking
      { exampleEvent with
        tickets := [{ type := "General", price := 50, quantity := 100, available := 99 }] }
      (by decide) (by decide) (by decide!)⟩

/-! ## Repeated cancellation and authorization -/

theorem cancelBooking_of_cancelled (env : Env) (user : User) (id : String) (s : Store)
    (b : Booking) (hb : Booking.findById s.bookings id = some b)
    (hst : b.bookingStatus = BookingStatus.cancelled) :
    (cancelBooking env user id s).2 = s
      ∧ ((cancelBooking env user id s).1 = .alreadyCancelled
          ∨ (cancelBooking env user id s).1 = .notAuthorized) := by
  rcases cancelBooking_cases env user id s with ⟨h0, _⟩ | ⟨b0, hb0, h⟩
  · rw [hb] at h0; cases h0
  · rw [hb] at hb0
    cases hb0
    rcases h with ⟨_, h⟩ | ⟨_, _, h⟩ | ⟨_, hne, _⟩
    · rw [h]; exact ⟨rfl, Or.inr rfl⟩
    · rw [h]; exact ⟨rfl, Or.inl rfl⟩
    · exact absurd hst hne

theorem cancelRepeatedly_of_cancelled (calls : List (Env × User)) (id : String) (s : Store)
    (b : Booking) (hb : Booking.findById s.bookings id = some b)
    (hst : b.bookingStatus = BookingStatus.cancelled) :
    cancelRepeatedly calls id s = s := by
  induction calls with
  | nil => rfl
  | cons c cs ih =>
    obtain ⟨env, user⟩ := c
    simp only [cancelRepeatedly]
    rw [(cancelBooking_of_cancelled env user id s b hb hst).1]
    exact ih

/-- C21. For a stored booking with `bookingStatus` cancelled, `cancelBooking` leaves the
whole store, the booking and every counter, as it was (it answers that the booking is
already cancelled, or refuses a requester who is not allowed).  So after a `cancelBooking`
call that answered with the 200 response, any number of further `cancelBooking` calls for
the same booking, by any requesters, leave the store as it was after the first call: the
quantities are released once, and no counter goes above the value reached then. -/
theorem cancelBooking_idempotent :
    (∀ (env : Env) (user : User) (id : String) (s : Store) (b : Booking),
        Booking.findById s.bookings id = some b →
        b.bookingStatus = BookingStatus.cancelled →
        (cancelBooking env user id s).2 = s
          ∧ ((cancelBooking env user id s).1 = .alreadyCancelled
              ∨ (cancelBooking env user id s).1 = .notAuthorized))
      ∧ (∀ (calls : List (Env × User)) (id : String) (s : Store) (b : Booking),
        Booking.findById s.bookings id = some b →
        b.bookingStatus = BookingStatus.cancelled →
        cancelRepeatedly calls id s = s)
      ∧ (∀ (env : Env) (user : User) (id : String) (s : Store) (saved : Booking)
          (calls : List (Env × User)),
        (cancelBooking env user id s).1 = .cancelled saved →
        cancelRepeatedly calls id (cancelBooking env user id s).2
          = (cancelBooking env user id s).2) := by
  refine ⟨cancelBooking_of_cancelled, cancelRepeatedly_of_cancelled, ?_⟩
  intro env user id s saved calls hok
  obtain ⟨b, hb, _, _, hsaved, _, h⟩ := cancelBooking_cancelled env user id s saved hok
  have hid : saved.id = id := by
    rw [hsaved, (cancelled_fields env.random b).2.1]
    exact Booking.findById_has_id _ _ _ hb
  have hfind := Booking.findById_replace_same s.bookings b saved (by rw [hid]; exact hb)
  rw [hid] at hfind
  have hst : saved.bookingStatus = BookingStatus.cancelled := by
    rw [hsaved]; exact (cancelled_fields env.random b).1
  apply cancelRepeatedly_of_cancelled calls id _ saved _ hst
  rcases h with ⟨_, h⟩ | ⟨e, _, _, h⟩ <;> rw [h] <;> exact hfind

theorem cancelBooking_idempotent_witness :
    (cancelBooking exampleEnv exampleUser "b1" exampleReservedStore).1
        = .cancelled exampleCancelledBooking
      ∧ (cancelBooking exampleEnv exampleUser "b1" exampleReservedStore).2
        = { events := [exampleEvent], bookings := [exampleCancelledBooking] }
      ∧ cancelRepeatedly [(exampleEnv, exampleUser), (exampleEnvSaveFails, exampleUser)] "b1"
          (cancelBooking exampleEnv exampleUser "b1" exampleReservedStore).2
        = (cancelBooking exampleEnv exampleUser "b1" exampleReservedStore).2 :=
  ⟨by decide!, by decide!,
    cancelBooking_idempotent.2.2 exampleEnv exampleUser "b1" exampleReservedStore
      exampleCancelledBooking [(exampleEnv, exampleUser), (exampleEnvSaveFails, exampleUser)]
      (by decide!)⟩

/-- C22. For a stored booking, `cancelBooking` answers with the 401 `Not authorized`
response if and only if the requester is neither the owner of the booking nor an admin; that
response comes with the store unchanged, so the `bookingStatus` of the booking and every
counter are as before.  For the owner and for an admin the response is another one. -/
theorem cancelBooking_refused_iff (env : Env) (user : User) (id : String) (s : Store)
    (b : Booking) (hb : Booking.findById s.bookings id = some b) :
    ((cancelBooking env user id s).1 = .notAuthorized ↔
        (b.user ≠ user.id ∧ user.role ≠ "admin"))
      ∧ ((cancelBooking env user id s).1 = .notAuthorized →
          (cancelBooking env user id s).1.status = 401
            ∧ (cancelBooking env user id s).2 = s)
      ∧ (b.user = user.id ∨ user.role = "admin" →
          (cancelBooking env user id s).1 ≠ .notAuthorized) := by
  have hiff : (cancelBooking env user id s).1 = .notAuthorized ↔
      (b.user ≠ user.id ∧ user.role ≠ "admin") := by
    rcases cancelBooking_cases env user id s with ⟨h0, _⟩ | ⟨b0, hb0, h⟩
    · rw [hb] at h0; cases h0
    · rw [hb] at hb0
      cases hb0
      rcases h with ⟨hauth, h⟩ | ⟨hauth, _, h⟩ | ⟨hauth, _, h⟩
      · rw [h]; exact ⟨fun _ => hauth, fun _ => rfl⟩
      · rw [h]; exact ⟨fun h' => (by cases h'), fun h' => absurd h' hauth⟩
      · rcases h with ⟨_, h⟩ | ⟨saved, _, _, h⟩
        · rw [h]; exact ⟨fun h' => (by cases h'), fun h' => absurd h' hauth⟩
        · rcases h with ⟨_, h⟩ | ⟨e, _, ⟨_, h⟩ | ⟨_, h⟩⟩ <;> rw [h] <;>
            exact ⟨fun h' => (by cases h'), fun h' => absurd h' hauth⟩
  refine ⟨hiff, ?_, ?_⟩
  · intro hno
    rcases cancelBooking_cases env user id s with ⟨h0, _⟩ | ⟨b0, hb0, h⟩
    · rw [hb] at h0; cases h0
    · rcases h with ⟨_, h⟩ | ⟨_, _, h⟩ | ⟨_, _, h⟩
      · rw [h]; exact ⟨rfl, rfl⟩
      · rw [h] at hno; cases hno
      · rcases h with ⟨_, h⟩ | ⟨saved, _, _, h⟩
        · rw [h] at hno; cases hno
        · rcases h with ⟨_, h⟩ | ⟨e, _, ⟨_, h⟩ | ⟨_, h⟩⟩ <;> rw [h] at hno <;> cases hno
  · intro hallowed hno
    have := hiff.1 hno
    rcases hallowed with h | h
    · exact this.1 h
    · exact this.2 h

theorem cancelBooking_refused_iff_witness :
    Booking.findById exampleReservedStore.bookings "b1" = some exampleBooking
      ∧ (exampleBooking.user ≠ "user2" ∧ ("user" : String) ≠ "admin")
      ∧ (cancelBooking exampleEnv { id := "user2", role := "user" } "b1"
          exampleReservedStore).1 = .notAuthorized
      ∧ (cancelBooking exampleEnv { id := "user2", role := "user" } "b1"
          exampleReservedStore).2 = exampleReservedStore :=
  have h := cancelBooking_refused_iff exampleEnv { id := "user2", role := "user" } "b1"
    exampleReservedStore exampleBooking (by decide)
  ⟨by decide, by decide, h.1.2 (by decide), (h.2.1 (h.1.2 (by decide))).2⟩

/-! ## Reading the payment status -/

/-- C23. `getPaymentStatus` is a pure read: for every store, requester and booking id the
store after the call is the store before it.  For a stored booking it answers the owner and
an admin with the stored `bookingStatus` and `paymentStatus`, provided that the retrieval of
the payment details from the gateway, which it makes for a booking with a payment id outside
`BYPASS_STRIPE`, does not throw; and it answers anybody else with `Not authorized`, which
carries no status. -/
theorem getPaymentStatus_pure (env : Env) (user : User) (bookingId : String) (s : Store) :
    (getPaymentStatus env user bookingId s).2 = s
      ∧ ∀ b, Booking.findById s.bookings bookingId = some b →
          ((b.user = user.id ∨ user.role = "admin") →
            (env.bypassStripe = true
              ∨ ∀ p, b.paymentId = some p → p ≠ "" → env.retrieve p ≠ none) →
            (getPaymentStatus env user bookingId s).1.carried
              = some (b.bookingStatus, b.paymentStatus))
          ∧ (¬ (b.user = user.id ∨ user.role = "admin") →
            (getPaymentStatus env user bookingId s).1 = .notAuthorized
              ∧ (getPaymentStatus env user bookingId s).1.carried = none) := by
  constructor
  · exact getPaymentStatus_store env user bookingId s
  · intro b hb
    constructor
    · intro hallowed hretrieve
      have hauth : ¬ (b.user ≠ user.id ∧ user.role ≠ "admin") := by
        rintro ⟨h1, h2⟩
        rcases hallowed with h | h
        · exact h1 h
        · exact h2 h
      simp only [getPaymentStatus, hb]
      rw [if_neg hauth]
      cases hp : b.paymentId with
      | none => rfl
      | some p =>
        simp only
        by_cases hempty : p = ""
        · rw [if_pos hempty]; rfl
        · rw [if_neg hempty]
          by_cases hby : env.bypassStripe = true
          · rw [if_pos hby]; rfl
          · rw [if_neg hby]
            rcases hretrieve with h | h
            · exact absurd h hby
            · cases hr : env.retrieve p with
              | none => exact absurd hr (h p hp hempty)
              | some intent => rfl
    · intro hno
      have hauth : b.user ≠ user.id ∧ user.role ≠ "admin" :=
        ⟨fun h => hno (Or.inl h), fun h => hno (Or.inr h)⟩
      simp only [getPaymentStatus, hb]
      rw [if_pos hauth]
      exact ⟨rfl, rfl⟩

theorem getPaymentStatus_pure_witness :
    Booking.findById examplePaidStore.bookings "b1" = some examplePaidBooking
      ∧ (getPaymentStatus exampleEnv exampleUser "b1" examplePaidStore).2 = examplePaidStore
      ∧ (getPaymentStatus exampleEnv exampleUser "b1" examplePaidStore).1.carried
          = some (BookingStatus.confirmed, PaymentStatus.completed)
      ∧ (getPaymentStatus exampleEnv exampleAdmin "b1" examplePaidStore).1.carried
          = some (BookingStatus.confirmed, PaymentStatus.completed)
      ∧ (getPaymentStatus exampleEnv exampleStranger "b1" examplePaidStore).1
          = .notAuthorized :=
  have h := getPaymentStatus_pure exampleEnv exampleUser "b1" examplePaidStore
  have ha := getPaymentStatus_pure exampleEnv exampleAdmin "b1" examplePaidStore
  have hs := getPaymentStatus_pure exampleEnv exampleStranger "b1" examplePaidStore
  ⟨by decide, h.1, (h.2 examplePaidBooking (by decide)).1 (Or.inl rfl) (Or.inl rfl),
    (ha.2 examplePaidBooking (by decide)).1 (Or.inr rfl) (Or.inl rfl),
    ((hs.2 examplePaidBooking (by decide)).2 (by decide)).1⟩

/-! ## The booking reference -/

/-- C24. For every value `r` of the random source with `0 ≤ r < 1`, the pre-save hook gives
a booking without a reference the reference `BK-` followed by the decimal digits of
`floor(1000000 + r * 9000000)`.  That number is an integer `n` with
`1000000 ≤ n ≤ 9999999`, and its decimal representation has exactly seven characters, all of
them digits, the first of which is not `0`. -/
theorem bookingReference_format (r : ℚ) (h0 : 0 ≤ r) (h1 : r < 1) (b : Booking)
    (hnone : b.bookingReference = none ∨ b.bookingReference = some "") :
    ∃ n : Nat, referenceNumber r = (n : Int)
      ∧ referenceNumber r = Int.floor (1000000 + r * 9000000)
      ∧ 1000000 ≤ n ∧ n ≤ 9999999
      ∧ (preSave r b).bookingReference = some ("BK-" ++ toString n)
      ∧ (toString n).length = 7
      ∧ (toString n).data.all Char.isDigit = true
      ∧ (toString n).data.head? ≠ some '0' := by
  have hlo : (1000000 : Int) ≤ referenceNumber r := by
    unfold referenceNumber
    rw [Int.le_floor]
    push_cast
    nlinarith
  have hhi : referenceNumber r < 10000000 := by
    unfold referenceNumber
    rw [Int.floor_lt]
    push_cast
    nlinarith
  obtain ⟨n, hn⟩ : ∃ n : Nat, referenceNumber r = (n : Int) :=
    ⟨(referenceNumber r).toNat, (Int.toNat_of_nonneg (by omega)).symm⟩
  have hn1 : 1000000 ≤ n := by omega
  have hn2 : n ≤ 9999999 := by omega
  have hdigits := toDigits_seven n hn1 hn2
  have hrepr : (toString n).data = Nat.toDigits 10 n := rfl
  refine ⟨n, hn, rfl, hn1, hn2, ?_, ?_, ?_, ?_⟩
  · unfold preSave
    rw [if_pos hnone, hn]
    rfl
  · show (toString n).data.length = 7
    rw [hrepr, hdigits]
    rfl
  · rw [hrepr, hdigits]
    simp only [List.all_cons, List.all_nil, Bool.and_true, Bool.and_eq_true]
    refine ⟨digitChar_isDigit _ (by omega), digitChar_isDigit _ (by omega),
      digitChar_isDigit _ (by omega), digitChar_isDigit _ (by omega),
      digitChar_isDigit _ (by omega), digitChar_isDigit _ (by omega),
      digitChar_isDigit _ (by omega)⟩
  · rw [hrepr, hdigits]
    simp only [List.head?_cons, ne_eq, Option.some.injEq]
    exact digitChar_ne_zero _ (by omega) (by omega)

theorem bookingReference_format_witness :
    (0 : ℚ) ≤ 1 / 2 ∧ (1 / 2 : ℚ) < 1
      ∧ (preSave (1 / 2) { exampleBooking with bookingReference := none }).bookingReference
          = some "BK-5500000"
      ∧ ∃ n : Nat, referenceNumber (1 / 2) = (n : Int)
        ∧ referenceNumber (1 / 2) = Int.floor (1000000 + (1 / 2 : ℚ) * 9000000)
        ∧ 1000000 ≤ n ∧ n ≤ 9999999
        ∧ (preSave (1 / 2) { exampleBooking with bookingReference := none }).bookingReference
            = some ("BK-" ++ toString n)
        ∧ (toString n).length = 7
        ∧ (toString n).data.all Char.isDigit = true
        ∧ (toString n).data.head? ≠ some '0' :=
  ⟨by norm_num, by norm_num, by decide!,
    bookingReference_format (1 / 2) (by norm_num) (by norm_num)
      { exampleBooking with bookingReference := none } (Or.inl rfl)⟩

/-- C25. The pre-save hook leaves a booking that has a non-empty `bookingReference` exactly
as it is.  And neither `processPayment` nor `cancelBooking` changes the user, the event, the
tickets or the total of any stored booking, nor the `bookingReference` of a stored booking
that has one: after the call the booking is still stored under its id with those fields as
before. -/
theorem bookingReference_immutable :
    (∀ (random : ℚ) (b : Booking),
        b.bookingReference ≠ none ∧ b.bookingReference ≠ some "" → preSave random b = b)
      ∧ (∀ (env : Env) (user : User) (body : PaymentBody) (s : Store) (id : String)
          (b : Booking),
        Booking.findById s.bookings id = some b →
        ∃ b', Booking.findById (processPayment env user body s).2.bookings id = some b'
          ∧ b'.user = b.user ∧ b'.event = b.event ∧ b'.tickets = b.tickets
          ∧ b'.totalAmount = b.totalAmount
          ∧ (b.bookingReference ≠ none ∧ b.bookingReference ≠ some "" →
              b'.bookingReference = b.bookingReference))
      ∧ (∀ (env : Env) (user : User) (target : String) (s : Store) (id : String)
          (b : Booking),
        Booking.findById s.bookings id = some b →
        ∃ b', Booking.findById (cancelBooking env user target s).2.bookings id = some b'
          ∧ b'.user = b.user ∧ b'.event = b.event ∧ b'.tickets = b.tickets
          ∧ b'.totalAmount = b.totalAmount
          ∧ (b.bookingReference ≠ none ∧ b.bookingReference ≠ some "" →
              b'.bookingReference = b.bookingReference)) := by
  refine ⟨preSave_of_reference, ?_, ?_⟩
  · intro env user body s id b hb
    rcases processPayment_store env user body s with h | ⟨b₀, intent, hb₀, _, h⟩
    · rw [h]
      exact ⟨b, hb, rfl, rfl, rfl, rfl, fun _ => rfl⟩
    · rw [h]
      have hid := (preSave_fields env.random
        { b₀ with
          paymentStatus := PaymentStatus.completed
          bookingStatus := BookingStatus.confirmed
          paymentId := some intent.id }).1
      have hbid : b₀.id = body.bookingId := Booking.findById_has_id _ _ _ hb₀
      exact Booking.replace_keeps s.bookings body.bookingId b₀ _ hb₀ (hid.trans hbid)
        (preSave_keeps env.random _) id b hb
  · intro env user target s id b hb
    rcases cancelBooking_bookings env user target s with h | ⟨b₀, hb₀, h⟩
    · rw [h]
      exact ⟨b, hb, rfl, rfl, rfl, rfl, fun _ => rfl⟩
    · rw [h]
      have hid := (cancelled_fields env.random b₀).2.1
      have hbid : b₀.id = target := Booking.findById_has_id _ _ _ hb₀
      exact Booking.replace_keeps s.bookings target b₀ _ hb₀ (hid.trans hbid)
        (preSave_keeps env.random _) id b hb

theorem bookingReference_immutable_witness :
    exampleBooking.bookingReference = some "BK-5500000"
      ∧ preSave (1 / 4) exampleBooking = exampleBooking
      ∧ (Booking.findById (processPayment exampleGatewayEnv exampleUser examplePayment
            exampleReservedStore).2.bookings "b1").map (fun b => b.bookingReference)
          = some (some "BK-5500000")
      ∧ (∃ b', Booking.findById (cancelBooking exampleEnv exampleUser "b1"
            exampleReservedStore).2.bookings "b1" = some b'
          ∧ b'.user = exampleBooking.user ∧ b'.event = exampleBooking.event
          ∧ b'.tickets = exampleBooking.tickets
          ∧ b'.totalAmount = exampleBooking.totalAmount
          ∧ (exampleBooking.bookingReference ≠ none
              ∧ exampleBooking.bookingReference ≠ some "" →
              b'.bookingReference = exampleBooking.bookingReference)) :=
  ⟨rfl, bookingReference_immutable.1 (1 / 4) exampleBooking (by decide), by decide!,
    bookingReference_immutable.2.2 exampleEnv exampleUser "b1" exampleReservedStore "b1"
      exampleBooking (by decide)⟩

/-! ## Concurrent reservations -/

/-- C26, as the specification states it, fails.  With one VIP ticket, let two requests for
one ticket each take their steps in turn: both look the event up and see one ticket, both
insert their booking, and both save the event with the counter lowered from 1 to 0.  Both
are answered with the 201 response, `available` is 0, and the two bookings, neither
cancelled, hold 2 tickets of a type whose `quantity` is 1. -/
theorem concurrent_requests_oversell :
    exampleVipStore.events.map
        (fun e => e.tickets.map (fun t => (t.type, t.quantity, t.available)))
        = [[("VIP", 1, 1)]]
      ∧ (runSchedule [0, 1, 0, 1, 0, 1] exampleRace exampleVipStore).1.map
          (fun t => t.response.map (fun r => r.status)) = [some 201, some 201]
      ∧ (runSchedule [0, 1, 0, 1, 0, 1] exampleRace exampleVipStore).2.events.map
          (fun e => e.tickets.map (fun t => (t.type, t.quantity, t.available)))
          = [[("VIP", 1, 0)]]
      ∧ (runSchedule [0, 1, 0, 1, 0, 1] exampleRace exampleVipStore).2.bookings.map
          (fun b => (b.id, b.bookingStatus, b.tickets.map (fun l => (l.ticketType, l.quantity))))
          = [("b1", BookingStatus.pending, [("VIP", 1)]),
             ("b2", BookingStatus.pending, [("VIP", 1)])]
      ∧ reservedQuantity (runSchedule [0, 1, 0, 1, 0, 1] exampleRace exampleVipStore).2.bookings
          "E" "VIP" = 2 := by
  refine ⟨by decide, by decide!, by decide!, by decide!, by decide!⟩

/-- C26, amended. No oversell when the requests do not overlap.  A `createBooking` request
that takes its three steps in a row is the handler `createBooking`.  Start from a store with
no booking in which every ticket type has `available = quantity ≥ 0`, and let any finite
sequence of `createBooking` calls be made one after the other, each naming pairwise distinct
ticket types and each with the save of the event accepted.  Then for the ticket that the
handlers find under a name on an event, the sum of the quantities of all bookings of that
event with `bookingStatus` other than cancelled that reference that name is `quantity` minus
`available`, and never exceeds `quantity`. -/
theorem sequential_requests_no_oversell :
    (∀ (env : Env) (user : User) (body : CreateBookingBody) (s : Store),
        CreateTask.run 3 (.start env user body) s
          = (.finished (createBooking env user body s).1, (createBooking env user body s).2))
      ∧ (∀ (s : Store) (calls : List Call),
        s.bookings = [] →
        (∀ e ∈ s.events, ∀ t ∈ e.tickets, t.available = t.quantity ∧ 0 ≤ t.quantity) →
        (∀ c ∈ calls, c.reserving) →
        ∀ id e, Event.findById (runCalls calls s).events id = some e →
          ∀ name t, findTicket e.tickets name = some t →
            reservedQuantity (runCalls calls s).bookings id name = t.quantity - t.available
              ∧ 0 ≤ t.available
              ∧ reservedQuantity (runCalls calls s).bookings id name ≤ t.quantity) := by
  refine ⟨CreateTask.run_start, ?_⟩
  intro s calls hempty hfull hres id e he name t ht
  have hacc := accounted_of_initial s hempty (fun e he t ht => (hfull e he t ht).1)
  have hinv : ∀ e ∈ s.events, ∀ t ∈ e.tickets, 0 ≤ t.available := by
    intro e he t ht
    obtain ⟨h1, h2⟩ := hfull e he t ht
    omega
  obtain ⟨hacc', hinv'⟩ := reserving_runCalls calls s hacc hinv hres
  have h1 := hacc' id e he name t ht
  have h2 := hinv' e (Event.findById_mem _ _ _ he) t (List.mem_of_find?_eq_some ht)
  refine ⟨by omega, h2, by omega⟩

theorem sequential_requests_no_oversell_witness :
    (runSchedule [0, 0, 0, 1, 1, 1] exampleRace exampleVipStore).1.map
        (fun t => t.response) = [some (.created
          { exampleBooking with
            tickets := [{ ticketType := "VIP", quantity := 1, price := 90 }]
            totalAmount := 90 }), some (.notEnoughTickets "VIP")]
      ∧ (runSchedule [0, 0, 0, 1, 1, 1] exampleRace exampleVipStore).2
        = runCalls [Call.createBooking exampleEnv exampleUser exampleVipRequest,
            Call.createBooking exampleEnvSecond exampleStranger exampleVipRequest]
            exampleVipStore
      ∧ Event.findById (runCalls [Call.createBooking exampleEnv exampleUser exampleVipRequest,
            Call.createBooking exampleEnvSecond exampleStranger exampleVipRequest]
            exampleVipStore).events "E"
          = some { exampleEvent with
              tickets := [{ type := "VIP", price := 90, quantity := 1, available := 0 }] }
      ∧ reservedQuantity (runCalls [Call.createBooking exampleEnv exampleUser exampleVipRequest,
            Call.createBooking exampleEnvSecond exampleStranger exampleVipRequest]
            exampleVipStore).bookings "E" "VIP" = 1 - 0 :=
  have hfind : Event.findById (runCalls
      [Call.createBooking exampleEnv exampleUser exampleVipRequest,
        Call.createBooking exampleEnvSecond exampleStranger exampleVipRequest]
      exampleVipStore).events "E"
      = some { exampleEvent with
          tickets := [{ type := "VIP", price := 90, quantity := 1, available := 0 }] } := by
    decide!
  ⟨by decide!, by decide!, hfind,
    (sequential_requests_no_oversell.2 exampleVipStore
      [Call.createBooking exampleEnv exampleUser exampleVipRequest,
        Call.createBooking exampleEnvSecond exampleStranger exampleVipRequest]
      rfl (by decide) (by decide) "E" _ hfind "VIP"
      { type := "VIP", price := 90, quantity := 1, available := 0 } (by decide)).1⟩

/-! ## Which operations write the counters -/

/-- C27, as the specification states it, fails: `updateEvent` writes the request body over
the event, so an admin (or the organizer of the event) who sends a ticket list changes the
counters; here `available` of General goes from 100 to 500. -/
theorem updateEvent_writes_available :
    exampleStore.events.map (fun e => e.tickets.map (fun t => (t.type, t.available)))
        = [[("General", 100)]]
      ∧ (updateEvent exampleEnv exampleAdmin "E" exampleEventUpdate exampleStore).2.events.map
          (fun e => e.tickets.map (fun t => (t.type, t.available)))
          = [[("General", 500)]]
      ∧ (updateEvent exampleEnv exampleAdmin "E" exampleEventUpdate exampleStore).1
          = .updated { exampleEvent with
              tickets :=
                [{ type := "General", price := 50, quantity := 100, available := 500 }] } := by
  refine ⟨by decide, by decide!, by decide!⟩

/-- C27, amended. Among the operations on events and bookings, `updateBooking`,
`processPayment`, `getPaymentStatus` and `createPaymentIntent` leave every event, and so
every `available` counter, as it was, for every request body.  `updateEvent` leaves the
store as it was when it answers anything but 200, which is the answer for a requester who is
neither the organizer of the event nor an admin.  When it answers 200, the requester is the
organizer or an admin and the event is stored as the database makes it under the request
body, which the handler passes on as it is; for a body of top-level fields with a `tickets`
field that is the ticket list of the body (the ticket types trimmed), counters included. -/
theorem inventory_writers :
    (∀ (env : Env) (user : User) (id : String) (body : BookingUpdate) (s : Store),
        (updateBooking env user id body s).2.events = s.events)
      ∧ (∀ (env : Env) (user : User) (body : PaymentBody) (s : Store),
        (processPayment env user body s).2.events = s.events)
      ∧ (∀ (env : Env) (user : User) (bookingId : String) (s : Store),
        (getPaymentStatus env user bookingId s).2 = s)
      ∧ (∀ (env : Env) (user : User) (body : PaymentBody) (s : Store),
        (createPaymentIntent env user body s).2 = s)
      ∧ (∀ (env : Env) (user : User) (id : String) (body : EventUpdate) (s : Store),
        (∀ e', (updateEvent env user id body s).1 ≠ .updated e') →
        (updateEvent env user id body s).2 = s)
      ∧ (∀ (env : Env) (user : User) (id : String) (body : EventUpdate) (s : Store)
          (e : Event),
        Event.findById s.events id = some e →
        e.organizer ≠ user.id ∧ user.role ≠ "admin" →
        updateEvent env user id body s = (.notAuthorized, s))
      ∧ (∀ (env : Env) (user : User) (id : String) (body : EventUpdate) (s : Store)
          (e' : Event),
        (updateEvent env user id body s).1 = .updated e' →
        ∃ e, Event.findById s.events id = some e
          ∧ (e.organizer = user.id ∨ user.role = "admin")
          ∧ body.result e = some e'
          ∧ Event.findById (updateEvent env user id body s).2.events id = some e')
      ∧ (∀ (env : Env) (user : User) (id : String) (doc : EventFields) (s : Store)
          (ts : List EventTicket) (e' : Event),
        doc.tickets = some ts →
        (updateEvent env user id (.fields doc) s).1 = .updated e' →
        Event.findById (updateEvent env user id (.fields doc) s).2.events id = some e'
          ∧ e'.tickets = ts.map EventTicket.trimmed) := by
  have hupdated : ∀ (env : Env) (user : User) (id : String) (body : EventUpdate) (s : Store)
      (e' : Event), (updateEvent env user id body s).1 = .updated e' →
      ∃ e, Event.findById s.events id = some e
        ∧ (e.organizer = user.id ∨ user.role = "admin")
        ∧ body.result e = some e'
        ∧ Event.findById (updateEvent env user id body s).2.events id = some e' := by
    intro env user id body s e' hok
    rcases updateEvent_cases env user id body s with ⟨_, hno⟩ | ⟨e, e₁, he, hauth, _, hr, h⟩
    · exact absurd hok (hno e')
    · rw [h] at hok ⊢
      cases hok
      have hid : e.id = id := Event.findById_id _ _ _ he
      have hid' : e'.id = e.id := EventUpdate.result_id body e e' hr
      have hfind := Event.findById_save_same s.events e e'
        (by rw [hid', hid]; exact he)
      rw [hid', hid] at hfind
      refine ⟨e, he, ?_, hr, hfind⟩
      by_cases ho : e.organizer = user.id
      · exact Or.inl ho
      · right
        by_contra hr'
        exact hauth ⟨ho, hr'⟩
  refine ⟨updateBooking_events, ?_, getPaymentStatus_store, createPaymentIntent_store, ?_, ?_,
    hupdated, ?_⟩
  · intro env user body s
    rcases processPayment_store env user body s with h | ⟨b, intent, _, _, h⟩ <;> rw [h]
  · intro env user id body s hno
    rcases updateEvent_cases env user id body s with ⟨h, _⟩ | ⟨e, e', _, _, _, _, h⟩
    · exact h
    · exact absurd (by rw [h]) (hno e')
  · intro env user id body s e he hauth
    simp only [updateEvent, he]
    rw [if_pos hauth]
  · intro env user id doc s ts e' hsome hok
    obtain ⟨e, _, _, hr, hfind⟩ := hupdated env user id (.fields doc) s e' hok
    refine ⟨hfind, ?_⟩
    simp only [EventUpdate.result] at hr
    split at hr
    · cases hr
      simp [Event.applyUpdate, hsome]
    · cases hr

theorem inventory_writers_witness :
    exampleEventUpdate
        = .fields
            { tickets :=
                some [{ type := "General", price := 50, quantity := 100, available := 500 }] }
      ∧ (updateEvent exampleEnv exampleAdmin "E" exampleEventUpdate exampleStore).1
          = .updated { exampleEvent with
              tickets :=
                [{ type := "General", price := 50, quantity := 100, available := 500 }] }
      ∧ Event.findById (updateEvent exampleEnv exampleAdmin "E" exampleEventUpdate
            exampleStore).2.events "E"
          = some { exampleEvent with
              tickets :=
                [{ type := "General", price := 50, quantity := 100, available := 500 }] }
      ∧ updateEvent exampleEnv exampleStranger "E" exampleEventUpdate exampleStore
          = (.notAuthorized, exampleStore) :=
  have h := inventory_writers.2.2.2.2.2.2.2 exampleEnv exampleAdmin "E"
    { tickets := some [{ type := "General", price := 50, quantity := 100, available := 500 }] }
    exampleStore _ _ rfl (by decide!)
  ⟨rfl, by decide!, h.1,
    inventory_writers.2.2.2.2.2.1 exampleEnv exampleStranger "E" exampleEventUpdate
      exampleStore exampleEvent (by decide) (by decide)⟩

/-! ## Round trip -/

/-- C28. Let a `createBooking` request succeed, with or without repeated ticket type names,
and let the booking it created then be cancelled with a `cancelBooking` call that answers
with the 200 response, in a store whose events are those left by the reservation and in
which the booking still has its event and its lines (it may have been paid for in between).
Then the events after the cancellation are the events before the reservation: every ticket
type has the `available` it had before the `createBooking` call. -/
theorem reserve_release_roundtrip (env env₂ : Env) (user user₂ : User)
    (body : CreateBookingBody) (s s₁ s₁' : Store) (b b₁ saved : Booking)
    (hcreate : createBooking env user body s = (.created b, s₁))
    (hevents : s₁'.events = s₁.events)
    (hstored : Booking.findById s₁'.bookings b.id = some b₁)
    (hlines : b₁.event = b.event ∧ b₁.tickets = b.tickets)
    (hcancel : (cancelBooking env₂ user₂ b.id s₁').1 = .cancelled saved) :
    (cancelBooking env₂ user₂ b.id s₁').2.events = s.events := by
  obtain ⟨e, ts', he, hb, hu, _, hs₁⟩ := createBooking_created env user body s s₁ b hcreate
  obtain ⟨_, hcast, _, _, _, _, hev, _⟩ := Booking.create_eq_some _ _ _ _ _ hb
  have hbev : b.event = body.event := hev
  have hid : e.id = body.event := Event.findById_id _ _ _ he
  have hs₁e : s₁'.events = Event.save s.events { e with tickets := ts' } := by
    rw [hevents, hs₁]
  have hfound : Event.findById s₁'.events b₁.event = some { e with tickets := ts' } := by
    rw [hs₁e, hlines.1, hbev]
    exact Event.findById_save_found _ _ _ _ he
  obtain ⟨_, _, _, hrel, _⟩ := cancelBooking_released env₂ user₂ b.id s₁' b₁ saved _
    hstored hfound hcancel
  obtain ⟨b₀, hb₀, _, _, _, _, h⟩ := cancelBooking_cancelled env₂ user₂ b.id s₁' saved hcancel
  rw [hstored] at hb₀
  cases hb₀
  rcases h with ⟨hnone, _⟩ | ⟨e₀, he₀, _, h⟩
  · rw [hfound] at hnone; cases hnone
  · rw [hfound] at he₀
    cases he₀
    rw [h]
    show Event.save s₁'.events
      { e with tickets := releaseTickets ts' b₁.tickets } = s.events
    rw [hs₁e, releaseTickets_eq, updateAvailability_eq_some _ _ _ hu, hlines.2,
      adjustAll_roundtrip e.tickets body.tickets b.tickets
        (fun name => bookedQuantity_of_cast _ _ hcast name)]
    exact Event.save_save s.events e _ (by rw [hid]; exact he) rfl

theorem reserve_release_roundtrip_witness :
    createBooking exampleEnv exampleUser exampleRepeated exampleStore
        = (.created exampleRepeatedBooking,
            { events := [exampleEventAfter], bookings := [exampleRepeatedBooking] })
      ∧ (cancelBooking exampleEnv exampleUser exampleRepeatedBooking.id
          { events := [exampleEventAfter], bookings := [exampleRepeatedBooking] }).1
          = .cancelled { exampleRepeatedBooking with bookingStatus := BookingStatus.cancelled }
      ∧ (cancelBooking exampleEnv exampleUser exampleRepeatedBooking.id
          { events := [exampleEventAfter], bookings := [exampleRepeatedBooking] }).2.events
          = exampleStore.events :=
  have hc : createBooking exampleEnv exampleUser exampleRepeated exampleStore
      = (.created exampleRepeatedBooking,
          { events := [exampleEventAfter], bookings := [exampleRepeatedBooking] }) := by
    decide!
  have hk : (cancelBooking exampleEnv exampleUser exampleRepeatedBooking.id
      { events := [exampleEventAfter], bookings := [exampleRepeatedBooking] }).1
      = .cancelled { exampleRepeatedBooking with bookingStatus := BookingStatus.cancelled } := by
    decide!
  ⟨hc, hk,
    reserve_release_roundtrip exampleEnv exampleEnv exampleUser exampleUser exampleRepeated
      exampleStore _ _ exampleRepeatedBooking exampleRepeatedBooking _ hc rfl (by decide)
      ⟨rfl, rfl⟩ hk⟩

/-! ## Payment for a cancelled booking -/

/-- C29 does not hold of the code.  The booking of the scenario is cancelled, its payment is
pending and its two tickets are released, so all 100 are available.  Its owner calls
`processPayment` and the gateway confirms the charge: the handler looks at `paymentStatus`
only, and stores the booking with `bookingStatus` confirmed, while the counters stay as
they are. -/
theorem processPayment_revives_cancelled :
    Booking.findById exampleCancelledStore.bookings "b1" = some exampleCancelledBooking
      ∧ exampleCancelledBooking.bookingStatus = BookingStatus.cancelled
      ∧ exampleCancelledBooking.paymentStatus = PaymentStatus.pending
      ∧ processPayment exampleGatewayEnv exampleUser examplePayment exampleCancelledStore
          = (.paymentSuccessful examplePaidBooking
              { id := "pi_1", amount := 10000, status := "succeeded" },
              { events := [exampleEvent], bookings := [examplePaidBooking] })
      ∧ (Booking.findById (processPayment exampleGatewayEnv exampleUser examplePayment
            exampleCancelledStore).2.bookings "b1").map (fun b => b.bookingStatus)
          = some BookingStatus.confirmed := by
  refine ⟨by decide, rfl, rfl, by decide!, by decide!⟩

/-! ## The cart total -/

/-- C30. For every state `s` of the cart and every action, the state after the action has
`total = calculateTotal(items)` if `s` has, where `calculateTotal` is the sum of price times
quantity over the items, rounded to two decimals; and its items name pairwise distinct
pairs of event id and ticket type id if those of `s` do.  `ADD_ITEM` for a pair that is in
the cart adds the quantity to the item of that pair and appends nothing. -/
theorem cartReducer_invariant (s : CartState) (a : CartAction) :
    (s.total = calculateTotal s.items →
        (cartReducer s a).total = calculateTotal (cartReducer s a).items)
      ∧ ((cartKeys s.items).Nodup → (cartKeys (cartReducer s a).items).Nodup)
      ∧ (∀ payload, a = .addItem payload →
          (payload.eventId, payload.ticketTypeId) ∈ cartKeys s.items →
          cartKeys (cartReducer s a).items = cartKeys s.items
            ∧ (cartReducer s a).items
                = addQuantity payload.eventId payload.ticketTypeId payload.quantity s.items) := by
  refine ⟨?_, ?_, ?_⟩
  · intro htotal
    cases a with
    | addItem payload =>
      simp only [cartReducer]
      split <;> rfl
    | removeItem eventId ticketTypeId => rfl
    | updateQuantity eventId ticketTypeId quantity => rfl
    | clearCart => exact calculateTotal_nil.symm
    | bookingStart => exact htotal
    | bookingSuccess payload => exact calculateTotal_nil.symm
    | bookingFailure payload => exact htotal
    | resetBookingStatus => exact htotal
    | unknown => exact htotal
  · intro hnodup
    cases a with
    | addItem payload =>
      simp only [cartReducer]
      split
      · simp only [addQuantity_keys]
        exact hnodup
      · rename_i hany
        show (cartKeys (s.items ++ [payload])).Nodup
        unfold cartKeys
        rw [List.map_append, List.nodup_append]
        refine ⟨hnodup, by simp, ?_⟩
        intro k hk hk'
        simp only [List.map_cons, List.map_nil, List.mem_singleton] at hk'
        subst hk'
        exact not_mem_cartKeys s.items _ _ hany hk
    | removeItem eventId ticketTypeId =>
      exact hnodup.sublist (List.Sublist.map _ (List.filter_sublist _))
    | updateQuantity eventId ticketTypeId quantity =>
      show (cartKeys (s.items.map _)).Nodup
      rw [updateQuantity_keys]
      exact hnodup
    | clearCart => exact List.nodup_nil
    | bookingStart => exact hnodup
    | bookingSuccess payload => exact List.nodup_nil
    | bookingFailure payload => exact hnodup
    | resetBookingStatus => exact hnodup
    | unknown => exact hnodup
  · intro payload ha hmem
    subst ha
    have hany : s.items.any
        (fun item => item.hasKey payload.eventId payload.ticketTypeId) = true := by
      by_contra h
      exact not_mem_cartKeys s.items _ _ h hmem
    simp only [cartReducer, hany, if_true]
    exact ⟨addQuantity_keys _ _ _ _, trivial⟩

theorem cartReducer_invariant_witness :
    exampleCart.total = calculateTotal exampleCart.items
      ∧ (cartKeys exampleCart.items).Nodup
      ∧ (cartReducer exampleCart (.addItem
          { eventId := "E", ticketTypeId := "t1", ticketType := "General",
            price := 50, quantity := 3 })).items
          = [{ eventId := "E", ticketTypeId := "t1", ticketType := "General",
               price := 50, quantity := 5 }]
      ∧ (cartReducer exampleCart (.addItem
          { eventId := "E", ticketTypeId := "t1", ticketType := "General",
            price := 50, quantity := 3 })).total = 250
      ∧ (cartReducer exampleCart (.addItem
          { eventId := "E", ticketTypeId := "t1", ticketType := "General",
            price := 50, quantity := 3 })).total
          = calculateTotal (cartReducer exampleCart (.addItem
              { eventId := "E", ticketTypeId := "t1", ticketType := "General",
                price := 50, quantity := 3 })).items
      ∧ (cartKeys (cartReducer exampleCart (.addItem
          { eventId := "E", ticketTypeId := "t1", ticketType := "General",
            price := 50, quantity := 3 })).items).Nodup :=
  have h := cartReducer_invariant exampleCart (.addItem
    { eventId := "E", ticketTypeId := "t1", ticketType := "General",
      price := 50, quantity := 3 })
  ⟨by decide!, by decide, by decide!, by decide!, h.1 (by decide!), h.2.1 (by decide)⟩

end Ticketing
